import Mathlib

/-!
# OSKAR system-noise loader: embedding and verified properties

Sources embedded here: `apps/lib/src/oskar_telescope_model_noise_load.cpp`,
`imaging/src/oskar_get_image_stokes.c`, `utility/src/oskar_mem_create_alias.c`
and `math/oskar_Matrix3.h`.

Conventions of the embedding.

* Floating-point buffers hold elements of an ordered field `α`; the two storage
  widths (`float`, `double`) run the same arithmetic, so both branches of every
  kernel are kept and compute the same exact values.  The libm square root is a
  parameter `sqrt : α → α`; the theorems that speak of real arithmetic take
  `α = ℝ` and `sqrt = Real.sqrt`.
* `evaluate_range_rounded` and `load_noise_freqs_rounded` are the range and
  frequency generators with the floating-point roundings made explicit: the
  rounding of every double operation and the rounding of a store into a
  `float` buffer are parameters, `ieee_double` and `ieee_float` being round to
  nearest, ties to even, at 53 and 24 significant bits.  Without rounding they
  are `evaluate_range` and `load_noise_freqs`.
* `int* status` is a value of `Status` passed in and returned.
* Pointer parameters that every call site fills with the address of a live
  object (`rms`, `sensitivity`, `values`, `noise`, `status`, ...) are passed by
  value and returned.  The pointers that can refer to no object, the `station`
  argument of `load_directories` (null at depth 0) and the station and
  frequency buffers it reaches by index, are `Option`s; a function that
  accesses memory through such a pointer returns `none`.
* Functions of the library whose bodies are not among the sources at hand
  (`oskar_mem_realloc`, `oskar_mem_copy`, `oskar_system_noise_model_load`,
  `oskar_telescope_model_resize`, `oskar_station_model_init`, the `oskar_Mem`
  constructor) are modelled from the specification; each says so in its
  comment.  Memory allocation is taken to succeed.
* Element counts (`num_elements`, `num_freqs`, `num_values`) are lengths, hence
  natural numbers.
* Complex buffers hold `double2` or `double4c` elements over `α`; the arrays
  `T[9]` and `T[3]` of `Matrix3` are functions on `Fin 9` and `Fin 3` into a
  commutative ring, and an output array is the value returned.
-/

namespace OSKAR

/-- Status codes of the library (`OSKAR_ERR_*`); `OSKAR_SUCCESS` is the only
value for which `if (*status)` is false. -/
inductive Status where
  | OSKAR_SUCCESS
  | OSKAR_ERR_INVALID_ARGUMENT
  | OSKAR_ERR_MEMORY_ALLOC_FAILURE
  | OSKAR_ERR_FILE_IO
  | OSKAR_ERR_BAD_LOCATION
  | OSKAR_ERR_TYPE_MISMATCH
  | OSKAR_ERR_DIMENSION_MISMATCH
  | OSKAR_ERR_BAD_DATA_TYPE
  | OSKAR_ERR_SETTINGS_INTERFEROMETER_NOISE
  | OSKAR_ERR_SETUP_FAIL_TELESCOPE
  | OSKAR_ERR_UNKNOWN
  deriving DecidableEq, Repr

/-- Element type tag of a typed numeric buffer (`oskar_Mem::type`). -/
inductive MemType where
  | OSKAR_SINGLE
  | OSKAR_DOUBLE
  | OSKAR_SINGLE_COMPLEX
  | OSKAR_DOUBLE_COMPLEX
  deriving DecidableEq, Repr

/-- Typed numeric buffer `oskar_Mem` resident in host memory: the type tag and
the elements; `num_elements` is the number of elements held. -/
structure oskar_Mem (α : Type) where
  type : MemType
  data : List α
  deriving DecidableEq, Repr

/-- Field `num_elements` of `oskar_Mem`. -/
def oskar_Mem.num_elements {α : Type} (m : oskar_Mem α) : Nat := m.data.length

section Kernels

variable {α : Type} [LinearOrderedField α]

/-- Modelled from the spec: `oskar_mem_realloc` (declared in `oskar_mem_realloc.h`,
body not in the sources at hand) resizes a buffer to `num_elements` elements,
keeping the leading elements it had; new elements are written as `0`.  It is a
no-op when entered with a failed status, and allocation itself is taken to
succeed. -/
def oskar_mem_realloc (mem : oskar_Mem α) (num_elements : Nat) (status : Status) :
    oskar_Mem α × Status :=
  if status ≠ Status.OSKAR_SUCCESS then (mem, status)
  else ({ mem with data := (mem.data ++ List.replicate num_elements 0).take num_elements },
        status)

/-- The loop `for (i = 0; i < n; ++i) buf[i] = f i;` over a buffer `buf`. -/
def store_loop (n : Nat) (f : Nat → α) (buf : List α) : List α :=
  (List.range n).foldl (fun b i => b.set i (f i)) buf

/-- Embedding of `sensitivity_to_rms` (source lines 545-597).  Reads of
`sensitivity_[i]` are `getD i 0`; the length check makes every read in bounds. -/
def sensitivity_to_rms (sqrt : α → α) (rms sensitivity : oskar_Mem α) (num_freqs : Nat)
    (bandwidth integration_time : α) (status : Status) : oskar_Mem α × Status :=
  if status ≠ Status.OSKAR_SUCCESS then (rms, status)
  else
    let type := rms.type
    if sensitivity.type ≠ type then (rms, Status.OSKAR_ERR_TYPE_MISMATCH)
    else if sensitivity.num_elements ≠ num_freqs then
      (rms, Status.OSKAR_ERR_DIMENSION_MISMATCH)
    else
      let r := if rms.num_elements ≠ num_freqs then oskar_mem_realloc rms num_freqs status
               else (rms, status)
      if r.2 ≠ Status.OSKAR_SUCCESS then r
      else
        let factor := 1 / sqrt (2 * bandwidth * integration_time)
        if type = MemType.OSKAR_DOUBLE then
          ({ r.1 with data :=
              store_loop num_freqs (fun i => sensitivity.data.getD i 0 * factor) r.1.data }, r.2)
        else if type = MemType.OSKAR_SINGLE then
          ({ r.1 with data :=
              store_loop num_freqs (fun i => sensitivity.data.getD i 0 * factor) r.1.data }, r.2)
        else (r.1, Status.OSKAR_ERR_BAD_DATA_TYPE)

/-- Boltzmann constant as written in `t_sys_to_rms`: `1.3806488e-23`. -/
def k_B : α := 13806488 / 10 ^ 30

/-- Embedding of `t_sys_to_rms` (source lines 599-656).  The length check of
the source covers `t_sys` and `area` only. -/
def t_sys_to_rms (sqrt : α → α) (rms t_sys area efficiency : oskar_Mem α) (num_freqs : Nat)
    (bandwidth integration_time : α) (status : Status) : oskar_Mem α × Status :=
  if status ≠ Status.OSKAR_SUCCESS then (rms, status)
  else
    let type := rms.type
    if t_sys.type ≠ type ∨ area.type ≠ type ∨ efficiency.type ≠ type then
      (rms, Status.OSKAR_ERR_TYPE_MISMATCH)
    else if t_sys.num_elements ≠ num_freqs ∨ area.num_elements ≠ num_freqs then
      (rms, Status.OSKAR_ERR_DIMENSION_MISMATCH)
    else
      let r := if rms.num_elements ≠ num_freqs then oskar_mem_realloc rms num_freqs status
               else (rms, status)
      if r.2 ≠ Status.OSKAR_SUCCESS then r
      else
        let factor := (2 * k_B * 10 ^ 26) / sqrt (2 * bandwidth * integration_time)
        let body : Nat → α := fun i =>
          (t_sys.data.getD i 0 / (area.data.getD i 0 * efficiency.data.getD i 0)) * factor
        if type = MemType.OSKAR_DOUBLE then
          ({ r.1 with data := store_loop num_freqs body r.1.data }, r.2)
        else if type = MemType.OSKAR_SINGLE then
          ({ r.1 with data := store_loop num_freqs body r.1.data }, r.2)
        else (r.1, Status.OSKAR_ERR_BAD_DATA_TYPE)

/-- Embedding of `evaluate_range` (source lines 658-694), in exact arithmetic;
`evaluate_range_rounded` is the same function with the roundings. -/
def evaluate_range (values : oskar_Mem α) (num_values : Nat) (start end_ : α)
    (status : Status) : oskar_Mem α × Status :=
  if status ≠ Status.OSKAR_SUCCESS then (values, status)
  else
    let inc := (end_ - start) / (num_values : α)
    let r := if values.num_elements ≠ num_values then
               oskar_mem_realloc values num_values status
             else (values, status)
    if r.2 ≠ Status.OSKAR_SUCCESS then r
    else if r.1.type = MemType.OSKAR_DOUBLE then
      ({ r.1 with data := store_loop num_values (fun i => start + (i : α) * inc) r.1.data }, r.2)
    else if r.1.type = MemType.OSKAR_SINGLE then
      ({ r.1 with data := store_loop num_values (fun i => start + (i : α) * inc) r.1.data }, r.2)
    else (r.1, Status.OSKAR_ERR_BAD_DATA_TYPE)

/-- Constant `DBL_MIN` of `<cfloat>`: the smallest positive normalised double,
`2^-1022`. -/
def DBL_MIN : α := 1 / 2 ^ 1022

end Kernels

/-! ## Settings, file names and the file system -/

/-- Values of the settings enumeration `OSKAR_SYSTEM_NOISE_*`.  The frequency
specification, the noise-value specification and the per-quantity override are
all `int` fields holding values of this one enumeration. -/
inductive NoiseSpec where
  | OSKAR_SYSTEM_NOISE_TELESCOPE_MODEL
  | OSKAR_SYSTEM_NOISE_OBS_SETTINGS
  | OSKAR_SYSTEM_NOISE_DATA_FILE
  | OSKAR_SYSTEM_NOISE_RANGE
  | OSKAR_SYSTEM_NOISE_RMS
  | OSKAR_SYSTEM_NOISE_SENSITIVITY
  | OSKAR_SYSTEM_NOISE_SYS_TEMP
  | OSKAR_SYSTEM_NOISE_NO_OVERRIDE
  deriving DecidableEq, Repr

/-- Per-quantity noise settings (`ns->value.rms`, `.sensitivity`, `.t_sys`,
`.area`, `.efficiency`): override mode, data file, range bounds. -/
structure oskar_SettingsSystemNoiseType (α : Type) where
  override : NoiseSpec
  file : String
  start : α
  end_ : α

/-- Settings `ns->value`. -/
structure oskar_SettingsSystemNoiseValue (α : Type) where
  specification : NoiseSpec
  rms : oskar_SettingsSystemNoiseType α
  sensitivity : oskar_SettingsSystemNoiseType α
  t_sys : oskar_SettingsSystemNoiseType α
  area : oskar_SettingsSystemNoiseType α
  efficiency : oskar_SettingsSystemNoiseType α

/-- Settings `noise->freq`. -/
structure oskar_SettingsSystemNoiseFreq (α : Type) where
  specification : NoiseSpec
  file : String
  number : Nat
  start : α
  inc : α

/-- Settings `settings->interferometer.noise`. -/
structure oskar_SettingsSystemNoise (α : Type) where
  enable : Bool
  freq : oskar_SettingsSystemNoiseFreq α
  value : oskar_SettingsSystemNoiseValue α

/-- Settings `settings->interferometer`. -/
structure oskar_SettingsInterferometer (α : Type) where
  channel_bandwidth_hz : α
  noise : oskar_SettingsSystemNoise α

/-- Settings `settings->obs` (the fields the noise loader reads). -/
structure oskar_SettingsObservation (α : Type) where
  length_seconds : α
  num_time_steps : Nat
  num_channels : Nat
  start_frequency_hz : α
  frequency_inc_hz : α

/-- Settings `settings->sim`. -/
structure oskar_SettingsSimulator where
  double_precision : Bool

/-- Settings `settings->telescope`. -/
structure oskar_SettingsTelescope where
  input_directory : String

/-- The settings snapshot `oskar_Settings` (the fields the noise loader reads). -/
structure oskar_Settings (α : Type) where
  sim : oskar_SettingsSimulator
  obs : oskar_SettingsObservation α
  telescope : oskar_SettingsTelescope
  interferometer : oskar_SettingsInterferometer α

/-- System noise file names (source lines 47-53). -/
def freq_file : String := "noise_frequencies.txt"
/-- File name of the RMS file. -/
def rms_file : String := "rms.txt"
/-- File name of the sensitivity file. -/
def sensitivity_file : String := "sensitivity.txt"
/-- File name of the system temperature file. -/
def t_sys_file : String := "t_sys.txt"
/-- File name of the effective area file. -/
def area_file : String := "area.txt"
/-- File name of the efficiency file. -/
def efficiency_file : String := "efficiency.txt"

/-- The dictionary `QHash<QString, QString>` from file name to path.  A key
that was never set reads as the empty string, which is what `operator[]`
returns for it; the source only ever reads the dictionary through `operator[]`,
so the default entry that `operator[]` inserts cannot be observed. -/
abbrev FileMap := String → String

/-- The empty dictionary. -/
def FileMap.empty : FileMap := fun _ => ""

/-- Assignment `files[key] = path`. -/
def FileMap.insert (files : FileMap) (key path : String) : FileMap :=
  fun k => if k = key then path else files k

/-- A directory as seen through `QDir`: its absolute path, the names `n` for
which `dir.exists(n)` holds, and its immediate subdirectories in the order
`entryList(QDir::AllDirs | QDir::NoDotAndDotDot, QDir::Name)` lists them. -/
inductive QDir where
  | mk (path : String) (entries : List String) (subdirs : List QDir)

/-- Absolute path of a directory. -/
def QDir.path : QDir → String
  | QDir.mk p _ _ => p

/-- Names found directly inside a directory. -/
def QDir.entries : QDir → List String
  | QDir.mk _ e _ => e

/-- Immediate subdirectories, in name order. -/
def QDir.subdirs : QDir → List QDir
  | QDir.mk _ _ c => c

/-- Call `dir.exists(name)`. -/
def QDir.exists_ (dir : QDir) (name : String) : Bool := decide (name ∈ dir.entries)

/-- Call `dir.absoluteFilePath(name)`. -/
def QDir.absoluteFilePath (dir : QDir) (name : String) : String :=
  dir.path ++ "/" ++ name

/-- The file system the loader runs against: `exists_ p` is `QFile::exists(p)`,
`load p` is the list of values the noise-file reader obtains from `p` (or
`none` when reading fails), `dir p` is the directory at `p` when there is one. -/
structure FileSystem (α : Type) where
  exists_ : String → Bool
  load : String → Option (List α)
  dir : String → Option QDir

section Loaders

variable {α : Type} [LinearOrderedField α]

/-- Modelled from the spec: `oskar_system_noise_model_load` (body not in the
sources at hand) fills the buffer with the N values of the file, N determined
by the file content, at the buffer's declared precision; a failed read sets
`OSKAR_ERR_FILE_IO`.  It is a no-op when entered with a failed status; on a
failed read the buffer is left as it was. -/
def oskar_system_noise_model_load (fs : FileSystem α) (mem : oskar_Mem α)
    (filename : String) (status : Status) : oskar_Mem α × Status :=
  if status ≠ Status.OSKAR_SUCCESS then (mem, status)
  else match fs.load filename with
    | some vals => ({ mem with data := vals }, status)
    | none => (mem, Status.OSKAR_ERR_FILE_IO)

/-- Modelled from the spec: the constructor `oskar_Mem(type, OSKAR_CPU, n)`
(declared in a header not at hand) gives a host buffer of `n` elements of the
given type; the elements are written as `0`. -/
def oskar_Mem.create (type : MemType) (n : Nat) : oskar_Mem α :=
  { type := type, data := List.replicate n 0 }

/-- Embedding of `update_noise_files` (source lines 281-300). -/
def update_noise_files (files : FileMap) (dir : QDir) : FileMap :=
  let files := if dir.exists_ freq_file then
    files.insert freq_file (dir.absoluteFilePath freq_file) else files
  let files := if dir.exists_ rms_file then
    files.insert rms_file (dir.absoluteFilePath rms_file) else files
  let files := if dir.exists_ sensitivity_file then
    files.insert sensitivity_file (dir.absoluteFilePath sensitivity_file) else files
  let files := if dir.exists_ t_sys_file then
    files.insert t_sys_file (dir.absoluteFilePath t_sys_file) else files
  let files := if dir.exists_ area_file then
    files.insert area_file (dir.absoluteFilePath area_file) else files
  let files := if dir.exists_ efficiency_file then
    files.insert efficiency_file (dir.absoluteFilePath efficiency_file) else files
  files

/-- Embedding of `load_noise_freqs` (source lines 217-279), in exact
arithmetic; `load_noise_freqs_rounded` is the same function with the
roundings.  `freqs` is the object the pointer refers to, `none` when the
pointer does not refer to an existing buffer; the result is `none` when the
function accesses such a pointer. -/
def load_noise_freqs (fs : FileSystem α) (s : oskar_Settings α)
    (freqs : Option (oskar_Mem α)) (filepath : String) (status : Status) :
    Option (Option (oskar_Mem α) × Status) :=
  if status ≠ Status.OSKAR_SUCCESS then some (freqs, status)
  else
    let noise := s.interferometer.noise
    let obs := s.obs
    if noise.freq.specification = NoiseSpec.OSKAR_SYSTEM_NOISE_TELESCOPE_MODEL ∨
        noise.freq.specification = NoiseSpec.OSKAR_SYSTEM_NOISE_DATA_FILE then
      let filename :=
        if noise.freq.specification = NoiseSpec.OSKAR_SYSTEM_NOISE_TELESCOPE_MODEL then filepath
        else noise.freq.file
      if ¬ fs.exists_ filename then some (freqs, Status.OSKAR_ERR_FILE_IO)
      else match freqs with
        | none => none
        | some m =>
          let r := oskar_system_noise_model_load fs m filename status
          some (some r.1, r.2)
    else
      let p : Nat × α × α :=
        if noise.freq.specification = NoiseSpec.OSKAR_SYSTEM_NOISE_OBS_SETTINGS then
          (obs.num_channels, obs.start_frequency_hz, obs.frequency_inc_hz)
        else if noise.freq.specification = NoiseSpec.OSKAR_SYSTEM_NOISE_RANGE then
          (noise.freq.number, noise.freq.start, noise.freq.inc)
        else (0, 0, 0)
      let num_freqs := p.1
      let start := p.2.1
      let inc := p.2.2
      match freqs with
      | none => none
      | some m =>
        let r := oskar_mem_realloc m num_freqs status
        if r.2 ≠ Status.OSKAR_SUCCESS then some (some r.1, r.2)
        else if r.1.type = MemType.OSKAR_DOUBLE then
          let freqs_ := store_loop num_freqs (fun i => start + (i : α) * inc) r.1.data
          some (some { r.1 with data := freqs_ }, r.2)
        else
          let freqs_ := store_loop num_freqs (fun i => start + (i : α) * inc) r.1.data
          some (some { r.1 with data := freqs_ }, r.2)

end Loaders

/-- Per-station noise model `oskar_SystemNoiseModel`: frequencies and RMS. -/
structure oskar_SystemNoiseModel (α : Type) where
  frequency : oskar_Mem α
  rms : oskar_Mem α

section Resolver

variable {α : Type} [LinearOrderedField α]

/-- The three-way override `switch (q.override)` of `load_noise_rms`, which
fills the buffer `mem` of one quantity: from the dictionary entry `key` (no
override), from the named data file, or from a range.  `key` is the file name
the source indexes the dictionary with at that place. -/
def load_override (fs : FileSystem α) (q : oskar_SettingsSystemNoiseType α)
    (mem : oskar_Mem α) (data_files : FileMap) (key : String) (num_freqs : Nat)
    (status : Status) : oskar_Mem α × Status :=
  match q.override with
  | NoiseSpec.OSKAR_SYSTEM_NOISE_NO_OVERRIDE =>
      oskar_system_noise_model_load fs mem (data_files key) status
  | NoiseSpec.OSKAR_SYSTEM_NOISE_DATA_FILE =>
      oskar_system_noise_model_load fs mem q.file status
  | NoiseSpec.OSKAR_SYSTEM_NOISE_RANGE =>
      evaluate_range mem num_freqs q.start q.end_ status
  | _ => (mem, Status.OSKAR_ERR_SETUP_FAIL_TELESCOPE)

/-- The `switch (ns->value.specification)` of `load_noise_rms` (source lines
326-535), entered with a success status: the RMS buffer and the status it
leaves.  A `return` inside the switch leaves the function with a failed status,
which is also what the check after the switch does. -/
def load_noise_rms_switch (sqrt : α → α) (fs : FileSystem α) (settings : oskar_Settings α)
    (noise : oskar_SystemNoiseModel α) (data_files : FileMap) : oskar_Mem α × Status :=
  let status := Status.OSKAR_SUCCESS
  let ns := settings.interferometer.noise
  let type := if settings.sim.double_precision then MemType.OSKAR_DOUBLE
              else MemType.OSKAR_SINGLE
  let stddev := noise.rms
  let num_freqs := noise.frequency.num_elements
  let t_sys : oskar_Mem α := oskar_Mem.create type num_freqs
  let integration_time := settings.obs.length_seconds / (settings.obs.num_time_steps : α)
  let bandwidth := settings.interferometer.channel_bandwidth_hz
  match ns.value.specification with
  | NoiseSpec.OSKAR_SYSTEM_NOISE_TELESCOPE_MODEL =>
      if fs.exists_ (data_files rms_file) then
        oskar_system_noise_model_load fs stddev (data_files rms_file) status
      else if fs.exists_ (data_files sensitivity_file) then
        let sensitivity := oskar_system_noise_model_load fs (oskar_Mem.create type num_freqs)
          (data_files sensitivity_file) status
        sensitivity_to_rms sqrt noise.rms sensitivity.1 num_freqs bandwidth integration_time
          sensitivity.2
      else if fs.exists_ (data_files t_sys_file) ∧ fs.exists_ (data_files area_file) ∧
          fs.exists_ (data_files efficiency_file) then
        let t := oskar_system_noise_model_load fs t_sys (data_files t_sys_file) status
        let area := oskar_system_noise_model_load fs (oskar_Mem.create type num_freqs)
          (data_files area_file) t.2
        let efficiency := oskar_system_noise_model_load fs (oskar_Mem.create type num_freqs)
          (data_files efficiency_file) area.2
        t_sys_to_rms sqrt noise.rms t.1 area.1 efficiency.1 num_freqs bandwidth
          integration_time efficiency.2
      else (stddev, Status.OSKAR_ERR_SETUP_FAIL_TELESCOPE)
  | NoiseSpec.OSKAR_SYSTEM_NOISE_RMS =>
      load_override fs ns.value.rms stddev data_files rms_file num_freqs status
  | NoiseSpec.OSKAR_SYSTEM_NOISE_SENSITIVITY =>
      let sensitivity := load_override fs ns.value.sensitivity (oskar_Mem.create type num_freqs)
        data_files sensitivity_file num_freqs status
      sensitivity_to_rms sqrt stddev sensitivity.1 num_freqs bandwidth integration_time
        sensitivity.2
  | NoiseSpec.OSKAR_SYSTEM_NOISE_SYS_TEMP =>
      let t := load_override fs ns.value.t_sys t_sys data_files sensitivity_file num_freqs status
      if t.2 ≠ Status.OSKAR_SUCCESS then (stddev, t.2)
      else
        let area := load_override fs ns.value.area (oskar_Mem.create type num_freqs)
          data_files area_file num_freqs t.2
        if area.2 ≠ Status.OSKAR_SUCCESS then (stddev, area.2)
        else
          let efficiency := load_override fs ns.value.efficiency
            (oskar_Mem.create type num_freqs) data_files area_file num_freqs area.2
          t_sys_to_rms sqrt stddev t.1 area.1 efficiency.1 num_freqs bandwidth
            integration_time efficiency.2
  | _ => (stddev, Status.OSKAR_ERR_SETTINGS_INTERFEROMETER_NOISE)

/-- Embedding of `load_noise_rms` (source lines 302-543): the noise model and
the status it leaves.  The dictionary is only read.  The integration time is
the quotient of the field, which is 0 for `num_time_steps = 0`, where the
double quotient of the source is an infinity or a NaN; the properties of the
guard are stated for `num_time_steps ≠ 0` or for a quotient of at least
`DBL_MIN`. -/
def load_noise_rms (sqrt : α → α) (fs : FileSystem α) (settings : oskar_Settings α)
    (noise : oskar_SystemNoiseModel α) (data_files : FileMap) (status : Status) :
    oskar_SystemNoiseModel α × Status :=
  if status ≠ Status.OSKAR_SUCCESS then (noise, status)
  else
    let num_freqs := noise.frequency.num_elements
    let integration_time := settings.obs.length_seconds / (settings.obs.num_time_steps : α)
    let bandwidth := settings.interferometer.channel_bandwidth_hz
    if bandwidth < DBL_MIN ∨ integration_time < DBL_MIN then
      (noise, Status.OSKAR_ERR_SETTINGS_INTERFEROMETER_NOISE)
    else
      let r := load_noise_rms_switch sqrt fs settings noise data_files
      if r.2 ≠ Status.OSKAR_SUCCESS then ({ noise with rms := r.1 }, r.2)
      else if num_freqs ≠ r.1.num_elements then
        ({ noise with rms := r.1 }, Status.OSKAR_ERR_SETUP_FAIL_TELESCOPE)
      else ({ noise with rms := r.1 }, r.2)

end Resolver

/-! ## Telescope, station tree and the directory walk -/

/-- Memory location of a model (`OSKAR_CPU` is host memory). -/
inductive Location where
  | OSKAR_CPU
  | OSKAR_GPU
  deriving DecidableEq, Repr

/-- Station node `oskar_StationModel`: its noise model and the `child` array
(`none` is the null pointer). -/
inductive oskar_StationModel (α : Type) where
  | mk (noise : oskar_SystemNoiseModel α) (child : Option (List (oskar_StationModel α)))

/-- Field `noise` of a station. -/
def oskar_StationModel.noise {α : Type} : oskar_StationModel α → oskar_SystemNoiseModel α
  | oskar_StationModel.mk n _ => n

/-- Field `child` of a station. -/
def oskar_StationModel.child {α : Type} :
    oskar_StationModel α → Option (List (oskar_StationModel α))
  | oskar_StationModel.mk _ c => c

/-- Telescope `oskar_TelescopeModel`: element type, memory location and the
`station` array (`none` is the null pointer). -/
structure oskar_TelescopeModel (α : Type) where
  type : MemType
  location : Location
  station : Option (List (oskar_StationModel α))

/-- What one call of `load_directories` leaves behind: the telescope, the
object behind the `station` pointer (`none` when the pointer refers to no
existing station), the dictionary of noise files and the status. -/
structure LoadState (α : Type) where
  telescope : oskar_TelescopeModel α
  station : Option (oskar_StationModel α)
  files : FileMap
  status : Status

section Walk

variable {α : Type} [LinearOrderedField α]

/-- Modelled from the spec: `oskar_mem_copy` (body not in the sources at hand)
copies the source array into the destination, which then holds the identical
array; it is a no-op when entered with a failed status. -/
def oskar_mem_copy (dst src : oskar_Mem α) (status : Status) : oskar_Mem α × Status :=
  if status ≠ Status.OSKAR_SUCCESS then (dst, status)
  else ({ dst with data := src.data }, status)

/-- Modelled from the spec: `oskar_station_model_init(station, type, OSKAR_CPU,
0, status)` (body not in the sources at hand) gives a fresh station node: empty
noise buffers of the given type and no child array. -/
def oskar_station_model_init (type : MemType) : oskar_StationModel α :=
  oskar_StationModel.mk
    { frequency := { type := type, data := [] }, rms := { type := type, data := [] } } none

/-- Modelled from the spec: `oskar_telescope_model_resize(telescope, n, status)`
(body not in the sources at hand) sizes the station array to `n` nodes, keeping
the leading nodes it had and initialising new ones; it is a no-op when entered
with a failed status. -/
def oskar_telescope_model_resize (telescope : oskar_TelescopeModel α) (n : Nat)
    (status : Status) : oskar_TelescopeModel α × Status :=
  if status ≠ Status.OSKAR_SUCCESS then (telescope, status)
  else
    let old := telescope.station.getD []
    let resized := (old ++ List.replicate n (oskar_station_model_init telescope.type)).take n
    ({ telescope with station := some resized }, status)

/-- Station `telescope->station[i]`, when the array has such an element. -/
def oskar_TelescopeModel.station_at (telescope : oskar_TelescopeModel α) (i : Nat) :
    Option (oskar_StationModel α) :=
  (telescope.station.getD [])[i]?

/-- Store a station back into `telescope->station[i]`. -/
def oskar_TelescopeModel.set_station (telescope : oskar_TelescopeModel α) (i : Nat)
    (st : oskar_StationModel α) : oskar_TelescopeModel α :=
  { telescope with station := telescope.station.map (fun l => l.set i st) }

/-- Store a buffer into `station->noise.frequency`. -/
def oskar_StationModel.set_frequency (st : oskar_StationModel α) (m : oskar_Mem α) :
    oskar_StationModel α :=
  oskar_StationModel.mk { st.noise with frequency := m } st.child

/-- Allocation block of `load_directories` (source lines 149-173).  The result
is `none` when `station->child` is read through a pointer to no station. -/
def allocate_stations (telescope : oskar_TelescopeModel α)
    (station : Option (oskar_StationModel α)) (depth num_dirs : Nat) (status : Status) :
    Option (oskar_TelescopeModel α × Option (oskar_StationModel α) × Status) :=
  if depth = 0 ∧ telescope.station.isNone then
    let r := oskar_telescope_model_resize telescope num_dirs status
    some (r.1, station, r.2)
  else if depth > 0 ∧ num_dirs > 0 then
    match station with
    | none => none
    | some st =>
      if st.child.isNone then
        some (telescope,
          some (oskar_StationModel.mk st.noise
            (some (List.replicate num_dirs (oskar_station_model_init telescope.type)))),
          status)
      else some (telescope, station, status)
  else some (telescope, station, status)

/-- One pass of the loop `for (i = 1; i < num_dirs; ++i) oskar_mem_copy(dst,
freqs, status)` (source lines 184-188), `freqs` being the frequency buffer of
station 0.  `oskar_mem_copy` returns at once on a failed status; otherwise it
accesses both buffers, and the result is `none` when one of them does not
exist. -/
def copy_freqs_step (acc : Option (oskar_TelescopeModel α × Status)) (i : Nat) :
    Option (oskar_TelescopeModel α × Status) :=
  match acc with
  | none => none
  | some (telescope, status) =>
    if status ≠ Status.OSKAR_SUCCESS then some (telescope, status)
    else match telescope.station_at i, telescope.station_at 0 with
      | some dst, some src =>
        let r := oskar_mem_copy dst.noise.frequency src.noise.frequency status
        some (telescope.set_station i (dst.set_frequency r.1), r.2)
      | _, _ => none

/-- Frequency block of `load_directories` at depth 0 (source lines 177-189):
load the frequencies into station 0 and copy them to stations `1 .. num_dirs-1`. -/
def load_station_freqs (fs : FileSystem α) (settings : oskar_Settings α)
    (telescope : oskar_TelescopeModel α) (num_dirs : Nat) (files : FileMap) (status : Status) :
    Option (oskar_TelescopeModel α × Status) :=
  match load_noise_freqs fs settings ((telescope.station_at 0).map (fun st => st.noise.frequency))
      (files freq_file) status with
  | none => none
  | some (freqs, status) =>
    let telescope :=
      match telescope.station_at 0, freqs with
      | some st, some m => telescope.set_station 0 (st.set_frequency m)
      | _, _ => telescope
    (List.range' 1 (num_dirs - 1)).foldl copy_freqs_step (some (telescope, status))

/-- Call `load_noise_rms(settings, &station->noise, files, loaded, status)` of
`load_directories` (source lines 194-195).  `load_noise_rms` returns at once
on a failed status; otherwise it reads `noise`, and the result is `none` when
`station` points to no station. -/
def load_station_rms (sqrt : α → α) (fs : FileSystem α) (settings : oskar_Settings α)
    (station : Option (oskar_StationModel α)) (depth num_dirs : Nat) (files : FileMap)
    (status : Status) : Option (Option (oskar_StationModel α) × Status) :=
  if num_dirs = 0 ∧ depth ≤ 1 then
    if status ≠ Status.OSKAR_SUCCESS then some (station, status)
    else match station with
      | none => none
      | some st =>
        let r := load_noise_rms sqrt fs settings st.noise files status
        some (some (oskar_StationModel.mk r.1 st.child), r.2)
  else some (station, status)

/-- Pointer `s = (depth == 0) ? &telescope->station[i] : &station->child[i]`
(source line 206), as the station it refers to. -/
def child_station (telescope : oskar_TelescopeModel α)
    (station : Option (oskar_StationModel α)) (depth i : Nat) :
    Option (oskar_StationModel α) :=
  if depth = 0 then telescope.station_at i
  else match station with
    | none => none
    | some st => (st.child.getD [])[i]?

/-- Store the station a child call worked on back into the place
`child_station` took it from. -/
def put_child_station (telescope : oskar_TelescopeModel α)
    (station : Option (oskar_StationModel α)) (depth i : Nat)
    (s : Option (oskar_StationModel α)) :
    oskar_TelescopeModel α × Option (oskar_StationModel α) :=
  match s with
  | none => (telescope, station)
  | some c =>
    if depth = 0 then (telescope.set_station i c, station)
    else match station with
      | none => (telescope, station)
      | some st =>
        (telescope, some (oskar_StationModel.mk st.noise (st.child.map (fun l => l.set i c))))

mutual
/-- Embedding of `load_directories` (source lines 124-215).  The result is
`none` when the function accesses a station that does not exist. -/
def load_directories (sqrt : α → α) (fs : FileSystem α) (settings : oskar_Settings α) :
    QDir → oskar_TelescopeModel α → Option (oskar_StationModel α) → Nat → FileMap → Status →
    Option (LoadState α)
  | QDir.mk path entries children, telescope, station, depth, files, status =>
    if status ≠ Status.OSKAR_SUCCESS then some ⟨telescope, station, files, status⟩
    else if depth > 1 then some ⟨telescope, station, files, status⟩
    else
      let files := update_noise_files files (QDir.mk path entries children)
      let num_dirs := children.length
      match allocate_stations telescope station depth num_dirs status with
      | none => none
      | some (telescope, station, status) =>
        match (if depth = 0 then load_station_freqs fs settings telescope num_dirs files status
               else some (telescope, status)) with
        | none => none
        | some (telescope, status) =>
          match load_station_rms sqrt fs settings station depth num_dirs files status with
          | none => none
          | some (station, status) =>
            load_children sqrt fs settings children 0 telescope station depth files status
/-- The loop over the child directories of `load_directories` (source lines
199-214), from child number `i` on. -/
def load_children (sqrt : α → α) (fs : FileSystem α) (settings : oskar_Settings α) :
    List QDir → Nat → oskar_TelescopeModel α → Option (oskar_StationModel α) → Nat →
    FileMap → Status → Option (LoadState α)
  | [], _, telescope, station, _, files, status => some ⟨telescope, station, files, status⟩
  | child_dir :: rest, i, telescope, station, depth, files, status =>
    match load_directories sqrt fs settings child_dir telescope
        (child_station telescope station depth i) (depth + 1) files status with
    | none => none
    | some st =>
      let back := put_child_station st.telescope station depth i st.station
      load_children sqrt fs settings rest (i + 1) back.1 back.2 depth st.files st.status
end

/-- Embedding of `oskar_telescope_model_noise_load` (source lines 74-119), for
non-null arguments. -/
def oskar_telescope_model_noise_load (sqrt : α → α) (fs : FileSystem α)
    (telescope : oskar_TelescopeModel α) (settings : oskar_Settings α) (status : Status) :
    Option (oskar_TelescopeModel α × Status) :=
  if status ≠ Status.OSKAR_SUCCESS then some (telescope, status)
  else if ¬ settings.interferometer.noise.enable then some (telescope, status)
  else match fs.dir settings.telescope.input_directory with
    | none => some (telescope, Status.OSKAR_ERR_FILE_IO)
    | some telescope_dir =>
      if telescope.location ≠ Location.OSKAR_CPU then
        some (telescope, Status.OSKAR_ERR_BAD_LOCATION)
      else
        match load_directories sqrt fs settings telescope_dir telescope none 0
            FileMap.empty status with
        | none => none
        | some st => some (st.telescope, st.status)

end Walk

/-! ## Floating-point rounding and the generators under rounding -/

/-- Rounding of a rational to the nearest integer, a tie going to the even
one. -/
def round_half_even (y : ℚ) : ℤ :=
  if y - (Rat.floor y : ℚ) < 1 / 2 then Rat.floor y
  else if 1 / 2 < y - (Rat.floor y : ℚ) then Rat.floor y + 1
  else if Rat.floor y % 2 = 0 then Rat.floor y
  else Rat.floor y + 1

/-- The power of two `2^e` as a rational, for an integer exponent. -/
def scale2 (e : ℤ) : ℚ :=
  if 0 ≤ e then ((2 ^ e.toNat : ℕ) : ℚ) else 1 / ((2 ^ (-e).toNat : ℕ) : ℚ)

/-- Binary logarithm of `n`, rounded down (0 for `n < 2`), by halving at most
`fuel` times. -/
def log2_steps : ℕ → ℕ → ℕ
  | 0, _ => 0
  | fuel + 1, n => if n < 2 then 0 else log2_steps fuel (n / 2) + 1

/-- For `x ≠ 0` the exponent `e` of the last place of a binary significand of
`p` bits: `2^(p-1) ≤ |x| / 2^e < 2^p`. -/
def ulp_exponent (p : ℕ) (x : ℚ) : ℤ :=
  let k : ℤ := (log2_steps x.num.natAbs x.num.natAbs : ℤ) - (log2_steps x.den x.den : ℤ)
  (if |x| < scale2 k then k - 1 else k) - ((p : ℤ) - 1)

/-- Binary floating-point rounding to `p` significant bits, round to nearest,
ties to even; the exponent range is not bounded. -/
def round_nearest_even (p : ℕ) (x : ℚ) : ℚ :=
  if x = 0 then 0
  else (round_half_even (x / scale2 (ulp_exponent p x)) : ℚ) * scale2 (ulp_exponent p x)

/-- Rounding to `double` (53 significant bits). -/
def ieee_double (x : ℚ) : ℚ := round_nearest_even 53 x

/-- Rounding to `float` (24 significant bits). -/
def ieee_float (x : ℚ) : ℚ := round_nearest_even 24 x


section Rounded

variable {α : Type} [LinearOrderedField α]

/-- Embedding of `evaluate_range` (source lines 658-694) in floating-point
arithmetic: `start` and `end_` are doubles, the result of every arithmetic
operation is rounded by `to_double`, and a value stored into a `float` buffer
is rounded by `to_float`.  The conversions of `num_values` and `i` to double
are exact. -/
def evaluate_range_rounded (to_double to_float : α → α) (values : oskar_Mem α)
    (num_values : Nat) (start end_ : α) (status : Status) : oskar_Mem α × Status :=
  if status ≠ Status.OSKAR_SUCCESS then (values, status)
  else
    let inc := to_double (to_double (end_ - start) / (num_values : α))
    let r := if values.num_elements ≠ num_values then
               oskar_mem_realloc values num_values status
             else (values, status)
    if r.2 ≠ Status.OSKAR_SUCCESS then r
    else if r.1.type = MemType.OSKAR_DOUBLE then
      let values_ := store_loop num_values
        (fun i => to_double (start + to_double ((i : α) * inc))) r.1.data
      ({ r.1 with data := values_ }, r.2)
    else if r.1.type = MemType.OSKAR_SINGLE then
      let values_ := store_loop num_values
        (fun i => to_float (to_double (start + to_double ((i : α) * inc)))) r.1.data
      ({ r.1 with data := values_ }, r.2)
    else (r.1, Status.OSKAR_ERR_BAD_DATA_TYPE)

/-- Embedding of `load_noise_freqs` (source lines 217-279) in floating-point
arithmetic: the settings hold doubles, the result of every arithmetic
operation is rounded by `to_double`, and a value stored into a `float` buffer
is rounded by `to_float`.  The conversion of `i` to double is exact. -/
def load_noise_freqs_rounded (to_double to_float : α → α) (fs : FileSystem α)
    (s : oskar_Settings α) (freqs : Option (oskar_Mem α)) (filepath : String)
    (status : Status) : Option (Option (oskar_Mem α) × Status) :=
  if status ≠ Status.OSKAR_SUCCESS then some (freqs, status)
  else
    let noise := s.interferometer.noise
    let obs := s.obs
    if noise.freq.specification = NoiseSpec.OSKAR_SYSTEM_NOISE_TELESCOPE_MODEL ∨
        noise.freq.specification = NoiseSpec.OSKAR_SYSTEM_NOISE_DATA_FILE then
      let filename :=
        if noise.freq.specification = NoiseSpec.OSKAR_SYSTEM_NOISE_TELESCOPE_MODEL then filepath
        else noise.freq.file
      if ¬ fs.exists_ filename then some (freqs, Status.OSKAR_ERR_FILE_IO)
      else match freqs with
        | none => none
        | some m =>
          let r := oskar_system_noise_model_load fs m filename status
          some (some r.1, r.2)
    else
      let p : Nat × α × α :=
        if noise.freq.specification = NoiseSpec.OSKAR_SYSTEM_NOISE_OBS_SETTINGS then
          (obs.num_channels, obs.start_frequency_hz, obs.frequency_inc_hz)
        else if noise.freq.specification = NoiseSpec.OSKAR_SYSTEM_NOISE_RANGE then
          (noise.freq.number, noise.freq.start, noise.freq.inc)
        else (0, 0, 0)
      let num_freqs := p.1
      let start := p.2.1
      let inc := p.2.2
      match freqs with
      | none => none
      | some m =>
        let r := oskar_mem_realloc m num_freqs status
        if r.2 ≠ Status.OSKAR_SUCCESS then some (some r.1, r.2)
        else if r.1.type = MemType.OSKAR_DOUBLE then
          let freqs_ := store_loop num_freqs
            (fun i => to_double (start + to_double ((i : α) * inc))) r.1.data
          some (some { r.1 with data := freqs_ }, r.2)
        else
          let freqs_ := store_loop num_freqs
            (fun i => to_float (to_double (start + to_double ((i : α) * inc)))) r.1.data
          some (some { r.1 with data := freqs_ }, r.2)

end Rounded

/-! ## Stokes parameters of a visibility set -/

/-- Complex number `double2` (`float2` in single precision): real part `x` and
imaginary part `y`. -/
structure double2 (α : Type) where
  x : α
  y : α
  deriving DecidableEq, Repr

/-- Complex 2 x 2 matrix `double4c` (`float4c` in single precision) with the
elements `a`, `b`, `c`, `d`. -/
structure double4c (α : Type) where
  a : double2 α
  b : double2 α
  c : double2 α
  d : double2 α
  deriving DecidableEq, Repr

/-- Image types `OSKAR_IMAGE_TYPE_*`.  Modelled from the spec: the enumeration
is declared in a header not at hand; the sources name the six values listed
first, and `OTHER n` stands for any further value of the `int` field. -/
inductive ImageType where
  | OSKAR_IMAGE_TYPE_STOKES
  | OSKAR_IMAGE_TYPE_STOKES_I
  | OSKAR_IMAGE_TYPE_STOKES_Q
  | OSKAR_IMAGE_TYPE_STOKES_U
  | OSKAR_IMAGE_TYPE_STOKES_V
  | OSKAR_IMAGE_TYPE_POL_XX
  | OTHER (n : Nat)
  deriving DecidableEq, Repr

/-- Elements of a complex buffer: complex scalars or complex 2 x 2 matrices. -/
inductive ComplexData (α : Type) where
  | scalar (elements : List (double2 α))
  | matrix (elements : List (double4c α))
  deriving DecidableEq, Repr

/-- Complex typed buffer `oskar_Mem` in host memory: its precision
(`OSKAR_SINGLE` or `OSKAR_DOUBLE`) and its elements; the scalar/matrix flag of
the type tag is the shape of `data`. -/
structure oskar_MemComplex (α : Type) where
  precision : MemType
  data : ComplexData α
  deriving DecidableEq, Repr

/-- Visibility set `oskar_Vis`, as far as the Stokes conversion reads it. -/
structure oskar_Vis (α : Type) where
  amplitude : oskar_MemComplex α
  num_baselines : Nat
  num_times : Nat
  num_channels : Nat

/-- Image settings `oskar_SettingsImage`, as far as the Stokes conversion
reads them. -/
structure oskar_SettingsImage where
  image_type : ImageType

section Stokes

variable {α : Type} [LinearOrderedField α]

/-- Modelled from the spec: `oskar_mem_is_matrix` (body not in the sources at
hand) tells whether the buffer holds matrix elements. -/
def oskar_mem_is_matrix (mem : oskar_MemComplex α) : Bool :=
  match mem.data with
  | ComplexData.matrix _ => true
  | ComplexData.scalar _ => false

/-- Modelled from the spec: `oskar_mem_length` (body not in the sources at
hand) is the number of elements held. -/
def oskar_mem_length (mem : oskar_MemComplex α) : Nat :=
  match mem.data with
  | ComplexData.matrix l => l.length
  | ComplexData.scalar l => l.length

/-- Modelled from the spec: `oskar_mem_double4c_const(amp, status)`
(`oskar_mem_float4c_const` in single precision; bodies not in the sources at
hand) gives the element array of a matrix buffer.  This is its element
`d_[i]`; an element the buffer does not hold reads as zero. -/
def oskar_mem_double4c_const (amp : oskar_MemComplex α) (i : Nat) : double4c α :=
  match amp.data with
  | ComplexData.matrix l => l.getD i ⟨⟨0, 0⟩, ⟨0, 0⟩, ⟨0, 0⟩, ⟨0, 0⟩⟩
  | ComplexData.scalar _ => ⟨⟨0, 0⟩, ⟨0, 0⟩, ⟨0, 0⟩, ⟨0, 0⟩⟩

/-- Modelled from the spec: `oskar_mem_create(type | OSKAR_COMPLEX, location,
n, status)` (body not in the sources at hand) gives a buffer of `n` complex
scalars, written as zero; allocation is taken to succeed. -/
def oskar_mem_create_scalar (_type : MemType) (n : Nat) : List (double2 α) :=
  List.replicate n ⟨0, 0⟩

/-- Modelled from the spec: `oskar_mem_create` for a complex matrix type gives
a buffer of `n` complex matrices, written as zero; allocation is taken to
succeed. -/
def oskar_mem_create_matrix (_type : MemType) (n : Nat) : List (double4c α) :=
  List.replicate n ⟨⟨0, 0⟩, ⟨0, 0⟩, ⟨0, 0⟩, ⟨0, 0⟩⟩

/-- Embedding of `oskar_mem_create_alias` (oskar_mem_create_alias.c lines
41-77) for a non-null source: the alias has the type of the source and sees
`num_elements` elements from `offset` on. -/
def oskar_mem_create_alias (src : oskar_MemComplex α) (offset num_elements : Nat) :
    oskar_MemComplex α :=
  { precision := src.precision,
    data := match src.data with
      | ComplexData.matrix l => ComplexData.matrix ((l.drop offset).take num_elements)
      | ComplexData.scalar l => ComplexData.scalar ((l.drop offset).take num_elements) }

/-- Embedding of `oskar_get_image_stokes` (oskar_get_image_stokes.c lines
36-226) for non-null arguments: the buffer returned (`none` is the null
pointer) and the status left. -/
def oskar_get_image_stokes (vis : oskar_Vis α) (settings : oskar_SettingsImage)
    (status : Status) : Option (oskar_MemComplex α) × Status :=
  if status ≠ Status.OSKAR_SUCCESS then (none, status)
  else
    let amp := vis.amplitude
    let num_vis_pols := if oskar_mem_is_matrix amp then 4 else 1
    let pol := settings.image_type
    let num_vis_amps := vis.num_baselines * vis.num_times * vis.num_channels
    let type := amp.precision
    let d_ := oskar_mem_double4c_const amp
    if num_vis_pols = 4 ∧ (pol = ImageType.OSKAR_IMAGE_TYPE_STOKES_I ∨
        pol = ImageType.OSKAR_IMAGE_TYPE_STOKES_Q ∨
        pol = ImageType.OSKAR_IMAGE_TYPE_STOKES_U ∨
        pol = ImageType.OSKAR_IMAGE_TYPE_STOKES_V) then
      match pol with
      | ImageType.OSKAR_IMAGE_TYPE_STOKES_I =>
        let stokes := oskar_mem_create_scalar type num_vis_amps
        let s_ := store_loop num_vis_amps (fun i =>
          if type = MemType.OSKAR_DOUBLE then
            ⟨1 / 2 * ((d_ i).a.x + (d_ i).d.x), 1 / 2 * ((d_ i).a.y + (d_ i).d.y)⟩
          else ⟨1 / 2 * ((d_ i).a.x + (d_ i).d.x), 1 / 2 * ((d_ i).a.y + (d_ i).d.y)⟩) stokes
        (some ⟨type, ComplexData.scalar s_⟩, status)
      | ImageType.OSKAR_IMAGE_TYPE_STOKES_Q =>
        let stokes := oskar_mem_create_scalar type num_vis_amps
        let s_ := store_loop num_vis_amps (fun i =>
          if type = MemType.OSKAR_DOUBLE then
            ⟨1 / 2 * ((d_ i).a.x - (d_ i).d.x), 1 / 2 * ((d_ i).a.y - (d_ i).d.y)⟩
          else ⟨1 / 2 * ((d_ i).a.x - (d_ i).d.x), 1 / 2 * ((d_ i).a.y - (d_ i).d.y)⟩) stokes
        (some ⟨type, ComplexData.scalar s_⟩, status)
      | ImageType.OSKAR_IMAGE_TYPE_STOKES_U =>
        let stokes := oskar_mem_create_scalar type num_vis_amps
        let s_ := store_loop num_vis_amps (fun i =>
          if type = MemType.OSKAR_DOUBLE then
            ⟨1 / 2 * ((d_ i).b.x + (d_ i).c.x), 1 / 2 * ((d_ i).b.y + (d_ i).c.y)⟩
          else ⟨1 / 2 * ((d_ i).b.x + (d_ i).c.x), 1 / 2 * ((d_ i).b.y + (d_ i).c.y)⟩) stokes
        (some ⟨type, ComplexData.scalar s_⟩, status)
      | ImageType.OSKAR_IMAGE_TYPE_STOKES_V =>
        let stokes := oskar_mem_create_scalar type num_vis_amps
        let s_ := store_loop num_vis_amps (fun i =>
          if type = MemType.OSKAR_DOUBLE then
            ⟨1 / 2 * ((d_ i).b.y - (d_ i).c.y), -(1 / 2) * ((d_ i).b.x - (d_ i).c.x)⟩
          else ⟨1 / 2 * ((d_ i).b.y - (d_ i).c.y), -(1 / 2) * ((d_ i).b.x - (d_ i).c.x)⟩) stokes
        (some ⟨type, ComplexData.scalar s_⟩, status)
      | _ => (none, Status.OSKAR_ERR_BAD_DATA_TYPE)
    else if num_vis_pols = 4 ∧ pol = ImageType.OSKAR_IMAGE_TYPE_STOKES then
      let stokes := oskar_mem_create_matrix type num_vis_amps
      let s_ := store_loop num_vis_amps (fun i =>
        if type = MemType.OSKAR_DOUBLE then
          ⟨⟨1 / 2 * ((d_ i).a.x + (d_ i).d.x), 1 / 2 * ((d_ i).a.y + (d_ i).d.y)⟩,
           ⟨1 / 2 * ((d_ i).a.x - (d_ i).d.x), 1 / 2 * ((d_ i).a.y - (d_ i).d.y)⟩,
           ⟨1 / 2 * ((d_ i).b.x + (d_ i).c.x), 1 / 2 * ((d_ i).b.y + (d_ i).c.y)⟩,
           ⟨1 / 2 * ((d_ i).b.y - (d_ i).c.y), -(1 / 2) * ((d_ i).b.x - (d_ i).c.x)⟩⟩
        else
          ⟨⟨1 / 2 * ((d_ i).a.x + (d_ i).d.x), 1 / 2 * ((d_ i).a.y + (d_ i).d.y)⟩,
           ⟨1 / 2 * ((d_ i).a.x - (d_ i).d.x), 1 / 2 * ((d_ i).a.y - (d_ i).d.y)⟩,
           ⟨1 / 2 * ((d_ i).b.x + (d_ i).c.x), 1 / 2 * ((d_ i).b.y + (d_ i).c.y)⟩,
           ⟨1 / 2 * ((d_ i).b.y - (d_ i).c.y), -(1 / 2) * ((d_ i).b.x - (d_ i).c.x)⟩⟩) stokes
      (some ⟨type, ComplexData.matrix s_⟩, status)
    else if num_vis_pols = 1 then
      if pol ≠ ImageType.OSKAR_IMAGE_TYPE_STOKES_I then (none, Status.OSKAR_ERR_UNKNOWN)
      else (some (oskar_mem_create_alias amp 0 (oskar_mem_length amp)), status)
    else (none, status)

end Stokes

/-- The complex number a `double2` over the reals stands for. -/
def double2.toComplex (z : double2 ℝ) : ℂ := ⟨z.x, z.y⟩

/-! ## The 3 x 3 matrix helpers -/

section Matrix3Defs

variable {T : Type} [CommRing T]

/-- Embedding of `Matrix3::set` (oskar_Matrix3.h lines 341-355): the nine
arguments, given in column-major order, land in elements 0 to 8 in turn. -/
def Matrix3.set (a b c d e f g h i : T) : Fin 9 → T :=
  ![a, b, c, d, e, f, g, h, i]

/-- Embedding of `Matrix3::identity` (lines 130-141). -/
def Matrix3.identity : Fin 9 → T :=
  Matrix3.set 1 0 0 0 1 0 0 0 1

/-- The preprocessor form `MMUL(R, C)` of `Matrix3::multiplyMatrix3`.  The
indices it is used with never pass 8. -/
def Matrix3.MMUL (a b : Fin 9 → T) (R C : Fin 9) : T :=
  b R * a C + b (R + 3) * a (C + 1) + b (R + 6) * a (C + 2)

/-- Embedding of `Matrix3::multiplyMatrix3` (lines 143-156); the array
`result` is the value returned. -/
def Matrix3.multiplyMatrix3 (a b : Fin 9 → T) : Fin 9 → T :=
  Matrix3.set (Matrix3.MMUL a b 0 0) (Matrix3.MMUL a b 1 0) (Matrix3.MMUL a b 2 0)
    (Matrix3.MMUL a b 0 3) (Matrix3.MMUL a b 1 3) (Matrix3.MMUL a b 2 3)
    (Matrix3.MMUL a b 0 6) (Matrix3.MMUL a b 1 6) (Matrix3.MMUL a b 2 6)

/-- Embedding of `Matrix3::multiplyVector3` (lines 158-168). -/
def Matrix3.multiplyVector3 (m : Fin 9 → T) (v : Fin 3 → T) : Fin 3 → T :=
  ![m 0 * v 0 + m 3 * v 1 + m 6 * v 2,
    m 1 * v 0 + m 4 * v 1 + m 7 * v 2,
    m 2 * v 0 + m 5 * v 1 + m 8 * v 2]

/-- Embedding of `Matrix3::rotation(matrix, a, c, s)` (lines 192-211), the
overload taking the cosine and the sine of the angle. -/
def Matrix3.rotation (a : Fin 3 → T) (c s : T) : Fin 9 → T :=
  let d := 1 - c
  let xx := d * a 0 * a 0
  let xy := d * a 0 * a 1
  let xz := d * a 0 * a 2
  let yy := d * a 1 * a 1
  let yz := d * a 1 * a 2
  let zz := d * a 2 * a 2
  let xs := a 0 * s
  let ys := a 1 * s
  let zs := a 2 * s
  Matrix3.set (xx + c) (xy + zs) (xz - ys)
    (xy - zs) (yy + c) (yz + xs)
    (xz + ys) (yz - xs) (zz + c)

/-- The 3 x 3 matrix a nine-element array stands for under the column-major
storage the class documents: element `r + 3 c` is the entry of row `r` and
column `c`. -/
def Matrix3.toMatrix (m : Fin 9 → T) : Matrix (Fin 3) (Fin 3) T :=
  Matrix.of ![![m 0, m 3, m 6], ![m 1, m 4, m 7], ![m 2, m 5, m 8]]

end Matrix3Defs

/-! ## Agreement of directory trees and of file systems -/

section Instances

variable {α : Type} [LinearOrderedField α]

/-- The settings `s` with the noise-value specification replaced. -/
def set_value_specification (s : oskar_Settings α) (spec : NoiseSpec) : oskar_Settings α :=
  { s with interferometer := { s.interferometer with noise := { s.interferometer.noise with
      value := { s.interferometer.noise.value with specification := spec } } } }

/-- The settings `s` with the sensitivity override mode replaced. -/
def set_sensitivity_override (s : oskar_Settings α) (o : NoiseSpec) : oskar_Settings α :=
  { s with interferometer := { s.interferometer with noise := { s.interferometer.noise with
      value := { s.interferometer.noise.value with
        sensitivity := { s.interferometer.noise.value.sensitivity with override := o } } } } }

/-- The settings `s` with the frequency specification replaced. -/
def set_freq_specification (s : oskar_Settings α) (spec : NoiseSpec) : oskar_Settings α :=
  { s with interferometer := { s.interferometer with noise := { s.interferometer.noise with
      freq := { s.interferometer.noise.freq with specification := spec } } } }

/-- Per-quantity settings with an override mode and a range, no data file. -/
def quantity (o : NoiseSpec) (start end_ : α) : oskar_SettingsSystemNoiseType α :=
  { override := o, file := "", start := start, end_ := end_ }

/-- A double-precision settings snapshot with an observation of 1 s in one time
step (integration time 1 s), the given channel bandwidth, noise enabled,
frequencies taken from the observation settings (one channel at 100 Hz), and the
given noise-value specification and per-quantity settings for system
temperature, area and efficiency; RMS and sensitivity are not overridden. -/
def sample_settings (bandwidth : α) (spec : NoiseSpec)
    (t_sys area efficiency : oskar_SettingsSystemNoiseType α) : oskar_Settings α :=
  { sim := { double_precision := true },
    obs := { length_seconds := 1, num_time_steps := 1, num_channels := 1,
             start_frequency_hz := 100, frequency_inc_hz := 1 },
    telescope := { input_directory := "/tm" },
    interferometer :=
      { channel_bandwidth_hz := bandwidth,
        noise :=
          { enable := true,
            freq := { specification := NoiseSpec.OSKAR_SYSTEM_NOISE_OBS_SETTINGS, file := "",
                      number := 0, start := 0, inc := 0 },
            value :=
              { specification := spec,
                rms := quantity NoiseSpec.OSKAR_SYSTEM_NOISE_NO_OVERRIDE 0 0,
                sensitivity := quantity NoiseSpec.OSKAR_SYSTEM_NOISE_NO_OVERRIDE 0 0,
                t_sys := t_sys, area := area, efficiency := efficiency } } } }

/-- A station noise model in double precision with the given frequencies and
an empty RMS buffer. -/
def sample_noise (frequencies : List α) : oskar_SystemNoiseModel α :=
  { frequency := { type := MemType.OSKAR_DOUBLE, data := frequencies },
    rms := { type := MemType.OSKAR_DOUBLE, data := [] } }

/-- A file system holding exactly the listed data files, each with its values,
and no directory. -/
def sample_fs (content : List (String × List α)) : FileSystem α :=
  { exists_ := fun p => (content.lookup p).isSome,
    load := fun p => content.lookup p,
    dir := fun _ => none }

/-- A file system holding the listed data files and one directory tree rooted
at `root`. -/
def sample_fs_dir (content : List (String × List α)) (root : String) (tree : QDir) :
    FileSystem α :=
  { exists_ := fun p => (content.lookup p).isSome,
    load := fun p => content.lookup p,
    dir := fun p => if p = root then some tree else none }

/-- A telescope directory `/tm` with one station directory `/tm/s0` that holds
one further subdirectory. -/
def nested_station_tree : QDir :=
  QDir.mk "/tm" [] [QDir.mk "/tm/s0" [] [QDir.mk "/tm/s0/e0" [] []]]

/-- A telescope directory `/tm` with two station directories without
subdirectories, the first holding `rms.txt`. -/
def two_station_tree : QDir :=
  QDir.mk "/tm" [] [QDir.mk "/tm/s0" ["rms.txt"] [], QDir.mk "/tm/s1" [] []]

/-- A double-precision telescope in host memory whose station array is not
allocated yet. -/
def empty_telescope : oskar_TelescopeModel α :=
  { type := MemType.OSKAR_DOUBLE, location := Location.OSKAR_CPU, station := none }

end Instances

/-! ## Further sample inputs -/

/-- The settings snapshot `sample_settings` in telescope-model-priority mode,
with unit channel bandwidth and no override of any quantity. -/
def sample_tm_settings {α : Type} [LinearOrderedField α] : oskar_Settings α :=
  sample_settings 1 NoiseSpec.OSKAR_SYSTEM_NOISE_TELESCOPE_MODEL
    (quantity NoiseSpec.OSKAR_SYSTEM_NOISE_NO_OVERRIDE 0 0)
    (quantity NoiseSpec.OSKAR_SYSTEM_NOISE_NO_OVERRIDE 0 0)
    (quantity NoiseSpec.OSKAR_SYSTEM_NOISE_NO_OVERRIDE 0 0)

/-- The settings `s` with the observation start frequency and frequency
increment replaced. -/
def set_obs_frequencies {α : Type} (s : oskar_Settings α) (start inc : α) :
    oskar_Settings α :=
  { s with obs := { s.obs with start_frequency_hz := start, frequency_inc_hz := inc } }

/-- The settings `s` with the number of observation channels replaced. -/
def set_obs_channels {α : Type} (s : oskar_Settings α) (n : Nat) : oskar_Settings α :=
  { s with obs := { s.obs with num_channels := n } }

/-- A telescope directory `/tm` with three station directories without
subdirectories, the first two holding `rms.txt`. -/
def three_station_tree : QDir :=
  QDir.mk "/tm" [] [QDir.mk "/tm/s0" ["rms.txt"] [], QDir.mk "/tm/s1" ["rms.txt"] [],
    QDir.mk "/tm/s2" [] []]

/-- A telescope directory `/tm` with two station directories, the first
holding `rms.txt`, the second holding one subdirectory. -/
def station_with_child_tree : QDir :=
  QDir.mk "/tm" [] [QDir.mk "/tm/s0" ["rms.txt"] [],
    QDir.mk "/tm/s1" [] [QDir.mk "/tm/s1/e0" [] []]]

/-- A telescope directory `/tm` without any station directory. -/
def no_station_tree : QDir := QDir.mk "/tm" [] []

/-- A double-precision station node with the given frequencies, an empty RMS
buffer and no child array. -/
def sample_station {α : Type} (frequencies : List α) : oskar_StationModel α :=
  oskar_StationModel.mk
    { frequency := { type := MemType.OSKAR_DOUBLE, data := frequencies },
      rms := { type := MemType.OSKAR_DOUBLE, data := [] } } none

/-- A double-precision telescope in host memory with `n` stations, each a
`sample_station` with the given frequencies. -/
def sample_telescope {α : Type} (frequencies : List α) (n : Nat) : oskar_TelescopeModel α :=
  { type := MemType.OSKAR_DOUBLE, location := Location.OSKAR_CPU,
    station := some (List.replicate n (sample_station frequencies)) }

/-! ## Properties of the numeric kernels -/

section KernelLemmas

variable {α : Type}

theorem store_loop_succ (n : Nat) (f : Nat → α) (buf : List α) :
    store_loop (n + 1) f buf = (store_loop n f buf).set n (f n) := by
  simp [store_loop, List.range_succ, List.foldl_append]

theorem store_loop_length (n : Nat) (f : Nat → α) (buf : List α) :
    (store_loop n f buf).length = buf.length := by
  induction n with
  | zero => simp [store_loop]
  | succ n ih => rw [store_loop_succ, List.length_set, ih]

theorem store_loop_getElem? (n : Nat) (f : Nat → α) (buf : List α) (i : Nat)
    (hi : i < buf.length) :
    (store_loop n f buf)[i]? = if i < n then some (f i) else buf[i]? := by
  induction n with
  | zero => simp [store_loop]
  | succ n ih =>
    rw [store_loop_succ, List.getElem?_set]
    by_cases h : n = i
    · subst h
      simp [store_loop_length, hi]
    · rw [if_neg h, ih]
      have hlt : i < n + 1 ↔ i < n := by omega
      simp [hlt]

/-- A buffer of exactly `n` elements is overwritten entirely by the loop. -/
theorem store_loop_eq (n : Nat) (f : Nat → α) (buf : List α) (h : buf.length = n) :
    store_loop n f buf = (List.range n).map f := by
  apply List.ext_getElem?
  intro i
  by_cases hi : i < n
  · rw [store_loop_getElem? n f buf i (by omega)]
    simp [hi]
  · have h1 : (store_loop n f buf).length ≤ i := by rw [store_loop_length]; omega
    rw [List.getElem?_eq_none h1, List.getElem?_eq_none (by simp; omega)]

variable [LinearOrderedField α]

/-- The resize step shared by the kernels: afterwards the buffer has `n`
elements, its type tag is unchanged and the status is still success. -/
theorem resize_step (mem : oskar_Mem α) (n : Nat) :
    ∃ m : oskar_Mem α,
      (if mem.num_elements ≠ n then oskar_mem_realloc mem n Status.OSKAR_SUCCESS
        else (mem, Status.OSKAR_SUCCESS)) = (m, Status.OSKAR_SUCCESS) ∧
      m.data.length = n ∧ m.type = mem.type := by
  by_cases h : mem.num_elements = n
  · exact ⟨mem, by simp [h], by simpa [oskar_Mem.num_elements] using h, rfl⟩
  · refine ⟨{ mem with data := (mem.data ++ List.replicate n 0).take n }, ?_, ?_, rfl⟩
    · simp [h, oskar_mem_realloc]
    · simp

/-- Result of `sensitivity_to_rms` on well-typed input, in any ordered field. -/
theorem sensitivity_to_rms_ok (sqrt : α → α) (rms sensitivity : oskar_Mem α) (N : Nat)
    (B T : α) (hlen : sensitivity.num_elements = N) (htype : sensitivity.type = rms.type)
    (hfloat : rms.type = MemType.OSKAR_SINGLE ∨ rms.type = MemType.OSKAR_DOUBLE) :
    sensitivity_to_rms sqrt rms sensitivity N B T Status.OSKAR_SUCCESS =
      ({ type := rms.type,
         data := (List.range N).map (fun i => sensitivity.data.getD i 0 * (1 / sqrt (2 * B * T))) },
       Status.OSKAR_SUCCESS) := by
  obtain ⟨m, hm, hl, ht⟩ := resize_step rms N
  unfold sensitivity_to_rms
  rw [if_neg (by simp), if_neg (by simp [htype]), if_neg (by simp [hlen])]
  simp only [hm]
  rcases hfloat with hf | hf
  · simp [hf, store_loop_eq _ _ _ hl, ht]
  · simp [hf, store_loop_eq _ _ _ hl, ht]

/-- Result of `t_sys_to_rms` on well-typed input, in any ordered field. -/
theorem t_sys_to_rms_ok (sqrt : α → α) (rms t_sys area efficiency : oskar_Mem α) (N : Nat)
    (B T : α) (hlen_t : t_sys.num_elements = N) (hlen_a : area.num_elements = N)
    (htype_t : t_sys.type = rms.type) (htype_a : area.type = rms.type)
    (htype_e : efficiency.type = rms.type)
    (hfloat : rms.type = MemType.OSKAR_SINGLE ∨ rms.type = MemType.OSKAR_DOUBLE) :
    t_sys_to_rms sqrt rms t_sys area efficiency N B T Status.OSKAR_SUCCESS =
      ({ type := rms.type,
         data := (List.range N).map (fun i =>
           (t_sys.data.getD i 0 / (area.data.getD i 0 * efficiency.data.getD i 0)) *
             ((2 * k_B * 10 ^ 26) / sqrt (2 * B * T))) },
       Status.OSKAR_SUCCESS) := by
  obtain ⟨m, hm, hl, ht⟩ := resize_step rms N
  unfold t_sys_to_rms
  rw [if_neg (by simp), if_neg (by simp [htype_t, htype_a, htype_e]),
    if_neg (by simp [hlen_t, hlen_a])]
  simp only [hm]
  rcases hfloat with hf | hf
  · simp [hf, store_loop_eq _ _ _ hl, ht]
  · simp [hf, store_loop_eq _ _ _ hl, ht]

/-- Result of `evaluate_range` on a single- or double-precision buffer, in any
ordered field. -/
theorem evaluate_range_ok (values : oskar_Mem α) (N : Nat) (start end_ : α)
    (hfloat : values.type = MemType.OSKAR_SINGLE ∨ values.type = MemType.OSKAR_DOUBLE) :
    evaluate_range values N start end_ Status.OSKAR_SUCCESS =
      ({ type := values.type,
         data := (List.range N).map
           (fun (i : Nat) => start + (i : α) * ((end_ - start) / (N : α))) },
       Status.OSKAR_SUCCESS) := by
  obtain ⟨m, hm, hl, ht⟩ := resize_step values N
  unfold evaluate_range
  rw [if_neg (by simp)]
  simp only [hm]
  rcases hfloat with hf | hf
  · simp [hf, store_loop_eq _ _ _ hl, ht]
  · simp [hf, store_loop_eq _ _ _ hl, ht]

end KernelLemmas

/-! ## Conversions and range generation in real arithmetic -/

/-- C2, input on which the claim as stated fails: a sensitivity array of
length 1 whose element type (double complex) is the element type of `rms`,
with bandwidth 1 and integration time 1.  `sensitivity_to_rms` does not
succeed; it reports `OSKAR_ERR_BAD_DATA_TYPE`. -/
theorem C2_bad_data_type_counterexample :
    (0 : ℝ) < 1 ∧
    (⟨MemType.OSKAR_DOUBLE_COMPLEX, [1]⟩ : oskar_Mem ℝ).num_elements = 1 ∧
    (⟨MemType.OSKAR_DOUBLE_COMPLEX, [1]⟩ : oskar_Mem ℝ).type =
      (⟨MemType.OSKAR_DOUBLE_COMPLEX, [0]⟩ : oskar_Mem ℝ).type ∧
    (sensitivity_to_rms Real.sqrt ⟨MemType.OSKAR_DOUBLE_COMPLEX, [0]⟩
      ⟨MemType.OSKAR_DOUBLE_COMPLEX, [1]⟩ 1 1 1 Status.OSKAR_SUCCESS).2 =
      Status.OSKAR_ERR_BAD_DATA_TYPE := by
  refine ⟨by norm_num, rfl, rfl, ?_⟩
  simp [sensitivity_to_rms, oskar_Mem.num_elements]

/-- C2 (amended): for every N, bandwidth B > 0, integration time T > 0 and
sensitivity array of length N whose element type is that of `rms` and is single
or double precision, `sensitivity_to_rms` succeeds, leaves `rms` with N
elements, and `rms[i] = sensitivity[i] / sqrt(2 * B * T)` for every i < N, in
real arithmetic. -/
theorem C2_sensitivity_to_rms_values (rms sensitivity : oskar_Mem ℝ) (N : ℕ) (B T : ℝ)
    (_hB : 0 < B) (_hT : 0 < T) (hlen : sensitivity.num_elements = N)
    (htype : sensitivity.type = rms.type)
    (hfloat : rms.type = MemType.OSKAR_SINGLE ∨ rms.type = MemType.OSKAR_DOUBLE) :
    (sensitivity_to_rms Real.sqrt rms sensitivity N B T Status.OSKAR_SUCCESS).2 =
      Status.OSKAR_SUCCESS ∧
    (sensitivity_to_rms Real.sqrt rms sensitivity N B T Status.OSKAR_SUCCESS).1.num_elements
      = N ∧
    ∀ i, i < N →
      (sensitivity_to_rms Real.sqrt rms sensitivity N B T Status.OSKAR_SUCCESS).1.data[i]? =
        some (sensitivity.data.getD i 0 / Real.sqrt (2 * B * T)) := by
  rw [sensitivity_to_rms_ok Real.sqrt rms sensitivity N B T hlen htype hfloat]
  refine ⟨rfl, by simp [oskar_Mem.num_elements], ?_⟩
  intro i hi
  simp [hi, div_eq_mul_inv]

/-- C2, instance: a double-precision sensitivity array `[3, 5]` with B = 2 and
T = 1 gives `rms = [3 / sqrt 4, 5 / sqrt 4]`. -/
theorem C2_sensitivity_to_rms_values_witness :
    (sensitivity_to_rms Real.sqrt ⟨MemType.OSKAR_DOUBLE, []⟩ ⟨MemType.OSKAR_DOUBLE, [3, 5]⟩
      2 2 1 Status.OSKAR_SUCCESS).2 = Status.OSKAR_SUCCESS ∧
    (sensitivity_to_rms Real.sqrt ⟨MemType.OSKAR_DOUBLE, []⟩ ⟨MemType.OSKAR_DOUBLE, [3, 5]⟩
      2 2 1 Status.OSKAR_SUCCESS).1.num_elements = 2 ∧
    ∀ i, i < 2 →
      (sensitivity_to_rms Real.sqrt ⟨MemType.OSKAR_DOUBLE, []⟩ ⟨MemType.OSKAR_DOUBLE, [3, 5]⟩
        2 2 1 Status.OSKAR_SUCCESS).1.data[i]? =
        some ((⟨MemType.OSKAR_DOUBLE, [3, 5]⟩ : oskar_Mem ℝ).data.getD i 0 /
          Real.sqrt (2 * 2 * 1)) :=
  C2_sensitivity_to_rms_values ⟨MemType.OSKAR_DOUBLE, []⟩ ⟨MemType.OSKAR_DOUBLE, [3, 5]⟩ 2 2 1
    (by norm_num) (by norm_num) rfl rfl (Or.inr rfl)

/-- C3, input on which the claim as stated fails: arrays of length 1 whose
element type (double complex) is the element type of `rms`, area times
efficiency non-zero, bandwidth 1 and integration time 1.  `t_sys_to_rms` does
not succeed; it reports `OSKAR_ERR_BAD_DATA_TYPE`. -/
theorem C3_bad_data_type_counterexample :
    (0 : ℝ) < 1 ∧ (1 : ℝ) * 1 ≠ 0 ∧
    (⟨MemType.OSKAR_DOUBLE_COMPLEX, [1]⟩ : oskar_Mem ℝ).num_elements = 1 ∧
    (⟨MemType.OSKAR_DOUBLE_COMPLEX, [1]⟩ : oskar_Mem ℝ).type =
      (⟨MemType.OSKAR_DOUBLE_COMPLEX, [0]⟩ : oskar_Mem ℝ).type ∧
    (t_sys_to_rms Real.sqrt ⟨MemType.OSKAR_DOUBLE_COMPLEX, [0]⟩
      ⟨MemType.OSKAR_DOUBLE_COMPLEX, [1]⟩ ⟨MemType.OSKAR_DOUBLE_COMPLEX, [1]⟩
      ⟨MemType.OSKAR_DOUBLE_COMPLEX, [1]⟩ 1 1 1 Status.OSKAR_SUCCESS).2 =
      Status.OSKAR_ERR_BAD_DATA_TYPE := by
  refine ⟨by norm_num, by norm_num, rfl, rfl, ?_⟩
  simp [t_sys_to_rms, oskar_Mem.num_elements]

/-- C3 (amended): for every N, bandwidth B > 0, integration time T > 0 and
arrays `t_sys`, `area`, `efficiency` of length N whose element type is that of
`rms` and is single or double precision, with `area[i] * efficiency[i]`
non-zero, `t_sys_to_rms` succeeds, leaves `rms` with N elements, and
`rms[i] = (t_sys[i] / (area[i] * efficiency[i])) * (2 * k_B * 1e26) /
sqrt(2 * B * T)` for every i < N, with `k_B = 1.3806488e-23`, in real
arithmetic. -/
theorem C3_t_sys_to_rms_values (rms t_sys area efficiency : oskar_Mem ℝ) (N : ℕ) (B T : ℝ)
    (_hB : 0 < B) (_hT : 0 < T)
    (hlen_t : t_sys.num_elements = N) (hlen_a : area.num_elements = N)
    (_hlen_e : efficiency.num_elements = N)
    (htype_t : t_sys.type = rms.type) (htype_a : area.type = rms.type)
    (htype_e : efficiency.type = rms.type)
    (hfloat : rms.type = MemType.OSKAR_SINGLE ∨ rms.type = MemType.OSKAR_DOUBLE)
    (_hnz : ∀ i, i < N → area.data.getD i 0 * efficiency.data.getD i 0 ≠ 0) :
    (t_sys_to_rms Real.sqrt rms t_sys area efficiency N B T Status.OSKAR_SUCCESS).2 =
      Status.OSKAR_SUCCESS ∧
    (t_sys_to_rms Real.sqrt rms t_sys area efficiency N B T Status.OSKAR_SUCCESS).1.num_elements
      = N ∧
    ∀ i, i < N →
      (t_sys_to_rms Real.sqrt rms t_sys area efficiency N B T Status.OSKAR_SUCCESS).1.data[i]? =
        some ((t_sys.data.getD i 0 / (area.data.getD i 0 * efficiency.data.getD i 0)) *
          (2 * (13806488 / 10 ^ 30) * 10 ^ 26) / Real.sqrt (2 * B * T)) := by
  rw [t_sys_to_rms_ok Real.sqrt rms t_sys area efficiency N B T hlen_t hlen_a htype_t htype_a
    htype_e hfloat]
  refine ⟨rfl, by simp [oskar_Mem.num_elements], ?_⟩
  intro i hi
  simp [hi, k_B, mul_div_assoc]

/-- C3, instance: double-precision arrays `t_sys = [100]`, `area = [50]`,
`efficiency = [1/2]` with B = 2 and T = 1. -/
theorem C3_t_sys_to_rms_values_witness :
    (t_sys_to_rms Real.sqrt ⟨MemType.OSKAR_DOUBLE, []⟩ ⟨MemType.OSKAR_DOUBLE, [100]⟩
      ⟨MemType.OSKAR_DOUBLE, [50]⟩ ⟨MemType.OSKAR_DOUBLE, [1 / 2]⟩ 1 2 1
      Status.OSKAR_SUCCESS).2 = Status.OSKAR_SUCCESS ∧
    (t_sys_to_rms Real.sqrt ⟨MemType.OSKAR_DOUBLE, []⟩ ⟨MemType.OSKAR_DOUBLE, [100]⟩
      ⟨MemType.OSKAR_DOUBLE, [50]⟩ ⟨MemType.OSKAR_DOUBLE, [1 / 2]⟩ 1 2 1
      Status.OSKAR_SUCCESS).1.num_elements = 1 ∧
    ∀ i, i < 1 →
      (t_sys_to_rms Real.sqrt ⟨MemType.OSKAR_DOUBLE, []⟩ ⟨MemType.OSKAR_DOUBLE, [100]⟩
        ⟨MemType.OSKAR_DOUBLE, [50]⟩ ⟨MemType.OSKAR_DOUBLE, [1 / 2]⟩ 1 2 1
        Status.OSKAR_SUCCESS).1.data[i]? =
        some (((⟨MemType.OSKAR_DOUBLE, [100]⟩ : oskar_Mem ℝ).data.getD i 0 /
            ((⟨MemType.OSKAR_DOUBLE, [50]⟩ : oskar_Mem ℝ).data.getD i 0 *
              (⟨MemType.OSKAR_DOUBLE, [1 / 2]⟩ : oskar_Mem ℝ).data.getD i 0)) *
          (2 * (13806488 / 10 ^ 30) * 10 ^ 26) / Real.sqrt (2 * 2 * 1)) :=
  C3_t_sys_to_rms_values ⟨MemType.OSKAR_DOUBLE, []⟩ ⟨MemType.OSKAR_DOUBLE, [100]⟩
    ⟨MemType.OSKAR_DOUBLE, [50]⟩ ⟨MemType.OSKAR_DOUBLE, [1 / 2]⟩ 1 2 1
    (by norm_num) (by norm_num) rfl rfl rfl rfl rfl rfl (Or.inr rfl)
    (by intro i hi; have h0 : i = 0 := by omega
        subst h0; norm_num)

section RoundedLemmas

variable {α : Type} [LinearOrderedField α]

/-- Without rounding the floating-point embedding of `evaluate_range` is the
exact one. -/
theorem evaluate_range_rounded_exact (values : oskar_Mem α) (num_values : Nat)
    (start end_ : α) (status : Status) :
    evaluate_range_rounded (fun x => x) (fun x => x) values num_values start end_ status =
      evaluate_range values num_values start end_ status := rfl

/-- Without rounding the floating-point embedding of `load_noise_freqs` is the
exact one. -/
theorem load_noise_freqs_rounded_exact (fs : FileSystem α) (s : oskar_Settings α)
    (freqs : Option (oskar_Mem α)) (filepath : String) (status : Status) :
    load_noise_freqs_rounded (fun x => x) (fun x => x) fs s freqs filepath status =
      load_noise_freqs fs s freqs filepath status := rfl

end RoundedLemmas

/-- C4, inputs on which the claim as stated fails in double arithmetic.  With
N = 10, start = 0 and end = 1 on a double buffer the increment is the double
nearest to 1/10 and `values[3]` is the double `5404319552844596 / 2^54`
(0.30000000000000004), which is neither `start + 3 * (end - start) / N = 3/10`
nor the double nearest to it.  With N = 1, start = 16777217 and
end = 16777218 (both doubles) on a float buffer `values[0]` is 16777216, the
float nearest to `start`. -/
theorem C4_rounding_counterexample :
    (evaluate_range_rounded ieee_double ieee_float ⟨MemType.OSKAR_DOUBLE, []⟩ 10 0 1
      Status.OSKAR_SUCCESS).2 = Status.OSKAR_SUCCESS ∧
    (evaluate_range_rounded ieee_double ieee_float ⟨MemType.OSKAR_DOUBLE, []⟩ 10 0 1
      Status.OSKAR_SUCCESS).1.data[3]? = some (5404319552844596 / 2 ^ 54) ∧
    (5404319552844596 / 2 ^ 54 : ℚ) ≠ 0 + 3 * (1 - 0) / 10 ∧
    (5404319552844596 / 2 ^ 54 : ℚ) ≠ ieee_double (0 + 3 * (1 - 0) / 10) ∧
    ieee_double 16777217 = 16777217 ∧ ieee_double 16777218 = 16777218 ∧
    (evaluate_range_rounded ieee_double ieee_float ⟨MemType.OSKAR_SINGLE, []⟩ 1 16777217
      16777218 Status.OSKAR_SUCCESS) = (⟨MemType.OSKAR_SINGLE, [16777216]⟩,
        Status.OSKAR_SUCCESS) := by
  refine ⟨by decide!, by decide!, by decide!, by decide!, by decide!, by decide!, by decide!⟩

/-- C4 (amended): in exact real arithmetic, for every N > 0, start and end,
`evaluate_range` on a single- or double-precision buffer succeeds, leaves the
buffer with exactly N elements, and `values[i] = start + i * (end - start) / N`
for every i < N (the divisor is N, not N - 1). -/
theorem C4_evaluate_range_values (values : oskar_Mem ℝ) (N : ℕ) (start end_ : ℝ)
    (_hN : 0 < N)
    (hfloat : values.type = MemType.OSKAR_SINGLE ∨ values.type = MemType.OSKAR_DOUBLE) :
    (evaluate_range values N start end_ Status.OSKAR_SUCCESS).2 = Status.OSKAR_SUCCESS ∧
    (evaluate_range values N start end_ Status.OSKAR_SUCCESS).1.num_elements = N ∧
    ∀ i, i < N →
      (evaluate_range values N start end_ Status.OSKAR_SUCCESS).1.data[i]? =
        some (start + (i : ℝ) * (end_ - start) / (N : ℝ)) := by
  rw [evaluate_range_ok values N start end_ hfloat]
  refine ⟨rfl, by simp [oskar_Mem.num_elements], ?_⟩
  intro i hi
  simp [hi, mul_div_assoc]

/-- C4, instance named in the claim: `evaluate_range(N = 4, start = 1.0,
end = 5.0)` yields `[1.0, 2.0, 3.0, 4.0]`. -/
theorem C4_evaluate_range_values_witness :
    (evaluate_range (⟨MemType.OSKAR_DOUBLE, []⟩ : oskar_Mem ℝ) 4 1 5
      Status.OSKAR_SUCCESS).2 = Status.OSKAR_SUCCESS ∧
    (evaluate_range (⟨MemType.OSKAR_DOUBLE, []⟩ : oskar_Mem ℝ) 4 1 5
      Status.OSKAR_SUCCESS).1.data = [1, 2, 3, 4] := by
  have h := C4_evaluate_range_values ⟨MemType.OSKAR_DOUBLE, []⟩ 4 1 5 (by norm_num)
    (Or.inr rfl)
  refine ⟨h.1, ?_⟩
  apply List.ext_getElem?
  intro i
  by_cases hi : i < 4
  · rw [h.2.2 i hi]
    interval_cases i <;> norm_num
  · have hl : (evaluate_range (⟨MemType.OSKAR_DOUBLE, []⟩ : oskar_Mem ℝ) 4 1 5
        Status.OSKAR_SUCCESS).1.data.length = 4 := h.2.1
    rw [List.getElem?_eq_none (by omega), List.getElem?_eq_none (by simp; omega)]

/-! ## The noise value resolver -/

section ResolverLemmas

variable {α : Type} [LinearOrderedField α]

theorem DBL_MIN_pos : (0 : α) < DBL_MIN := by
  unfold DBL_MIN
  positivity

theorem DBL_MIN_le_one : (DBL_MIN : α) ≤ 1 := by
  unfold DBL_MIN
  rw [div_le_one (by positivity)]
  exact one_le_pow₀ (by norm_num)

/-- Once the status and the bandwidth / integration-time guard are passed,
`load_noise_rms` stores what the specification switch produced and reports the
switch's failure, a length mismatch, or success. -/
theorem load_noise_rms_eq (sqrt : α → α) (fs : FileSystem α) (settings : oskar_Settings α)
    (noise : oskar_SystemNoiseModel α) (files : FileMap)
    (hB : DBL_MIN ≤ settings.interferometer.channel_bandwidth_hz)
    (hT : DBL_MIN ≤ settings.obs.length_seconds / (settings.obs.num_time_steps : α)) :
    load_noise_rms sqrt fs settings noise files Status.OSKAR_SUCCESS =
      ({ noise with rms := (load_noise_rms_switch sqrt fs settings noise files).1 },
        if (load_noise_rms_switch sqrt fs settings noise files).2 ≠ Status.OSKAR_SUCCESS then
          (load_noise_rms_switch sqrt fs settings noise files).2
        else if noise.frequency.num_elements ≠
            (load_noise_rms_switch sqrt fs settings noise files).1.num_elements then
          Status.OSKAR_ERR_SETUP_FAIL_TELESCOPE
        else Status.OSKAR_SUCCESS) := by
  unfold load_noise_rms
  rw [if_neg (by simp), if_neg (by simp [not_lt, hB, hT])]
  by_cases h1 : (load_noise_rms_switch sqrt fs settings noise files).2 = Status.OSKAR_SUCCESS
  · by_cases h2 : noise.frequency.num_elements =
        (load_noise_rms_switch sqrt fs settings noise files).1.num_elements
    · simp [h1, h2]
    · simp [h1, h2]
  · simp [h1]

/-- In telescope-model-priority mode with an existing RMS file, the switch
loads that file into the RMS buffer. -/
theorem switch_telescope_model_rms (sqrt : α → α) (fs : FileSystem α)
    (settings : oskar_Settings α) (noise : oskar_SystemNoiseModel α) (files : FileMap)
    (hspec : settings.interferometer.noise.value.specification =
      NoiseSpec.OSKAR_SYSTEM_NOISE_TELESCOPE_MODEL)
    (hrms : fs.exists_ (files rms_file) = true) :
    load_noise_rms_switch sqrt fs settings noise files =
      oskar_system_noise_model_load fs noise.rms (files rms_file) Status.OSKAR_SUCCESS := by
  unfold load_noise_rms_switch
  simp [hspec, hrms]

/-- In telescope-model-priority mode with no RMS file and an existing
sensitivity file, the switch loads the sensitivity file into a temporary and
converts it. -/
theorem switch_telescope_model_sensitivity (sqrt : α → α) (fs : FileSystem α)
    (settings : oskar_Settings α) (noise : oskar_SystemNoiseModel α) (files : FileMap)
    (hspec : settings.interferometer.noise.value.specification =
      NoiseSpec.OSKAR_SYSTEM_NOISE_TELESCOPE_MODEL)
    (hrms : fs.exists_ (files rms_file) = false)
    (hsens : fs.exists_ (files sensitivity_file) = true) :
    load_noise_rms_switch sqrt fs settings noise files =
      sensitivity_to_rms sqrt noise.rms
        (oskar_system_noise_model_load fs
          (oskar_Mem.create
            (if settings.sim.double_precision then MemType.OSKAR_DOUBLE
              else MemType.OSKAR_SINGLE) noise.frequency.num_elements)
          (files sensitivity_file) Status.OSKAR_SUCCESS).1
        noise.frequency.num_elements settings.interferometer.channel_bandwidth_hz
        (settings.obs.length_seconds / (settings.obs.num_time_steps : α))
        (oskar_system_noise_model_load fs
          (oskar_Mem.create
            (if settings.sim.double_precision then MemType.OSKAR_DOUBLE
              else MemType.OSKAR_SINGLE) noise.frequency.num_elements)
          (files sensitivity_file) Status.OSKAR_SUCCESS).2 := by
  unfold load_noise_rms_switch
  simp [hspec, hrms, hsens]

/-- In sensitivity-priority mode without override, the switch loads the
sensitivity file named by the dictionary into a temporary and converts it. -/
theorem switch_sensitivity_no_override (sqrt : α → α) (fs : FileSystem α)
    (settings : oskar_Settings α) (noise : oskar_SystemNoiseModel α) (files : FileMap)
    (hspec : settings.interferometer.noise.value.specification =
      NoiseSpec.OSKAR_SYSTEM_NOISE_SENSITIVITY)
    (hover : settings.interferometer.noise.value.sensitivity.override =
      NoiseSpec.OSKAR_SYSTEM_NOISE_NO_OVERRIDE) :
    load_noise_rms_switch sqrt fs settings noise files =
      sensitivity_to_rms sqrt noise.rms
        (oskar_system_noise_model_load fs
          (oskar_Mem.create
            (if settings.sim.double_precision then MemType.OSKAR_DOUBLE
              else MemType.OSKAR_SINGLE) noise.frequency.num_elements)
          (files sensitivity_file) Status.OSKAR_SUCCESS).1
        noise.frequency.num_elements settings.interferometer.channel_bandwidth_hz
        (settings.obs.length_seconds / (settings.obs.num_time_steps : α))
        (oskar_system_noise_model_load fs
          (oskar_Mem.create
            (if settings.sim.double_precision then MemType.OSKAR_DOUBLE
              else MemType.OSKAR_SINGLE) noise.frequency.num_elements)
          (files sensitivity_file) Status.OSKAR_SUCCESS).2 := by
  unfold load_noise_rms_switch
  simp [hspec, load_override, hover]

omit [LinearOrderedField α] in
/-- A successful read puts the values of the file into the buffer. -/
theorem oskar_system_noise_model_load_ok (fs : FileSystem α) (mem : oskar_Mem α)
    (filename : String) (vals : List α) (h : fs.load filename = some vals) :
    oskar_system_noise_model_load fs mem filename Status.OSKAR_SUCCESS =
      ({ mem with data := vals }, Status.OSKAR_SUCCESS) := by
  simp [oskar_system_noise_model_load, h]

/-- `load_noise_rms` never touches the frequency array. -/
theorem load_noise_rms_frequency (sqrt : α → α) (fs : FileSystem α)
    (settings : oskar_Settings α) (noise : oskar_SystemNoiseModel α) (files : FileMap)
    (status : Status) :
    (load_noise_rms sqrt fs settings noise files status).1.frequency = noise.frequency := by
  by_cases hs : status = Status.OSKAR_SUCCESS
  · subst hs
    by_cases hg : settings.interferometer.channel_bandwidth_hz < DBL_MIN ∨
        settings.obs.length_seconds / (settings.obs.num_time_steps : α) < DBL_MIN
    · simp [load_noise_rms, hg]
    · rw [not_or, not_lt, not_lt] at hg
      rw [load_noise_rms_eq sqrt fs settings noise files hg.1 hg.2]
  · simp [load_noise_rms, hs]

/-- A successful `load_noise_rms` leaves as many RMS values as there are
frequencies. -/
theorem load_noise_rms_length (sqrt : α → α) (fs : FileSystem α)
    (settings : oskar_Settings α) (noise : oskar_SystemNoiseModel α) (files : FileMap)
    (status : Status)
    (h : (load_noise_rms sqrt fs settings noise files status).2 = Status.OSKAR_SUCCESS) :
    (load_noise_rms sqrt fs settings noise files status).1.rms.num_elements =
      noise.frequency.num_elements := by
  by_cases hs : status = Status.OSKAR_SUCCESS
  · subst hs
    by_cases hg : settings.interferometer.channel_bandwidth_hz < DBL_MIN ∨
        settings.obs.length_seconds / (settings.obs.num_time_steps : α) < DBL_MIN
    · simp [load_noise_rms, hg] at h
    · rw [not_or, not_lt, not_lt] at hg
      rw [load_noise_rms_eq sqrt fs settings noise files hg.1 hg.2] at h ⊢
      by_cases h1 : (load_noise_rms_switch sqrt fs settings noise files).2 =
          Status.OSKAR_SUCCESS
      · by_cases h2 : noise.frequency.num_elements =
            (load_noise_rms_switch sqrt fs settings noise files).1.num_elements
        · simpa using h2.symm
        · simp [h1, h2] at h
      · simp [h1] at h
  · simp [load_noise_rms, hs] at h

end ResolverLemmas

/-- C1, input on which the claim as stated fails: telescope-model-priority
mode, integration time 1 s, an existing RMS file holding `[1]`, one frequency,
and a channel bandwidth of `DBL_MIN / 2`, which is greater than 0.  The guard
`bandwidth < DBL_MIN` rejects the run: the status is
`OSKAR_ERR_SETTINGS_INTERFEROMETER_NOISE` and `rms` is not the file's values. -/
theorem C1_subnormal_bandwidth_counterexample :
    (0 : ℝ) < DBL_MIN / 2 ∧ (0 : ℝ) < 1 / ((1 : ℕ) : ℝ) ∧
    (sample_fs [("/tm/rms.txt", [(1 : ℝ)])]).exists_
      (FileMap.empty.insert rms_file "/tm/rms.txt" rms_file) = true ∧
    (sample_fs [("/tm/rms.txt", [(1 : ℝ)])]).load
      (FileMap.empty.insert rms_file "/tm/rms.txt" rms_file) = some [1] ∧
    (load_noise_rms Real.sqrt (sample_fs [("/tm/rms.txt", [(1 : ℝ)])])
      (sample_settings (DBL_MIN / 2) NoiseSpec.OSKAR_SYSTEM_NOISE_TELESCOPE_MODEL
        (quantity NoiseSpec.OSKAR_SYSTEM_NOISE_NO_OVERRIDE 0 0)
        (quantity NoiseSpec.OSKAR_SYSTEM_NOISE_NO_OVERRIDE 0 0)
        (quantity NoiseSpec.OSKAR_SYSTEM_NOISE_NO_OVERRIDE 0 0))
      (sample_noise [100]) (FileMap.empty.insert rms_file "/tm/rms.txt")
      Status.OSKAR_SUCCESS).1.rms.data ≠ [1] ∧
    (load_noise_rms Real.sqrt (sample_fs [("/tm/rms.txt", [(1 : ℝ)])])
      (sample_settings (DBL_MIN / 2) NoiseSpec.OSKAR_SYSTEM_NOISE_TELESCOPE_MODEL
        (quantity NoiseSpec.OSKAR_SYSTEM_NOISE_NO_OVERRIDE 0 0)
        (quantity NoiseSpec.OSKAR_SYSTEM_NOISE_NO_OVERRIDE 0 0)
        (quantity NoiseSpec.OSKAR_SYSTEM_NOISE_NO_OVERRIDE 0 0))
      (sample_noise [100]) (FileMap.empty.insert rms_file "/tm/rms.txt")
      Status.OSKAR_SUCCESS).2 = Status.OSKAR_ERR_SETTINGS_INTERFEROMETER_NOISE := by
  have hlt : (DBL_MIN : ℝ) / 2 < DBL_MIN := half_lt_self DBL_MIN_pos
  refine ⟨half_pos DBL_MIN_pos, by norm_num, ?_, ?_, ?_, ?_⟩
  · simp [sample_fs, FileMap.insert, List.lookup]
  · simp [sample_fs, FileMap.insert, List.lookup]
  · simp [load_noise_rms, sample_settings, hlt, sample_noise]
  · simp [load_noise_rms, sample_settings, hlt]

/-- C1 (amended): in telescope-model-priority mode, with bandwidth and
integration time both at least `DBL_MIN` (the guard of the code) and file loads
succeeding, the RMS source is chosen in strict order for every dictionary of
files: if the RMS file exists, `rms` holds that file's values, whatever other
files exist; otherwise if the sensitivity file exists, `rms` is what
`sensitivity_to_rms` makes of its values; otherwise if the system temperature,
area and efficiency files all exist, `rms` is what `t_sys_to_rms` makes of
their values. -/
theorem C1_telescope_model_priority {α : Type} [LinearOrderedField α] (sqrt : α → α)
    (fs : FileSystem α)
    (settings : oskar_Settings α) (noise : oskar_SystemNoiseModel α) (files : FileMap)
    (hspec : settings.interferometer.noise.value.specification =
      NoiseSpec.OSKAR_SYSTEM_NOISE_TELESCOPE_MODEL)
    (hB : DBL_MIN ≤ settings.interferometer.channel_bandwidth_hz)
    (hT : DBL_MIN ≤ settings.obs.length_seconds / (settings.obs.num_time_steps : α)) :
    (∀ vals, fs.exists_ (files rms_file) = true → fs.load (files rms_file) = some vals →
      (load_noise_rms sqrt fs settings noise files Status.OSKAR_SUCCESS).1.rms.data = vals) ∧
    (∀ vals, fs.exists_ (files rms_file) = false →
      fs.exists_ (files sensitivity_file) = true →
      fs.load (files sensitivity_file) = some vals →
      (load_noise_rms sqrt fs settings noise files Status.OSKAR_SUCCESS).1.rms =
        (sensitivity_to_rms sqrt noise.rms
          { type := if settings.sim.double_precision then MemType.OSKAR_DOUBLE
                    else MemType.OSKAR_SINGLE,
            data := vals }
          noise.frequency.num_elements settings.interferometer.channel_bandwidth_hz
          (settings.obs.length_seconds / (settings.obs.num_time_steps : α))
          Status.OSKAR_SUCCESS).1) ∧
    (∀ tv av ev, fs.exists_ (files rms_file) = false →
      fs.exists_ (files sensitivity_file) = false →
      fs.exists_ (files t_sys_file) = true → fs.exists_ (files area_file) = true →
      fs.exists_ (files efficiency_file) = true →
      fs.load (files t_sys_file) = some tv → fs.load (files area_file) = some av →
      fs.load (files efficiency_file) = some ev →
      (load_noise_rms sqrt fs settings noise files Status.OSKAR_SUCCESS).1.rms =
        (t_sys_to_rms sqrt noise.rms
          { type := if settings.sim.double_precision then MemType.OSKAR_DOUBLE
                    else MemType.OSKAR_SINGLE,
            data := tv }
          { type := if settings.sim.double_precision then MemType.OSKAR_DOUBLE
                    else MemType.OSKAR_SINGLE,
            data := av }
          { type := if settings.sim.double_precision then MemType.OSKAR_DOUBLE
                    else MemType.OSKAR_SINGLE,
            data := ev }
          noise.frequency.num_elements settings.interferometer.channel_bandwidth_hz
          (settings.obs.length_seconds / (settings.obs.num_time_steps : α))
          Status.OSKAR_SUCCESS).1) := by
  rw [load_noise_rms_eq sqrt fs settings noise files hB hT]
  refine ⟨?_, ?_, ?_⟩
  · intro vals hrms hload
    rw [switch_telescope_model_rms sqrt fs settings noise files hspec hrms,
      oskar_system_noise_model_load_ok fs _ _ vals hload]
  · intro vals hrms hsens hload
    rw [switch_telescope_model_sensitivity sqrt fs settings noise files hspec hrms hsens,
      oskar_system_noise_model_load_ok fs _ _ vals hload]
    simp [oskar_Mem.create]
  · intro tv av ev hrms hsens ht ha he hlt hla hle
    unfold load_noise_rms_switch
    simp [hspec, hrms, hsens, ht, ha, he, oskar_system_noise_model_load_ok fs _ _ _ hlt,
      oskar_system_noise_model_load_ok fs _ _ _ hla,
      oskar_system_noise_model_load_ok fs _ _ _ hle, oskar_Mem.create]

/-- C1, instance: RMS and sensitivity files both exist; `rms` is the content of
the RMS file. -/
theorem C1_telescope_model_priority_witness :
    (load_noise_rms Real.sqrt
      (sample_fs [("/tm/rms.txt", [(3 : ℝ)]), ("/tm/sensitivity.txt", [8])])
      (sample_settings 1 NoiseSpec.OSKAR_SYSTEM_NOISE_TELESCOPE_MODEL
        (quantity NoiseSpec.OSKAR_SYSTEM_NOISE_NO_OVERRIDE 0 0)
        (quantity NoiseSpec.OSKAR_SYSTEM_NOISE_NO_OVERRIDE 0 0)
        (quantity NoiseSpec.OSKAR_SYSTEM_NOISE_NO_OVERRIDE 0 0))
      (sample_noise [100])
      ((FileMap.empty.insert rms_file "/tm/rms.txt").insert sensitivity_file
        "/tm/sensitivity.txt")
      Status.OSKAR_SUCCESS).1.rms.data = [3] :=
  (C1_telescope_model_priority Real.sqrt
    (sample_fs [("/tm/rms.txt", [(3 : ℝ)]), ("/tm/sensitivity.txt", [8])])
    (sample_settings 1 NoiseSpec.OSKAR_SYSTEM_NOISE_TELESCOPE_MODEL
      (quantity NoiseSpec.OSKAR_SYSTEM_NOISE_NO_OVERRIDE 0 0)
      (quantity NoiseSpec.OSKAR_SYSTEM_NOISE_NO_OVERRIDE 0 0)
      (quantity NoiseSpec.OSKAR_SYSTEM_NOISE_NO_OVERRIDE 0 0))
    (sample_noise [100])
    ((FileMap.empty.insert rms_file "/tm/rms.txt").insert sensitivity_file
      "/tm/sensitivity.txt")
    rfl DBL_MIN_le_one (by simpa [sample_settings] using (DBL_MIN_le_one : (DBL_MIN : ℝ) ≤ 1))).1
    [3]
    (by simp [sample_fs, FileMap.insert, FileMap.empty, rms_file, sensitivity_file, List.lookup])
    (by simp [sample_fs, FileMap.insert, FileMap.empty, rms_file, sensitivity_file, List.lookup])

/-- C5: for every settings snapshot, frequency count, dictionary of files and
incoming status, when the sensitivity file exists and no RMS file exists,
`load_noise_rms` in telescope-model-priority mode gives the same noise model
(hence the same `rms` buffer) and the same status as in sensitivity-priority
mode with the sensitivity override set to "no override". -/
theorem C5_priority_cascade_determinism {α : Type} [LinearOrderedField α] (sqrt : α → α)
    (fs : FileSystem α) (settings : oskar_Settings α) (noise : oskar_SystemNoiseModel α)
    (files : FileMap) (status : Status)
    (hsens : fs.exists_ (files sensitivity_file) = true)
    (hrms : fs.exists_ (files rms_file) = false) :
    load_noise_rms sqrt fs
        (set_value_specification settings NoiseSpec.OSKAR_SYSTEM_NOISE_TELESCOPE_MODEL)
        noise files status =
      load_noise_rms sqrt fs
        (set_sensitivity_override
          (set_value_specification settings NoiseSpec.OSKAR_SYSTEM_NOISE_SENSITIVITY)
          NoiseSpec.OSKAR_SYSTEM_NOISE_NO_OVERRIDE)
        noise files status := by
  have h1 := switch_telescope_model_sensitivity sqrt fs
    (set_value_specification settings NoiseSpec.OSKAR_SYSTEM_NOISE_TELESCOPE_MODEL)
    noise files rfl hrms hsens
  have h2 := switch_sensitivity_no_override sqrt fs
    (set_sensitivity_override
      (set_value_specification settings NoiseSpec.OSKAR_SYSTEM_NOISE_SENSITIVITY)
      NoiseSpec.OSKAR_SYSTEM_NOISE_NO_OVERRIDE)
    noise files rfl rfl
  unfold load_noise_rms
  rw [h1, h2]
  rfl

/-- C5, instance: only a sensitivity file `[8]`, bandwidth 1 Hz, one frequency. -/
theorem C5_priority_cascade_determinism_witness :
    load_noise_rms Real.sqrt (sample_fs [("/tm/sensitivity.txt", [(8 : ℝ)])])
        (set_value_specification
          (sample_settings 1 NoiseSpec.OSKAR_SYSTEM_NOISE_RMS
            (quantity NoiseSpec.OSKAR_SYSTEM_NOISE_NO_OVERRIDE 0 0)
            (quantity NoiseSpec.OSKAR_SYSTEM_NOISE_NO_OVERRIDE 0 0)
            (quantity NoiseSpec.OSKAR_SYSTEM_NOISE_NO_OVERRIDE 0 0))
          NoiseSpec.OSKAR_SYSTEM_NOISE_TELESCOPE_MODEL)
        (sample_noise [100]) (FileMap.empty.insert sensitivity_file "/tm/sensitivity.txt")
        Status.OSKAR_SUCCESS =
      load_noise_rms Real.sqrt (sample_fs [("/tm/sensitivity.txt", [(8 : ℝ)])])
        (set_sensitivity_override
          (set_value_specification
            (sample_settings 1 NoiseSpec.OSKAR_SYSTEM_NOISE_RMS
              (quantity NoiseSpec.OSKAR_SYSTEM_NOISE_NO_OVERRIDE 0 0)
              (quantity NoiseSpec.OSKAR_SYSTEM_NOISE_NO_OVERRIDE 0 0)
              (quantity NoiseSpec.OSKAR_SYSTEM_NOISE_NO_OVERRIDE 0 0))
            NoiseSpec.OSKAR_SYSTEM_NOISE_SENSITIVITY)
          NoiseSpec.OSKAR_SYSTEM_NOISE_NO_OVERRIDE)
        (sample_noise [100]) (FileMap.empty.insert sensitivity_file "/tm/sensitivity.txt")
        Status.OSKAR_SUCCESS :=
  C5_priority_cascade_determinism Real.sqrt (sample_fs [("/tm/sensitivity.txt", [(8 : ℝ)])])
    (sample_settings 1 NoiseSpec.OSKAR_SYSTEM_NOISE_RMS
      (quantity NoiseSpec.OSKAR_SYSTEM_NOISE_NO_OVERRIDE 0 0)
      (quantity NoiseSpec.OSKAR_SYSTEM_NOISE_NO_OVERRIDE 0 0)
      (quantity NoiseSpec.OSKAR_SYSTEM_NOISE_NO_OVERRIDE 0 0))
    (sample_noise [100]) (FileMap.empty.insert sensitivity_file "/tm/sensitivity.txt")
    Status.OSKAR_SUCCESS
    (by simp [sample_fs, FileMap.insert, List.lookup])
    (by simp [sample_fs, FileMap.insert, FileMap.empty, rms_file, sensitivity_file, List.lookup])

/-- C6, input on which the claim as stated fails: sensitivity-priority mode,
no override, one frequency, and a sensitivity file holding two values.  The
chosen branch resolves values of another length than the frequency count, and
the run ends with `OSKAR_ERR_DIMENSION_MISMATCH`, not with
`OSKAR_ERR_SETUP_FAIL_TELESCOPE`; the RMS buffer is left as it was. -/
theorem C6_wrong_count_sensitivity_counterexample :
    (load_noise_rms (fun x : ℚ => x) (sample_fs [("/tm/sensitivity.txt", [8, 9])])
      (sample_settings 1 NoiseSpec.OSKAR_SYSTEM_NOISE_SENSITIVITY
        (quantity NoiseSpec.OSKAR_SYSTEM_NOISE_NO_OVERRIDE 0 0)
        (quantity NoiseSpec.OSKAR_SYSTEM_NOISE_NO_OVERRIDE 0 0)
        (quantity NoiseSpec.OSKAR_SYSTEM_NOISE_NO_OVERRIDE 0 0))
      (sample_noise [100]) (FileMap.empty.insert sensitivity_file "/tm/sensitivity.txt")
      Status.OSKAR_SUCCESS).2 = Status.OSKAR_ERR_DIMENSION_MISMATCH ∧
    (load_noise_rms (fun x : ℚ => x) (sample_fs [("/tm/sensitivity.txt", [8, 9])])
      (sample_settings 1 NoiseSpec.OSKAR_SYSTEM_NOISE_SENSITIVITY
        (quantity NoiseSpec.OSKAR_SYSTEM_NOISE_NO_OVERRIDE 0 0)
        (quantity NoiseSpec.OSKAR_SYSTEM_NOISE_NO_OVERRIDE 0 0)
        (quantity NoiseSpec.OSKAR_SYSTEM_NOISE_NO_OVERRIDE 0 0))
      (sample_noise [100]) (FileMap.empty.insert sensitivity_file "/tm/sensitivity.txt")
      Status.OSKAR_SUCCESS).1.rms.data = [] := by
  constructor
  · decide!
  · decide!

/-- C6 (amended): for every specification mode, override setting and
dictionary of files: whenever `load_noise_rms` returns with a success status,
`rms` has as many elements as the frequency array of the station; and a run
whose chosen branch loads the RMS values themselves from a file holding any
other count ends with `OSKAR_ERR_SETUP_FAIL_TELESCOPE`: the RMS file of the
dictionary in telescope-model-priority mode, the RMS file of the dictionary
in RMS mode without override, and the override data file in RMS mode.
Bandwidth and integration time are taken as accepted by the guard. -/
theorem C6_rms_length_postcondition {α : Type} [LinearOrderedField α] (sqrt : α → α)
    (fs : FileSystem α) (settings : oskar_Settings α) (noise : oskar_SystemNoiseModel α)
    (files : FileMap) :
    (∀ status, (load_noise_rms sqrt fs settings noise files status).2 = Status.OSKAR_SUCCESS →
      (load_noise_rms sqrt fs settings noise files status).1.rms.num_elements =
        noise.frequency.num_elements) ∧
    (∀ vals, DBL_MIN ≤ settings.interferometer.channel_bandwidth_hz →
      DBL_MIN ≤ settings.obs.length_seconds / (settings.obs.num_time_steps : α) →
      settings.interferometer.noise.value.specification =
        NoiseSpec.OSKAR_SYSTEM_NOISE_TELESCOPE_MODEL →
      fs.exists_ (files rms_file) = true → fs.load (files rms_file) = some vals →
      vals.length ≠ noise.frequency.num_elements →
      (load_noise_rms sqrt fs settings noise files Status.OSKAR_SUCCESS).2 =
        Status.OSKAR_ERR_SETUP_FAIL_TELESCOPE) ∧
    (∀ vals, DBL_MIN ≤ settings.interferometer.channel_bandwidth_hz →
      DBL_MIN ≤ settings.obs.length_seconds / (settings.obs.num_time_steps : α) →
      settings.interferometer.noise.value.specification = NoiseSpec.OSKAR_SYSTEM_NOISE_RMS →
      settings.interferometer.noise.value.rms.override =
        NoiseSpec.OSKAR_SYSTEM_NOISE_NO_OVERRIDE →
      fs.load (files rms_file) = some vals →
      vals.length ≠ noise.frequency.num_elements →
      (load_noise_rms sqrt fs settings noise files Status.OSKAR_SUCCESS).2 =
        Status.OSKAR_ERR_SETUP_FAIL_TELESCOPE) ∧
    (∀ vals, DBL_MIN ≤ settings.interferometer.channel_bandwidth_hz →
      DBL_MIN ≤ settings.obs.length_seconds / (settings.obs.num_time_steps : α) →
      settings.interferometer.noise.value.specification = NoiseSpec.OSKAR_SYSTEM_NOISE_RMS →
      settings.interferometer.noise.value.rms.override =
        NoiseSpec.OSKAR_SYSTEM_NOISE_DATA_FILE →
      fs.load settings.interferometer.noise.value.rms.file = some vals →
      vals.length ≠ noise.frequency.num_elements →
      (load_noise_rms sqrt fs settings noise files Status.OSKAR_SUCCESS).2 =
        Status.OSKAR_ERR_SETUP_FAIL_TELESCOPE) := by
  refine ⟨?_, ?_, ?_, ?_⟩
  · intro status h
    exact load_noise_rms_length sqrt fs settings noise files status h
  · intro vals hB hT hspec hrms hload hlen
    rw [load_noise_rms_eq sqrt fs settings noise files hB hT,
      switch_telescope_model_rms sqrt fs settings noise files hspec hrms,
      oskar_system_noise_model_load_ok fs _ _ vals hload]
    have hne : ¬ noise.frequency.num_elements = vals.length := fun h => hlen h.symm
    simp [oskar_Mem.num_elements] at hne
    simp [oskar_Mem.num_elements, hne]
  · intro vals hB hT hspec hov hload hlen
    have hsw : load_noise_rms_switch sqrt fs settings noise files =
        ({ noise.rms with data := vals }, Status.OSKAR_SUCCESS) := by
      unfold load_noise_rms_switch
      simp only [hspec]
      unfold load_override
      simp only [hov]
      exact oskar_system_noise_model_load_ok fs _ _ vals hload
    rw [load_noise_rms_eq sqrt fs settings noise files hB hT, hsw]
    have hne : ¬ noise.frequency.num_elements = vals.length := fun h => hlen h.symm
    simp [oskar_Mem.num_elements] at hne
    simp [oskar_Mem.num_elements, hne]
  · intro vals hB hT hspec hov hload hlen
    have hsw : load_noise_rms_switch sqrt fs settings noise files =
        ({ noise.rms with data := vals }, Status.OSKAR_SUCCESS) := by
      unfold load_noise_rms_switch
      simp only [hspec]
      unfold load_override
      simp only [hov]
      exact oskar_system_noise_model_load_ok fs _ _ vals hload
    rw [load_noise_rms_eq sqrt fs settings noise files hB hT, hsw]
    have hne : ¬ noise.frequency.num_elements = vals.length := fun h => hlen h.symm
    simp [oskar_Mem.num_elements] at hne
    simp [oskar_Mem.num_elements, hne]

/-- C6 (amended), instance: one frequency and an RMS file holding two values,
in telescope-model-priority mode: the run ends with
`OSKAR_ERR_SETUP_FAIL_TELESCOPE`. -/
theorem C6_rms_length_postcondition_witness :
    (load_noise_rms Real.sqrt (sample_fs [("/tm/rms.txt", [(3 : ℝ), 4])])
      (sample_settings 1 NoiseSpec.OSKAR_SYSTEM_NOISE_TELESCOPE_MODEL
        (quantity NoiseSpec.OSKAR_SYSTEM_NOISE_NO_OVERRIDE 0 0)
        (quantity NoiseSpec.OSKAR_SYSTEM_NOISE_NO_OVERRIDE 0 0)
        (quantity NoiseSpec.OSKAR_SYSTEM_NOISE_NO_OVERRIDE 0 0))
      (sample_noise [100]) (FileMap.empty.insert rms_file "/tm/rms.txt")
      Status.OSKAR_SUCCESS).2 = Status.OSKAR_ERR_SETUP_FAIL_TELESCOPE :=
  (C6_rms_length_postcondition Real.sqrt (sample_fs [("/tm/rms.txt", [(3 : ℝ), 4])])
    (sample_settings 1 NoiseSpec.OSKAR_SYSTEM_NOISE_TELESCOPE_MODEL
      (quantity NoiseSpec.OSKAR_SYSTEM_NOISE_NO_OVERRIDE 0 0)
      (quantity NoiseSpec.OSKAR_SYSTEM_NOISE_NO_OVERRIDE 0 0)
      (quantity NoiseSpec.OSKAR_SYSTEM_NOISE_NO_OVERRIDE 0 0))
    (sample_noise [100]) (FileMap.empty.insert rms_file "/tm/rms.txt")).2.1 [3, 4]
    DBL_MIN_le_one (by simpa [sample_settings] using (DBL_MIN_le_one : (DBL_MIN : ℝ) ≤ 1))
    rfl
    (by simp [sample_fs, FileMap.insert, List.lookup])
    (by simp [sample_fs, FileMap.insert, List.lookup])
    (by simp [sample_noise, oskar_Mem.num_elements])

/-- C9, the code at a failing input: system-temperature-priority mode, system
temperature not overridden, area and efficiency given by the range 1..1, one
frequency, bandwidth 1 Hz, integration time 1 s.  With a dictionary whose only
entry is the existing file `t_sys.txt` the run fails with `OSKAR_ERR_FILE_IO`;
with entries for both `t_sys.txt` (holding `[100]`) and `sensitivity.txt`
(holding `[7]`) the system temperature used is `[7]`, the content of the
sensitivity file. -/
theorem C9_t_sys_read_from_sensitivity_entry :
    (load_noise_rms Real.sqrt (sample_fs [("/tm/t_sys.txt", [(100 : ℝ)])])
      (sample_settings 1 NoiseSpec.OSKAR_SYSTEM_NOISE_SYS_TEMP
        (quantity NoiseSpec.OSKAR_SYSTEM_NOISE_NO_OVERRIDE 0 0)
        (quantity NoiseSpec.OSKAR_SYSTEM_NOISE_RANGE 1 1)
        (quantity NoiseSpec.OSKAR_SYSTEM_NOISE_RANGE 1 1))
      (sample_noise [100]) (FileMap.empty.insert t_sys_file "/tm/t_sys.txt")
      Status.OSKAR_SUCCESS).2 = Status.OSKAR_ERR_FILE_IO ∧
    (load_noise_rms Real.sqrt
      (sample_fs [("/tm/t_sys.txt", [(100 : ℝ)]), ("/tm/sensitivity.txt", [7])])
      (sample_settings 1 NoiseSpec.OSKAR_SYSTEM_NOISE_SYS_TEMP
        (quantity NoiseSpec.OSKAR_SYSTEM_NOISE_NO_OVERRIDE 0 0)
        (quantity NoiseSpec.OSKAR_SYSTEM_NOISE_RANGE 1 1)
        (quantity NoiseSpec.OSKAR_SYSTEM_NOISE_RANGE 1 1))
      (sample_noise [100])
      ((FileMap.empty.insert t_sys_file "/tm/t_sys.txt").insert sensitivity_file
        "/tm/sensitivity.txt")
      Status.OSKAR_SUCCESS) =
      ({ sample_noise [100] with
          rms := (t_sys_to_rms Real.sqrt (sample_noise [100]).rms
            ⟨MemType.OSKAR_DOUBLE, [7]⟩ ⟨MemType.OSKAR_DOUBLE, [1]⟩
            ⟨MemType.OSKAR_DOUBLE, [1]⟩ 1 1 1 Status.OSKAR_SUCCESS).1 },
        Status.OSKAR_SUCCESS) := by
  have hg : (DBL_MIN : ℝ) ≤ 1 := DBL_MIN_le_one
  constructor
  · rw [load_noise_rms_eq _ _ _ _ _ hg (by simpa [sample_settings] using hg)]
    simp [load_noise_rms_switch, sample_settings, quantity, load_override,
      oskar_system_noise_model_load, sample_fs, FileMap.insert, FileMap.empty, t_sys_file,
      sensitivity_file, List.lookup]
  · rw [load_noise_rms_eq _ _ _ _ _ hg (by simpa [sample_settings] using hg)]
    have hr : evaluate_range (⟨MemType.OSKAR_DOUBLE, [0]⟩ : oskar_Mem ℝ) 1 1 1
        Status.OSKAR_SUCCESS = (⟨MemType.OSKAR_DOUBLE, [1]⟩, Status.OSKAR_SUCCESS) := by
      rw [evaluate_range_ok _ _ _ _ (Or.inr rfl)]
      simp [List.range_succ]
    have hsw : load_noise_rms_switch Real.sqrt
        (sample_fs [("/tm/t_sys.txt", [(100 : ℝ)]), ("/tm/sensitivity.txt", [7])])
        (sample_settings 1 NoiseSpec.OSKAR_SYSTEM_NOISE_SYS_TEMP
          (quantity NoiseSpec.OSKAR_SYSTEM_NOISE_NO_OVERRIDE 0 0)
          (quantity NoiseSpec.OSKAR_SYSTEM_NOISE_RANGE 1 1)
          (quantity NoiseSpec.OSKAR_SYSTEM_NOISE_RANGE 1 1))
        (sample_noise [100])
        ((FileMap.empty.insert t_sys_file "/tm/t_sys.txt").insert sensitivity_file
          "/tm/sensitivity.txt") =
        t_sys_to_rms Real.sqrt (sample_noise [100]).rms
            ⟨MemType.OSKAR_DOUBLE, [7]⟩ ⟨MemType.OSKAR_DOUBLE, [1]⟩
            ⟨MemType.OSKAR_DOUBLE, [1]⟩ 1 1 1 Status.OSKAR_SUCCESS := by
      simp [load_noise_rms_switch, sample_settings, quantity, load_override,
        oskar_system_noise_model_load, sample_fs, FileMap.insert, sensitivity_file,
        List.lookup, sample_noise, oskar_Mem.num_elements, hr, oskar_Mem.create]
    have ht := t_sys_to_rms_ok Real.sqrt (sample_noise [100]).rms
      ⟨MemType.OSKAR_DOUBLE, [7]⟩ ⟨MemType.OSKAR_DOUBLE, [1]⟩ ⟨MemType.OSKAR_DOUBLE, [1]⟩
      1 1 1 rfl rfl rfl rfl rfl (Or.inr rfl)
    rw [hsw, ht]
    simp [sample_noise, oskar_Mem.num_elements]

/-- C10, the code at a failing input: system-temperature-priority mode,
efficiency not overridden, system temperature given by the range 100..100, one
frequency, bandwidth 1 Hz, integration time 1 s.  With the area given by the
range 50..50 and a dictionary whose only entry is the existing file
`efficiency.txt` the run fails with `OSKAR_ERR_FILE_IO`; with the area not
overridden and entries for both `area.txt` (holding `[50]`) and
`efficiency.txt` (holding `[1/2]`) the efficiency used is `[50]`, the content
of the area file. -/
theorem C10_efficiency_read_from_area_entry :
    (load_noise_rms Real.sqrt (sample_fs [("/tm/efficiency.txt", [(1 / 2 : ℝ)])])
      (sample_settings 1 NoiseSpec.OSKAR_SYSTEM_NOISE_SYS_TEMP
        (quantity NoiseSpec.OSKAR_SYSTEM_NOISE_RANGE 100 100)
        (quantity NoiseSpec.OSKAR_SYSTEM_NOISE_RANGE 50 50)
        (quantity NoiseSpec.OSKAR_SYSTEM_NOISE_NO_OVERRIDE 0 0))
      (sample_noise [100]) (FileMap.empty.insert efficiency_file "/tm/efficiency.txt")
      Status.OSKAR_SUCCESS).2 = Status.OSKAR_ERR_FILE_IO ∧
    (load_noise_rms Real.sqrt
      (sample_fs [("/tm/area.txt", [(50 : ℝ)]), ("/tm/efficiency.txt", [1 / 2])])
      (sample_settings 1 NoiseSpec.OSKAR_SYSTEM_NOISE_SYS_TEMP
        (quantity NoiseSpec.OSKAR_SYSTEM_NOISE_RANGE 100 100)
        (quantity NoiseSpec.OSKAR_SYSTEM_NOISE_NO_OVERRIDE 0 0)
        (quantity NoiseSpec.OSKAR_SYSTEM_NOISE_NO_OVERRIDE 0 0))
      (sample_noise [100])
      ((FileMap.empty.insert area_file "/tm/area.txt").insert efficiency_file
        "/tm/efficiency.txt")
      Status.OSKAR_SUCCESS) =
      ({ sample_noise [100] with
          rms := (t_sys_to_rms Real.sqrt (sample_noise [100]).rms
            ⟨MemType.OSKAR_DOUBLE, [100]⟩ ⟨MemType.OSKAR_DOUBLE, [50]⟩
            ⟨MemType.OSKAR_DOUBLE, [50]⟩ 1 1 1 Status.OSKAR_SUCCESS).1 },
        Status.OSKAR_SUCCESS) := by
  have hg : (DBL_MIN : ℝ) ≤ 1 := DBL_MIN_le_one
  have hr : evaluate_range (⟨MemType.OSKAR_DOUBLE, [0]⟩ : oskar_Mem ℝ) 1 100 100
      Status.OSKAR_SUCCESS = (⟨MemType.OSKAR_DOUBLE, [100]⟩, Status.OSKAR_SUCCESS) := by
    rw [evaluate_range_ok _ _ _ _ (Or.inr rfl)]
    simp [List.range_succ]
  have hr2 : evaluate_range (⟨MemType.OSKAR_DOUBLE, [0]⟩ : oskar_Mem ℝ) 1 50 50
      Status.OSKAR_SUCCESS = (⟨MemType.OSKAR_DOUBLE, [50]⟩, Status.OSKAR_SUCCESS) := by
    rw [evaluate_range_ok _ _ _ _ (Or.inr rfl)]
    simp [List.range_succ]
  constructor
  · rw [load_noise_rms_eq _ _ _ _ _ hg (by simpa [sample_settings] using hg)]
    simp [load_noise_rms_switch, sample_settings, quantity, load_override,
      oskar_system_noise_model_load, sample_fs, FileMap.insert, FileMap.empty, area_file,
      efficiency_file, List.lookup, sample_noise, oskar_Mem.num_elements, hr, hr2,
      oskar_Mem.create, t_sys_to_rms]
  · rw [load_noise_rms_eq _ _ _ _ _ hg (by simpa [sample_settings] using hg)]
    have hsw : load_noise_rms_switch Real.sqrt
        (sample_fs [("/tm/area.txt", [(50 : ℝ)]), ("/tm/efficiency.txt", [1 / 2])])
        (sample_settings 1 NoiseSpec.OSKAR_SYSTEM_NOISE_SYS_TEMP
          (quantity NoiseSpec.OSKAR_SYSTEM_NOISE_RANGE 100 100)
          (quantity NoiseSpec.OSKAR_SYSTEM_NOISE_NO_OVERRIDE 0 0)
          (quantity NoiseSpec.OSKAR_SYSTEM_NOISE_NO_OVERRIDE 0 0))
        (sample_noise [100])
        ((FileMap.empty.insert area_file "/tm/area.txt").insert efficiency_file
          "/tm/efficiency.txt") =
        t_sys_to_rms Real.sqrt (sample_noise [100]).rms
            ⟨MemType.OSKAR_DOUBLE, [100]⟩ ⟨MemType.OSKAR_DOUBLE, [50]⟩
            ⟨MemType.OSKAR_DOUBLE, [50]⟩ 1 1 1 Status.OSKAR_SUCCESS := by
      simp [load_noise_rms_switch, sample_settings, quantity, load_override,
        oskar_system_noise_model_load, sample_fs, FileMap.insert, FileMap.empty, area_file,
        efficiency_file, List.lookup, sample_noise, oskar_Mem.num_elements, hr,
        oskar_Mem.create]
    have ht := t_sys_to_rms_ok Real.sqrt (sample_noise [100]).rms
      ⟨MemType.OSKAR_DOUBLE, [100]⟩ ⟨MemType.OSKAR_DOUBLE, [50]⟩ ⟨MemType.OSKAR_DOUBLE, [50]⟩
      1 1 1 rfl rfl rfl rfl rfl (Or.inr rfl)
    rw [hsw, ht]
    simp [sample_noise, oskar_Mem.num_elements]

/-! ## The directory walk -/

section WalkLemmas

variable {α : Type}

theorem station_at_set_station (telescope : oskar_TelescopeModel α) (i j : Nat)
    (y : oskar_StationModel α) :
    (telescope.set_station i y).station_at j =
      if i = j then (telescope.station_at j).map (fun _ => y) else telescope.station_at j := by
  unfold oskar_TelescopeModel.set_station oskar_TelescopeModel.station_at
  cases h : telescope.station with
  | none => simp
  | some l =>
    simp only [Option.map_some', Option.getD_some, List.getElem?_set]
    by_cases hij : i = j
    · subst hij
      by_cases hl : i < l.length
      · simp [hl]
      · simp [hl, List.getElem?_eq_none (Nat.le_of_not_lt hl)]
    · simp [hij]

theorem list_set_same {β : Type} (l : List β) (i : Nat) (c : β) (h : l[i]? = some c) :
    l.set i c = l := by
  apply List.ext_getElem?
  intro j
  rw [List.getElem?_set]
  by_cases hij : i = j
  · subst hij
    have hlt : i < l.length := by
      by_contra hc
      rw [List.getElem?_eq_none (Nat.le_of_not_lt hc)] at h
      exact absurd h (by simp)
    simp [hlt, h]
  · simp [hij]

theorem option_map_set_same {β : Type} (child : Option (List β)) (i : Nat) (c : β)
    (h : (child.getD [])[i]? = some c) : child.map (fun l => l.set i c) = child := by
  cases child with
  | none => rfl
  | some l =>
    simp only [Option.getD_some] at h
    simp [list_set_same l i c h]

theorem noise_mk (n : oskar_SystemNoiseModel α)
    (c : Option (List (oskar_StationModel α))) : (oskar_StationModel.mk n c).noise = n := rfl

theorem station_eta (st : oskar_StationModel α) :
    oskar_StationModel.mk st.noise st.child = st := by
  cases st; rfl

/-- Writing back the station that is already there changes nothing. -/
theorem set_station_same (telescope : oskar_TelescopeModel α) (i : Nat)
    (st : oskar_StationModel α) (h : telescope.station_at i = some st) :
    telescope.set_station i st = telescope := by
  unfold oskar_TelescopeModel.station_at at h
  unfold oskar_TelescopeModel.set_station
  cases telescope with
  | mk type location station =>
    cases station with
    | none => rfl
    | some l =>
      simp only [Option.getD_some] at h
      simp [list_set_same l i st h]

variable [LinearOrderedField α]

theorem load_directories_skip (sqrt : α → α) (fs : FileSystem α) (settings : oskar_Settings α)
    (d : QDir) (telescope : oskar_TelescopeModel α) (station : Option (oskar_StationModel α))
    (depth : Nat) (files : FileMap) (status : Status)
    (h : status ≠ Status.OSKAR_SUCCESS ∨ depth > 1) :
    load_directories sqrt fs settings d telescope station depth files status =
      some ⟨telescope, station, files, status⟩ := by
  cases d with
  | mk path entries children =>
    unfold load_directories
    rcases h with h | h
    · simp [h]
    · simp [h]

/-- Below the station level the loop over child directories changes nothing:
every call it makes returns at once. -/
theorem load_children_deep (sqrt : α → α) (fs : FileSystem α) (settings : oskar_Settings α)
    (cs : List QDir) (i : Nat) (telescope : oskar_TelescopeModel α)
    (st : oskar_StationModel α) (depth : Nat) (hd : 1 ≤ depth) (files : FileMap)
    (status : Status) :
    load_children sqrt fs settings cs i telescope (some st) depth files status =
      some ⟨telescope, some st, files, status⟩ := by
  induction cs generalizing i with
  | nil => simp [load_children]
  | cons d rest ih =>
    unfold load_children
    rw [load_directories_skip sqrt fs settings d telescope _ (depth + 1) files status
      (Or.inr (by omega))]
    have hput : put_child_station telescope (some st) depth i
        (child_station telescope (some st) depth i) = (telescope, some st) := by
      unfold put_child_station child_station
      have hd0 : depth ≠ 0 := by omega
      simp only [hd0, if_false]
      cases hc : (st.child.getD [])[i]? with
      | none => rfl
      | some c =>
        simp only
        rw [option_map_set_same st.child i c hc, station_eta]
    simp only [hput]
    exact ih (i + 1)

/-- A station directory without subdirectories, visited at depth 1 with a
success status: the noise values of the station are resolved against the
updated dictionary, and nothing else changes. -/
theorem load_directories_leaf_station (sqrt : α → α) (fs : FileSystem α)
    (settings : oskar_Settings α) (d : QDir) (telescope : oskar_TelescopeModel α)
    (st : oskar_StationModel α) (files : FileMap) (hleaf : d.subdirs = []) :
    load_directories sqrt fs settings d telescope (some st) 1 files Status.OSKAR_SUCCESS =
      some ⟨telescope,
        some (oskar_StationModel.mk
          (load_noise_rms sqrt fs settings st.noise (update_noise_files files d)
            Status.OSKAR_SUCCESS).1 st.child),
        update_noise_files files d,
        (load_noise_rms sqrt fs settings st.noise (update_noise_files files d)
          Status.OSKAR_SUCCESS).2⟩ := by
  cases d with
  | mk path entries children =>
    simp only [QDir.subdirs] at hleaf
    subst hleaf
    unfold load_directories
    simp [allocate_stations, load_station_rms, load_children]

/-- A station directory with subdirectories, visited at depth 1 with a success
status: the noise model of the station is left as it was and the status stays
success. -/
theorem load_directories_inner_station (sqrt : α → α) (fs : FileSystem α)
    (settings : oskar_Settings α) (d : QDir) (telescope : oskar_TelescopeModel α)
    (st : oskar_StationModel α) (files : FileMap) (hinner : d.subdirs ≠ []) :
    ∃ st2 : oskar_StationModel α, st2.noise = st.noise ∧
      load_directories sqrt fs settings d telescope (some st) 1 files Status.OSKAR_SUCCESS =
        some ⟨telescope, some st2, update_noise_files files d, Status.OSKAR_SUCCESS⟩ := by
  cases d with
  | mk path entries children =>
    simp only [QDir.subdirs] at hinner
    have hlen : 0 < children.length := List.length_pos.mpr hinner
    have hne : children.length ≠ 0 := by omega
    unfold load_directories
    by_cases hc : st.child.isNone = true
    · refine ⟨oskar_StationModel.mk st.noise (some (List.replicate children.length
        (oskar_station_model_init telescope.type))), rfl, ?_⟩
      simp [allocate_stations, load_station_rms, hlen, hne, hc, load_children_deep]
    · refine ⟨st, rfl, ?_⟩
      simp [allocate_stations, load_station_rms, hlen, hne, hc, load_children_deep]

/-- A station directory visited at depth 1 with a success status through a
pointer to no station: the station is accessed, which is a fault. -/
theorem load_directories_no_station (sqrt : α → α) (fs : FileSystem α)
    (settings : oskar_Settings α) (d : QDir) (telescope : oskar_TelescopeModel α)
    (files : FileMap) :
    load_directories sqrt fs settings d telescope none 1 files Status.OSKAR_SUCCESS = none := by
  cases d with
  | mk path entries children =>
    unfold load_directories
    by_cases hlen : children.length = 0
    · simp [allocate_stations, load_station_rms, hlen]
    · have hpos : 0 < children.length := by omega
      simp [allocate_stations, hpos]

/-- One station directory visited at depth 1 with a success status through a
pointer to an existing station: the telescope is untouched, the frequencies of
the station are untouched, and if the directory has no subdirectories and the
visit succeeds, the station has as many RMS values as frequencies. -/
theorem load_directories_station_step (sqrt : α → α) (fs : FileSystem α)
    (settings : oskar_Settings α) (d : QDir) (telescope : oskar_TelescopeModel α)
    (st : oskar_StationModel α) (files : FileMap) :
    ∃ (st2 : oskar_StationModel α) (files2 : FileMap) (status2 : Status),
      load_directories sqrt fs settings d telescope (some st) 1 files Status.OSKAR_SUCCESS =
        some ⟨telescope, some st2, files2, status2⟩ ∧
      st2.noise.frequency = st.noise.frequency ∧
      (d.subdirs = [] → status2 = Status.OSKAR_SUCCESS →
        st2.noise.rms.num_elements = st2.noise.frequency.num_elements) ∧
      (d.subdirs ≠ [] → st2.noise = st.noise ∧ status2 = Status.OSKAR_SUCCESS) := by
  by_cases hleaf : d.subdirs = []
  · refine ⟨_, _, _, load_directories_leaf_station sqrt fs settings d telescope st files hleaf,
      ?_, ?_, ?_⟩
    · simp [noise_mk, load_noise_rms_frequency]
    · intro _ hs
      simp only [noise_mk]
      rw [load_noise_rms_length _ _ _ _ _ _ hs, load_noise_rms_frequency]
    · intro hne
      exact absurd hleaf hne
  · obtain ⟨st2, hn, hres⟩ :=
      load_directories_inner_station sqrt fs settings d telescope st files hleaf
    refine ⟨st2, _, _, hres, by rw [hn], ?_, ?_⟩
    · intro h
      exact absurd h hleaf
    · intro _
      exact ⟨hn, rfl⟩

/-- The loop over the station directories at depth 0, from station `i` on.
It keeps every frequency array and every station before `i`; a failed status
stays failed; and when the loop ends in success, every station whose directory
has no subdirectories exists and has as many RMS values as frequencies, while
every station whose directory has subdirectories keeps its noise model. -/
theorem load_children_top (sqrt : α → α) (fs : FileSystem α) (settings : oskar_Settings α)
    (cs : List QDir) :
    ∀ (i : Nat) (telescope : oskar_TelescopeModel α) (station : Option (oskar_StationModel α))
      (files : FileMap) (status : Status) (r : LoadState α),
      load_children sqrt fs settings cs i telescope station 0 files status = some r →
      (∀ j, (r.telescope.station_at j).map (fun s => s.noise.frequency) =
        (telescope.station_at j).map (fun s => s.noise.frequency)) ∧
      (∀ j, j < i → r.telescope.station_at j = telescope.station_at j) ∧
      (r.status = Status.OSKAR_SUCCESS → status = Status.OSKAR_SUCCESS) ∧
      (r.status = Status.OSKAR_SUCCESS → ∀ k d, cs[k]? = some d → d.subdirs = [] →
        ∃ st, r.telescope.station_at (i + k) = some st ∧
          st.noise.rms.num_elements = st.noise.frequency.num_elements) ∧
      (r.status = Status.OSKAR_SUCCESS → ∀ k d, cs[k]? = some d → d.subdirs ≠ [] →
        (r.telescope.station_at (i + k)).map (fun s => s.noise) =
          (telescope.station_at (i + k)).map (fun s => s.noise)) := by
  induction cs with
  | nil =>
    intro i telescope station files status r h
    simp only [load_children, Option.some.injEq] at h
    subst h
    simp
  | cons d rest ih =>
    intro i telescope station files status r h
    unfold load_children at h
    have hcs : child_station telescope station 0 i = telescope.station_at i := by
      simp [child_station]
    rw [hcs] at h
    by_cases hs : status = Status.OSKAR_SUCCESS
    · subst hs
      cases hst : telescope.station_at i with
      | none =>
        rw [hst, load_directories_no_station] at h
        simp at h
      | some st =>
        obtain ⟨st2, files2, status2, hcall, hfreq, hleaf, hinner⟩ :=
          load_directories_station_step sqrt fs settings d telescope st files
        rw [hst, hcall] at h
        simp only [put_child_station, if_true] at h
        obtain ⟨hF, hP, hS, hL, hI⟩ := ih (i + 1) _ _ _ _ r h
        have hat : r.telescope.station_at i = some st2 := by
          rw [hP i (by omega), station_at_set_station]
          simp [hst]
        refine ⟨?_, ?_, fun _ => rfl, ?_, ?_⟩
        · intro j
          rw [hF j, station_at_set_station]
          by_cases hij : i = j
          · subst hij
            simp [hst, hfreq]
          · simp [hij]
        · intro j hj
          rw [hP j (by omega), station_at_set_station]
          have hij : i ≠ j := by omega
          simp [hij]
        · intro hr k d2 hk hd2
          cases k with
          | zero =>
            simp only [List.getElem?_cons_zero, Option.some.injEq] at hk
            subst hk
            exact ⟨st2, by simpa using hat, hleaf hd2 (hS hr)⟩
          | succ k =>
            simp only [List.getElem?_cons_succ] at hk
            obtain ⟨st3, h3, h4⟩ := hL hr k d2 hk hd2
            exact ⟨st3, by rw [← h3]; congr 1; omega, h4⟩
        · intro hr k d2 hk hd2
          cases k with
          | zero =>
            simp only [List.getElem?_cons_zero, Option.some.injEq] at hk
            subst hk
            simp [hat, hst, (hinner hd2).1]
          | succ k =>
            simp only [List.getElem?_cons_succ] at hk
            have h5 := hI hr k d2 hk hd2
            have hidx : i + 1 + k = i + (k + 1) := by omega
            rw [hidx, station_at_set_station] at h5
            have hij : i ≠ i + (k + 1) := by omega
            simpa [hij] using h5
    · rw [load_directories_skip sqrt fs settings d telescope _ 1 files status (Or.inl hs)] at h
      have hback : put_child_station telescope station 0 i (telescope.station_at i) =
          (telescope, station) := by
        unfold put_child_station
        cases hst : telescope.station_at i with
        | none => rfl
        | some c => simp [set_station_same telescope i c hst]
      simp only [hback] at h
      obtain ⟨hF, hP, hS, hL, hI⟩ := ih (i + 1) _ _ _ _ r h
      refine ⟨hF, fun j hj => hP j (by omega), hS, ?_, ?_⟩
      · intro hr
        exact absurd (hS hr) hs
      · intro hr
        exact absurd (hS hr) hs

omit [LinearOrderedField α] in
theorem copy_freqs_fold_none (l : List Nat) :
    l.foldl copy_freqs_step (none : Option (oskar_TelescopeModel α × Status)) = none := by
  induction l with
  | nil => rfl
  | cons i rest ih => simpa [List.foldl, copy_freqs_step] using ih

omit [LinearOrderedField α] in
/-- The copy loop over stations `l`, none of them station 0, when it ends in
success: it started in success, station 0 is untouched, no station appears or
disappears, a station that shared the frequencies of station 0 still does, and
every station in `l` now does. -/
theorem copy_freqs_fold (l : List Nat) (hl : ∀ i ∈ l, 1 ≤ i) :
    ∀ (telescope telescope2 : oskar_TelescopeModel α) (status : Status),
      l.foldl copy_freqs_step (some (telescope, status)) =
        some (telescope2, Status.OSKAR_SUCCESS) →
      status = Status.OSKAR_SUCCESS ∧
      telescope2.station_at 0 = telescope.station_at 0 ∧
      (∀ j, (telescope2.station_at j).isSome = (telescope.station_at j).isSome) ∧
      (∀ k, (∃ st s0, telescope.station_at k = some st ∧ telescope.station_at 0 = some s0 ∧
          st.noise.frequency.data = s0.noise.frequency.data) →
        ∃ st s0, telescope2.station_at k = some st ∧ telescope2.station_at 0 = some s0 ∧
          st.noise.frequency.data = s0.noise.frequency.data) ∧
      (∀ i ∈ l, ∃ st s0, telescope2.station_at i = some st ∧
        telescope2.station_at 0 = some s0 ∧
        st.noise.frequency.data = s0.noise.frequency.data) := by
  induction l with
  | nil =>
    intro telescope telescope2 status h
    simp only [List.foldl, Option.some.injEq, Prod.mk.injEq] at h
    obtain ⟨h1, h2⟩ := h
    subst h1
    exact ⟨h2, rfl, fun _ => rfl, fun _ hk => hk, by simp⟩
  | cons i rest ih =>
    intro telescope telescope2 status h
    have hi : 1 ≤ i := hl i (by simp)
    have hrest : ∀ j ∈ rest, 1 ≤ j := fun j hj => hl j (by simp [hj])
    rw [List.foldl_cons] at h
    by_cases hs : status = Status.OSKAR_SUCCESS
    · subst hs
      cases hd : telescope.station_at i with
      | none =>
        simp [copy_freqs_step, hd, copy_freqs_fold_none] at h
      | some dst =>
        cases h0 : telescope.station_at 0 with
        | none =>
          simp [copy_freqs_step, hd, h0, copy_freqs_fold_none] at h
        | some src =>
          have hstep : copy_freqs_step (some (telescope, Status.OSKAR_SUCCESS)) i =
              some (telescope.set_station i (dst.set_frequency
                { dst.noise.frequency with data := src.noise.frequency.data }),
                Status.OSKAR_SUCCESS) := by
            simp [copy_freqs_step, hd, h0, oskar_mem_copy]
          rw [hstep] at h
          obtain ⟨_, hz, hsome, hkeep, hnew⟩ := ih hrest _ _ _ h
          have hi0 : i ≠ 0 := by omega
          have hz1 : (telescope.set_station i (dst.set_frequency
              { dst.noise.frequency with data := src.noise.frequency.data })).station_at 0 =
              some src := by
            rw [station_at_set_station]
            simp [hi0, h0]
          have hii : (telescope.set_station i (dst.set_frequency
              { dst.noise.frequency with data := src.noise.frequency.data })).station_at i =
              some (dst.set_frequency
                { dst.noise.frequency with data := src.noise.frequency.data }) := by
            rw [station_at_set_station]
            simp [hd]
          refine ⟨rfl, by rw [hz, hz1], ?_, ?_, ?_⟩
          · intro j
            rw [hsome j, station_at_set_station]
            by_cases hij : i = j
            · subst hij
              simp [hd]
            · simp [hij]
          · intro k hk
            apply hkeep k
            by_cases hik : i = k
            · subst hik
              exact ⟨_, src, hii, hz1, by simp [oskar_StationModel.set_frequency, noise_mk]⟩
            · obtain ⟨st, s0, hk1, hk2, hk3⟩ := hk
              refine ⟨st, s0, ?_, ?_, hk3⟩
              · rw [station_at_set_station]
                simp [hik, hk1]
              · rw [hz1]
                exact hk2
          · intro j hj
            rcases List.mem_cons.mp hj with hji | hjr
            · subst hji
              apply hkeep j
              exact ⟨_, src, hii, hz1, by simp [oskar_StationModel.set_frequency, noise_mk]⟩
            · exact hnew j hjr
    · have hstep : copy_freqs_step (some (telescope, status)) i = some (telescope, status) := by
        simp [copy_freqs_step, hs]
      rw [hstep] at h
      exact absurd (ih hrest _ _ _ h).1 hs

/-- Through a pointer to no buffer, `load_noise_freqs` cannot end in success. -/
theorem load_noise_freqs_no_buffer (fs : FileSystem α) (settings : oskar_Settings α)
    (filepath : String) (status : Status) (freqs : Option (oskar_Mem α)) (status2 : Status)
    (h : load_noise_freqs fs settings none filepath status = some (freqs, status2)) :
    status2 ≠ Status.OSKAR_SUCCESS := by
  unfold load_noise_freqs at h
  by_cases hs : status = Status.OSKAR_SUCCESS
  · subst hs
    simp only [ne_eq, not_true_eq_false, if_false] at h
    split_ifs at h <;> simp at h <;> (rw [← h.2]; simp)
  · simp only [ne_eq, hs, not_false_eq_true, if_true, Option.some.injEq, Prod.mk.injEq] at h
    rw [← h.2]
    exact hs

/-- The frequency block at depth 0, when it ends in success: station 0
exists, every station below `num_dirs` exists and holds the frequencies of
station 0, and no station has appeared or disappeared. -/
theorem load_station_freqs_shared (fs : FileSystem α) (settings : oskar_Settings α)
    (telescope telescope2 : oskar_TelescopeModel α) (num_dirs : Nat) (files : FileMap)
    (status : Status)
    (h : load_station_freqs fs settings telescope num_dirs files status =
      some (telescope2, Status.OSKAR_SUCCESS)) :
    (∃ s0, telescope2.station_at 0 = some s0 ∧
      ∀ i, i < num_dirs → ∃ st, telescope2.station_at i = some st ∧
        st.noise.frequency.data = s0.noise.frequency.data) ∧
    (∀ j, (telescope2.station_at j).isSome = (telescope.station_at j).isSome) := by
  unfold load_station_freqs at h
  cases hf : load_noise_freqs fs settings
      ((telescope.station_at 0).map (fun st => st.noise.frequency)) (files freq_file) status with
  | none => simp [hf] at h
  | some p =>
    obtain ⟨freqs, status1⟩ := p
    simp only [hf] at h
    have hmem : ∀ i ∈ List.range' 1 (num_dirs - 1), 1 ≤ i := by
      intro i hi
      rw [List.mem_range'_1] at hi
      exact hi.1
    obtain ⟨hs1, hz, hsome, hkeep, hnew⟩ := copy_freqs_fold _ hmem _ _ _ h
    subst hs1
    cases h0 : telescope.station_at 0 with
    | none =>
      rw [h0] at hf
      exact absurd rfl (load_noise_freqs_no_buffer fs settings _ _ _ _ hf)
    | some st0 =>
      have hex : ∃ s0, telescope2.station_at 0 = some s0 := by
        rw [hz]
        cases freqs with
        | none => exact ⟨st0, by simp [h0]⟩
        | some m =>
          refine ⟨st0.set_frequency m, ?_⟩
          simp only [h0]
          rw [station_at_set_station]
          simp [h0]
      obtain ⟨s0, hs0⟩ := hex
      refine ⟨⟨s0, hs0, ?_⟩, ?_⟩
      · intro i hi
        by_cases hi0 : i = 0
        · subst hi0
          exact ⟨s0, hs0, rfl⟩
        · have hin : i ∈ List.range' 1 (num_dirs - 1) := by
            rw [List.mem_range'_1]
            omega
          obtain ⟨st, s0b, h1, h2, h3⟩ := hnew i hin
          rw [hs0] at h2
          simp only [Option.some.injEq] at h2
          subst h2
          exact ⟨st, h1, h3⟩
      · intro j
        rw [hsome j]
        cases freqs with
        | none => simp [h0]
        | some m =>
          simp only [h0]
          rw [station_at_set_station]
          by_cases h0j : 0 = j
          · subst h0j
            simp [h0]
          · simp [h0j]

/-- The visit of the telescope directory (depth 0, success status) when it has
at least one station directory: the station array is allocated if it was null,
the frequency block runs, and the loop over the station directories follows. -/
theorem load_directories_top (sqrt : α → α) (fs : FileSystem α) (settings : oskar_Settings α)
    (d : QDir) (telescope : oskar_TelescopeModel α) (station : Option (oskar_StationModel α))
    (files : FileMap) (r : LoadState α) (hK : 1 ≤ d.subdirs.length)
    (h : load_directories sqrt fs settings d telescope station 0 files Status.OSKAR_SUCCESS =
      some r) :
    ∃ (telescope2 : oskar_TelescopeModel α) (status2 : Status),
      load_station_freqs fs settings
        (if telescope.station.isNone then
          (oskar_telescope_model_resize telescope d.subdirs.length Status.OSKAR_SUCCESS).1
          else telescope)
        d.subdirs.length (update_noise_files files d) Status.OSKAR_SUCCESS =
          some (telescope2, status2) ∧
      load_children sqrt fs settings d.subdirs 0 telescope2 station 0
        (update_noise_files files d) status2 = some r := by
  cases d with
  | mk path entries children =>
    simp only [QDir.subdirs] at hK ⊢
    have hne : children.length ≠ 0 := by omega
    unfold load_directories at h
    simp only [ne_eq, not_true_eq_false, if_false, gt_iff_lt, Nat.not_lt_zero, if_true] at h
    by_cases hn : telescope.station.isNone = true
    · simp only [allocate_stations, hn, and_self, if_true, oskar_telescope_model_resize,
        ne_eq, not_true_eq_false, if_false] at h
      simp only [hn, if_true, oskar_telescope_model_resize, ne_eq, not_true_eq_false, if_false]
      cases hf : load_station_freqs fs settings
          { telescope with station := some ((telescope.station.getD [] ++
            List.replicate children.length (oskar_station_model_init telescope.type)).take
            children.length) }
          children.length (update_noise_files files (QDir.mk path entries children))
          Status.OSKAR_SUCCESS with
      | none => simp [hf] at h
      | some p =>
        obtain ⟨t2, s2⟩ := p
        simp only [hf, load_station_rms, hne, false_and, if_false] at h
        exact ⟨t2, s2, rfl, h⟩
    · simp only [allocate_stations, hn, and_false, if_false, Nat.lt_irrefl, false_and,
        Bool.false_eq_true] at h
      simp only [hn, if_false, Bool.false_eq_true]
      cases hf : load_station_freqs fs settings telescope
          children.length (update_noise_files files (QDir.mk path entries children))
          Status.OSKAR_SUCCESS with
      | none => simp [hf] at h
      | some p =>
        obtain ⟨t2, s2⟩ := p
        simp only [hf, load_station_rms, hne, false_and, if_false] at h
        exact ⟨t2, s2, rfl, h⟩

end WalkLemmas

/-- C7: after a successful load of a telescope directory with K >= 1 station
subdirectories into a telescope with K top-level stations (allocated by the
load when the array was null), the telescope has exactly the stations
0 .. K-1, and every one of them has a frequency array of the same length as
that of station 0 and element-wise equal to it. -/
theorem C7_frequency_sharing {α : Type} [LinearOrderedField α] (sqrt : α → α)
    (fs : FileSystem α) (settings : oskar_Settings α) (dir : QDir)
    (telescope : oskar_TelescopeModel α) (files : FileMap) (r : LoadState α) (K : Nat)
    (hK : dir.subdirs.length = K) (h1 : 1 ≤ K)
    (hst : telescope.station = none ∨ ∃ sts, telescope.station = some sts ∧ sts.length = K)
    (hres : load_directories sqrt fs settings dir telescope none 0 files
      Status.OSKAR_SUCCESS = some r)
    (hok : r.status = Status.OSKAR_SUCCESS) :
    ∃ s0, r.telescope.station_at 0 = some s0 ∧
      (∀ i, i < K → ∃ st, r.telescope.station_at i = some st ∧
        st.noise.frequency.num_elements = s0.noise.frequency.num_elements ∧
        st.noise.frequency.data = s0.noise.frequency.data) ∧
      (∀ i, K ≤ i → r.telescope.station_at i = none) := by
  subst hK
  obtain ⟨telescope2, status2, hfreq, hloop⟩ :=
    load_directories_top sqrt fs settings dir telescope none files r h1 hres
  obtain ⟨hF, _, hS, _, _⟩ := load_children_top sqrt fs settings _ _ _ _ _ _ r hloop
  have hs2 : status2 = Status.OSKAR_SUCCESS := hS hok
  subst hs2
  obtain ⟨⟨s0, hs0, hall⟩, hsome⟩ := load_station_freqs_shared fs settings _ _ _ _ _ hfreq
  have hget : ∀ i st, telescope2.station_at i = some st →
      ∃ st2, r.telescope.station_at i = some st2 ∧
        st2.noise.frequency = st.noise.frequency := by
    intro i st hi
    have h := hF i
    rw [hi] at h
    simpa [Option.map_eq_some'] using h
  obtain ⟨r0, hr0, hr0f⟩ := hget 0 s0 hs0
  refine ⟨r0, hr0, ?_, ?_⟩
  · intro i hi
    obtain ⟨st, hst1, hst2⟩ := hall i hi
    obtain ⟨st2, h2, h2f⟩ := hget i st hst1
    refine ⟨st2, h2, ?_, ?_⟩
    · simp [oskar_Mem.num_elements, h2f, hr0f, hst2]
    · rw [h2f, hr0f, hst2]
  · intro i hi
    have hnone1 : (if telescope.station.isNone then
        (oskar_telescope_model_resize telescope dir.subdirs.length Status.OSKAR_SUCCESS).1
        else telescope).station_at i = none := by
      rcases hst with hn | ⟨sts, hsts, hlen⟩
      · simp [hn, oskar_telescope_model_resize, oskar_TelescopeModel.station_at,
          List.getElem?_eq_none, hi]
      · simp [hsts, oskar_TelescopeModel.station_at, List.getElem?_eq_none, hlen, hi]
    have hnone2 : telescope2.station_at i = none := by
      have h := hsome i
      rw [hnone1] at h
      simpa using h
    have h := hF i
    rw [hnone2] at h
    simpa using h

/-- C7, instance: the directory `/tm` with two station directories, the first
holding `rms.txt`, loaded into a telescope without station array, frequencies
from the observation settings. -/
theorem C7_frequency_sharing_witness :
    ∃ r, load_directories (fun x : ℚ => x) (sample_fs [("/tm/s0/rms.txt", [3])])
        (sample_settings 1 NoiseSpec.OSKAR_SYSTEM_NOISE_TELESCOPE_MODEL
          (quantity NoiseSpec.OSKAR_SYSTEM_NOISE_NO_OVERRIDE 0 0)
          (quantity NoiseSpec.OSKAR_SYSTEM_NOISE_NO_OVERRIDE 0 0)
          (quantity NoiseSpec.OSKAR_SYSTEM_NOISE_NO_OVERRIDE 0 0))
        two_station_tree empty_telescope none 0 FileMap.empty Status.OSKAR_SUCCESS = some r ∧
      r.status = Status.OSKAR_SUCCESS ∧
      ∃ s0, r.telescope.station_at 0 = some s0 ∧
        (∀ i, i < 2 → ∃ st, r.telescope.station_at i = some st ∧
          st.noise.frequency.num_elements = s0.noise.frequency.num_elements ∧
          st.noise.frequency.data = s0.noise.frequency.data) ∧
        (∀ i, 2 ≤ i → r.telescope.station_at i = none) := by
  have hstat : (load_directories (fun x : ℚ => x) (sample_fs [("/tm/s0/rms.txt", [3])])
        (sample_settings 1 NoiseSpec.OSKAR_SYSTEM_NOISE_TELESCOPE_MODEL
          (quantity NoiseSpec.OSKAR_SYSTEM_NOISE_NO_OVERRIDE 0 0)
          (quantity NoiseSpec.OSKAR_SYSTEM_NOISE_NO_OVERRIDE 0 0)
          (quantity NoiseSpec.OSKAR_SYSTEM_NOISE_NO_OVERRIDE 0 0))
        two_station_tree empty_telescope none 0 FileMap.empty
        Status.OSKAR_SUCCESS).map (fun r => r.status) = some Status.OSKAR_SUCCESS := by
    decide!
  obtain ⟨r, hres, hok⟩ := Option.map_eq_some'.mp hstat
  exact ⟨r, hres, hok,
    C7_frequency_sharing (fun x : ℚ => x) _ _ two_station_tree empty_telescope FileMap.empty r 2
      rfl (by decide) (Or.inl rfl) hres hok⟩

/-- C8, input on which the claim as stated fails: the telescope directory
`/tm` holds one station directory `/tm/s0`, which holds a further
subdirectory; frequencies come from the observation settings (one channel).
The load returns successfully with noise enabled, and station 0 has one
frequency and no RMS value. -/
theorem C8_nested_station_counterexample :
    (sample_settings (1 : ℝ) NoiseSpec.OSKAR_SYSTEM_NOISE_TELESCOPE_MODEL
        (quantity NoiseSpec.OSKAR_SYSTEM_NOISE_NO_OVERRIDE 0 0)
        (quantity NoiseSpec.OSKAR_SYSTEM_NOISE_NO_OVERRIDE 0 0)
        (quantity NoiseSpec.OSKAR_SYSTEM_NOISE_NO_OVERRIDE 0 0)).interferometer.noise.enable
      = true ∧
    (oskar_telescope_model_noise_load Real.sqrt
        (sample_fs_dir [] "/tm" nested_station_tree) empty_telescope
        (sample_settings 1 NoiseSpec.OSKAR_SYSTEM_NOISE_TELESCOPE_MODEL
          (quantity NoiseSpec.OSKAR_SYSTEM_NOISE_NO_OVERRIDE 0 0)
          (quantity NoiseSpec.OSKAR_SYSTEM_NOISE_NO_OVERRIDE 0 0)
          (quantity NoiseSpec.OSKAR_SYSTEM_NOISE_NO_OVERRIDE 0 0))
        Status.OSKAR_SUCCESS).map
      (fun r => (r.2, (r.1.station_at 0).map (fun st =>
        (st.noise.frequency.num_elements, st.noise.rms.num_elements)))) =
      some (Status.OSKAR_SUCCESS, some (1, 0)) := by
  constructor
  · rfl
  · decide!

/-- C8 (amended): after `oskar_telescope_model_noise_load` returns
successfully with noise enabled, every top-level station whose directory
contains no further subdirectories exists in the telescope and satisfies
`len(rms) == len(frequencies)`. -/
theorem C8_leaf_station_rms_length {α : Type} [LinearOrderedField α] (sqrt : α → α)
    (fs : FileSystem α) (telescope telescope2 : oskar_TelescopeModel α)
    (settings : oskar_Settings α) (dir : QDir)
    (henable : settings.interferometer.noise.enable = true)
    (hdir : fs.dir settings.telescope.input_directory = some dir)
    (hres : oskar_telescope_model_noise_load sqrt fs telescope settings Status.OSKAR_SUCCESS =
      some (telescope2, Status.OSKAR_SUCCESS)) :
    ∀ i d, dir.subdirs[i]? = some d → d.subdirs = [] →
      ∃ st, telescope2.station_at i = some st ∧
        st.noise.rms.num_elements = st.noise.frequency.num_elements := by
  intro i d hi hleaf
  have hK : 1 ≤ dir.subdirs.length := by
    by_contra hc
    rw [List.getElem?_eq_none (by omega)] at hi
    exact absurd hi (by simp)
  unfold oskar_telescope_model_noise_load at hres
  simp only [ne_eq, not_true_eq_false, if_false, henable, hdir] at hres
  by_cases hloc : telescope.location = Location.OSKAR_CPU
  · simp only [hloc, not_true_eq_false, if_false] at hres
    cases hl : load_directories sqrt fs settings dir telescope none 0 FileMap.empty
        Status.OSKAR_SUCCESS with
    | none => simp [hl] at hres
    | some r =>
      simp only [hl, Option.some.injEq, Prod.mk.injEq] at hres
      obtain ⟨ht, hs⟩ := hres
      obtain ⟨t2, s2, _, hloop⟩ :=
        load_directories_top sqrt fs settings dir telescope none FileMap.empty r hK hl
      obtain ⟨_, _, _, hL, _⟩ := load_children_top sqrt fs settings _ _ _ _ _ _ r hloop
      obtain ⟨st, h1, h2⟩ := hL hs i d hi hleaf
      rw [Nat.zero_add, ht] at h1
      exact ⟨st, h1, h2⟩
  · simp [hloc] at hres

/-- C8, instance: the directory `/tm` with two station directories without
subdirectories, the first holding `rms.txt` with one value; both stations end
with one RMS value for one frequency. -/
theorem C8_leaf_station_rms_length_witness :
    ∃ telescope2, oskar_telescope_model_noise_load (fun x : ℚ => x)
        (sample_fs_dir [("/tm/s0/rms.txt", [3])] "/tm" two_station_tree) empty_telescope
        (sample_settings 1 NoiseSpec.OSKAR_SYSTEM_NOISE_TELESCOPE_MODEL
          (quantity NoiseSpec.OSKAR_SYSTEM_NOISE_NO_OVERRIDE 0 0)
          (quantity NoiseSpec.OSKAR_SYSTEM_NOISE_NO_OVERRIDE 0 0)
          (quantity NoiseSpec.OSKAR_SYSTEM_NOISE_NO_OVERRIDE 0 0))
        Status.OSKAR_SUCCESS = some (telescope2, Status.OSKAR_SUCCESS) ∧
      ∀ i d, two_station_tree.subdirs[i]? = some d → d.subdirs = [] →
        ∃ st, telescope2.station_at i = some st ∧
          st.noise.rms.num_elements = st.noise.frequency.num_elements := by
  have hstat : (oskar_telescope_model_noise_load (fun x : ℚ => x)
        (sample_fs_dir [("/tm/s0/rms.txt", [3])] "/tm" two_station_tree) empty_telescope
        (sample_settings 1 NoiseSpec.OSKAR_SYSTEM_NOISE_TELESCOPE_MODEL
          (quantity NoiseSpec.OSKAR_SYSTEM_NOISE_NO_OVERRIDE 0 0)
          (quantity NoiseSpec.OSKAR_SYSTEM_NOISE_NO_OVERRIDE 0 0)
          (quantity NoiseSpec.OSKAR_SYSTEM_NOISE_NO_OVERRIDE 0 0))
        Status.OSKAR_SUCCESS).map (fun r => r.2) = some Status.OSKAR_SUCCESS := by
    decide!
  obtain ⟨⟨telescope2, status2⟩, hres, hok⟩ := Option.map_eq_some'.mp hstat
  simp only at hok
  subst hok
  exact ⟨telescope2, hres, C8_leaf_station_rms_length (fun x : ℚ => x) _ empty_telescope _ _
    two_station_tree rfl rfl hres⟩

/-! ## Error paths of the conversions and of the resolver -/

/-- C11, the code at a failing input: double-precision buffers, one frequency,
`t_sys = [1]`, `area = [1]` and an empty `efficiency` array (length 0, not 1).
`t_sys_to_rms` does not report `OSKAR_ERR_DIMENSION_MISMATCH`; the status stays
`OSKAR_SUCCESS`, whereas a `t_sys` or an `area` array of the wrong length is
rejected. -/
theorem C11_efficiency_length_unchecked :
    (t_sys_to_rms Real.sqrt ⟨MemType.OSKAR_DOUBLE, []⟩ ⟨MemType.OSKAR_DOUBLE, [1]⟩
      ⟨MemType.OSKAR_DOUBLE, [1]⟩ ⟨MemType.OSKAR_DOUBLE, []⟩ 1 1 1
      Status.OSKAR_SUCCESS).2 = Status.OSKAR_SUCCESS ∧
    (t_sys_to_rms Real.sqrt ⟨MemType.OSKAR_DOUBLE, []⟩ ⟨MemType.OSKAR_DOUBLE, []⟩
      ⟨MemType.OSKAR_DOUBLE, [1]⟩ ⟨MemType.OSKAR_DOUBLE, [1]⟩ 1 1 1
      Status.OSKAR_SUCCESS).2 = Status.OSKAR_ERR_DIMENSION_MISMATCH ∧
    (t_sys_to_rms Real.sqrt ⟨MemType.OSKAR_DOUBLE, []⟩ ⟨MemType.OSKAR_DOUBLE, [1]⟩
      ⟨MemType.OSKAR_DOUBLE, []⟩ ⟨MemType.OSKAR_DOUBLE, [1]⟩ 1 1 1
      Status.OSKAR_SUCCESS).2 = Status.OSKAR_ERR_DIMENSION_MISMATCH := by
  refine ⟨?_, ?_, ?_⟩
  · have h := t_sys_to_rms_ok Real.sqrt (⟨MemType.OSKAR_DOUBLE, []⟩ : oskar_Mem ℝ)
      ⟨MemType.OSKAR_DOUBLE, [1]⟩ ⟨MemType.OSKAR_DOUBLE, [1]⟩ ⟨MemType.OSKAR_DOUBLE, []⟩
      1 1 1 rfl rfl rfl rfl rfl (Or.inr rfl)
    rw [h]
  · simp [t_sys_to_rms, oskar_Mem.num_elements]
  · simp [t_sys_to_rms, oskar_Mem.num_elements]

/-- C12: for every target frequency count N and every sensitivity array whose
length differs from N but whose element type matches that of `rms`,
`sensitivity_to_rms` fails with `OSKAR_ERR_DIMENSION_MISMATCH` and returns the
`rms` buffer as it was, length and contents. -/
theorem C12_sensitivity_dimension_mismatch {α : Type} [LinearOrderedField α] (sqrt : α → α)
    (rms sensitivity : oskar_Mem α) (N : Nat) (B T : α)
    (htype : sensitivity.type = rms.type) (hlen : sensitivity.num_elements ≠ N) :
    sensitivity_to_rms sqrt rms sensitivity N B T Status.OSKAR_SUCCESS =
      (rms, Status.OSKAR_ERR_DIMENSION_MISMATCH) := by
  unfold sensitivity_to_rms
  rw [if_neg (by simp), if_neg (by simp [htype]), if_pos hlen]

/-- C12, instance: N = 3 and a sensitivity array of length N - 1 = 2; `rms`
keeps its two elements. -/
theorem C12_sensitivity_dimension_mismatch_witness :
    sensitivity_to_rms Real.sqrt ⟨MemType.OSKAR_DOUBLE, [9, 9]⟩
        ⟨MemType.OSKAR_DOUBLE, [1, 2]⟩ 3 1 1 Status.OSKAR_SUCCESS =
      (⟨MemType.OSKAR_DOUBLE, [9, 9]⟩, Status.OSKAR_ERR_DIMENSION_MISMATCH) :=
  C12_sensitivity_dimension_mismatch Real.sqrt ⟨MemType.OSKAR_DOUBLE, [9, 9]⟩
    ⟨MemType.OSKAR_DOUBLE, [1, 2]⟩ 3 1 1 rfl (by simp [oskar_Mem.num_elements])

/-- C13: for every specification mode, file system and dictionary of files,
if the channel bandwidth is at most 0, or the number of time steps is not 0
and the integration time `length_seconds / num_time_steps` is at most 0,
`load_noise_rms` entered with a success status fails with
`OSKAR_ERR_SETTINGS_INTERFEROMETER_NOISE` and returns the noise model, `rms`
included, as it was.  The result does not depend on the file system, and the
dictionary is not an output of the function. -/
theorem C13_bandwidth_guard {α : Type} [LinearOrderedField α] (sqrt : α → α)
    (fs : FileSystem α) (settings : oskar_Settings α) (noise : oskar_SystemNoiseModel α)
    (files : FileMap)
    (h : settings.interferometer.channel_bandwidth_hz ≤ 0 ∨
      (settings.obs.num_time_steps ≠ 0 ∧
        settings.obs.length_seconds / (settings.obs.num_time_steps : α) ≤ 0)) :
    load_noise_rms sqrt fs settings noise files Status.OSKAR_SUCCESS =
      (noise, Status.OSKAR_ERR_SETTINGS_INTERFEROMETER_NOISE) := by
  have hg : settings.interferometer.channel_bandwidth_hz < DBL_MIN ∨
      settings.obs.length_seconds / (settings.obs.num_time_steps : α) < DBL_MIN := by
    rcases h with h | h
    · exact Or.inl (lt_of_le_of_lt h DBL_MIN_pos)
    · exact Or.inr (lt_of_le_of_lt h.2 DBL_MIN_pos)
  unfold load_noise_rms
  rw [if_neg (by simp)]
  simp only [hg, if_true]

/-- C13, instance: a channel bandwidth of 0 Hz with an existing RMS file. -/
theorem C13_bandwidth_guard_witness :
    load_noise_rms Real.sqrt (sample_fs [("/tm/rms.txt", [(3 : ℝ)])])
        (sample_settings 0 NoiseSpec.OSKAR_SYSTEM_NOISE_TELESCOPE_MODEL
          (quantity NoiseSpec.OSKAR_SYSTEM_NOISE_NO_OVERRIDE 0 0)
          (quantity NoiseSpec.OSKAR_SYSTEM_NOISE_NO_OVERRIDE 0 0)
          (quantity NoiseSpec.OSKAR_SYSTEM_NOISE_NO_OVERRIDE 0 0))
        (sample_noise [100]) (FileMap.empty.insert rms_file "/tm/rms.txt")
        Status.OSKAR_SUCCESS =
      (sample_noise [100], Status.OSKAR_ERR_SETTINGS_INTERFEROMETER_NOISE) :=
  C13_bandwidth_guard Real.sqrt (sample_fs [("/tm/rms.txt", [(3 : ℝ)])])
    (sample_settings 0 NoiseSpec.OSKAR_SYSTEM_NOISE_TELESCOPE_MODEL
      (quantity NoiseSpec.OSKAR_SYSTEM_NOISE_NO_OVERRIDE 0 0)
      (quantity NoiseSpec.OSKAR_SYSTEM_NOISE_NO_OVERRIDE 0 0)
      (quantity NoiseSpec.OSKAR_SYSTEM_NOISE_NO_OVERRIDE 0 0))
    (sample_noise [100]) (FileMap.empty.insert rms_file "/tm/rms.txt")
    (Or.inl (le_refl (0 : ℝ)))

/-- C14: in telescope-model-priority mode with bandwidth and integration time
accepted by the guard, when the dictionary yields no existing RMS file, no
existing sensitivity file and not all three of the system temperature, area
and efficiency files, `load_noise_rms` fails with
`OSKAR_ERR_SETUP_FAIL_TELESCOPE` and returns the noise model, `rms` included,
as it was. -/
theorem C14_no_usable_noise_data {α : Type} [LinearOrderedField α] (sqrt : α → α)
    (fs : FileSystem α) (settings : oskar_Settings α) (noise : oskar_SystemNoiseModel α)
    (files : FileMap)
    (hspec : settings.interferometer.noise.value.specification =
      NoiseSpec.OSKAR_SYSTEM_NOISE_TELESCOPE_MODEL)
    (hB : DBL_MIN ≤ settings.interferometer.channel_bandwidth_hz)
    (hT : DBL_MIN ≤ settings.obs.length_seconds / (settings.obs.num_time_steps : α))
    (hrms : fs.exists_ (files rms_file) = false)
    (hsens : fs.exists_ (files sensitivity_file) = false)
    (hthree : ¬ (fs.exists_ (files t_sys_file) = true ∧ fs.exists_ (files area_file) = true ∧
      fs.exists_ (files efficiency_file) = true)) :
    load_noise_rms sqrt fs settings noise files Status.OSKAR_SUCCESS =
      (noise, Status.OSKAR_ERR_SETUP_FAIL_TELESCOPE) := by
  have hsw : load_noise_rms_switch sqrt fs settings noise files =
      (noise.rms, Status.OSKAR_ERR_SETUP_FAIL_TELESCOPE) := by
    unfold load_noise_rms_switch
    simp only [hspec, hrms, hsens, Bool.false_eq_true, if_false, hthree]
  rw [load_noise_rms_eq sqrt fs settings noise files hB hT, hsw]
  simp

/-- C14, instance: an empty station directory, that is an empty dictionary and
no file at all. -/
theorem C14_no_usable_noise_data_witness :
    load_noise_rms Real.sqrt (sample_fs [])
        (sample_settings (1 : ℝ) NoiseSpec.OSKAR_SYSTEM_NOISE_TELESCOPE_MODEL
          (quantity NoiseSpec.OSKAR_SYSTEM_NOISE_NO_OVERRIDE 0 0)
          (quantity NoiseSpec.OSKAR_SYSTEM_NOISE_NO_OVERRIDE 0 0)
          (quantity NoiseSpec.OSKAR_SYSTEM_NOISE_NO_OVERRIDE 0 0))
        (sample_noise [100]) FileMap.empty Status.OSKAR_SUCCESS =
      (sample_noise [100], Status.OSKAR_ERR_SETUP_FAIL_TELESCOPE) :=
  C14_no_usable_noise_data Real.sqrt (sample_fs [])
    (sample_settings (1 : ℝ) NoiseSpec.OSKAR_SYSTEM_NOISE_TELESCOPE_MODEL
      (quantity NoiseSpec.OSKAR_SYSTEM_NOISE_NO_OVERRIDE 0 0)
      (quantity NoiseSpec.OSKAR_SYSTEM_NOISE_NO_OVERRIDE 0 0)
      (quantity NoiseSpec.OSKAR_SYSTEM_NOISE_NO_OVERRIDE 0 0))
    (sample_noise [100]) FileMap.empty rfl DBL_MIN_le_one
    (by simpa [sample_settings] using (DBL_MIN_le_one : (DBL_MIN : ℝ) ≤ 1))
    (by simp [sample_fs]) (by simp [sample_fs]) (by simp [sample_fs])

/-! ## The frequency resolver and the file locator -/

/-- C15, inputs on which the claim as stated fails in floating-point
arithmetic, both in mode "observation settings".  On a float buffer with one
channel, start frequency 16777217 (a double) and increment 1, `freqs[0]` is
16777216, the float nearest to the start frequency.  On a double buffer with
four channels, start frequency 0 and the double nearest to 1/10 as increment,
`freqs[3]` is the double `5404319552844596 / 2^54`, which is not
`start + 3 * inc`. -/
theorem C15_rounding_counterexample :
    ieee_double 16777217 = 16777217 ∧
    load_noise_freqs_rounded ieee_double ieee_float (sample_fs [])
      (set_obs_frequencies sample_tm_settings 16777217 1) (some ⟨MemType.OSKAR_SINGLE, []⟩) ""
      Status.OSKAR_SUCCESS = some (some ⟨MemType.OSKAR_SINGLE, [16777216]⟩,
        Status.OSKAR_SUCCESS) ∧
    (16777216 : ℚ) ≠ 16777217 + ((0 : ℕ) : ℚ) * 1 ∧
    ieee_double (ieee_double (1 / 10)) = ieee_double (1 / 10) ∧
    (load_noise_freqs_rounded ieee_double ieee_float (sample_fs [])
      (set_obs_channels (set_obs_frequencies sample_tm_settings 0 (ieee_double (1 / 10))) 4)
      (some ⟨MemType.OSKAR_DOUBLE, []⟩) "" Status.OSKAR_SUCCESS).map
      (fun r => (r.1.map (fun m => m.data[3]?), r.2)) =
      some (some (some (5404319552844596 / 2 ^ 54)), Status.OSKAR_SUCCESS) ∧
    (5404319552844596 / 2 ^ 54 : ℚ) ≠ 0 + ((3 : ℕ) : ℚ) * ieee_double (1 / 10) := by
  refine ⟨by decide!, by decide!, by decide!, by decide!, by decide!, by decide!⟩

/-- C15 (amended): in exact arithmetic, in frequency mode "observation
settings" `load_noise_freqs`, entered with a success status, leaves exactly
N = `obs.num_channels` values
`freqs[i] = obs.start_frequency_hz + i * obs.frequency_inc_hz`, and in mode
"range" exactly N = `noise.freq.number` values
`freqs[i] = noise.freq.start + i * noise.freq.inc`, `i` running over
`0 .. N-1`, whatever the file system and the file path are. -/
theorem C15_generated_frequencies {α : Type} [LinearOrderedField α] (fs : FileSystem α)
    (s : oskar_Settings α) (freqs : oskar_Mem α) (filepath : String) :
    (s.interferometer.noise.freq.specification = NoiseSpec.OSKAR_SYSTEM_NOISE_OBS_SETTINGS →
      load_noise_freqs fs s (some freqs) filepath Status.OSKAR_SUCCESS =
        some (some { type := freqs.type,
                     data := (List.range s.obs.num_channels).map (fun (i : Nat) =>
                       s.obs.start_frequency_hz + (i : α) * s.obs.frequency_inc_hz) },
              Status.OSKAR_SUCCESS)) ∧
    (s.interferometer.noise.freq.specification = NoiseSpec.OSKAR_SYSTEM_NOISE_RANGE →
      load_noise_freqs fs s (some freqs) filepath Status.OSKAR_SUCCESS =
        some (some { type := freqs.type,
                     data := (List.range s.interferometer.noise.freq.number).map
                       (fun (i : Nat) => s.interferometer.noise.freq.start +
                         (i : α) * s.interferometer.noise.freq.inc) },
              Status.OSKAR_SUCCESS)) := by
  constructor
  · intro h
    have hl : ((freqs.data ++ List.replicate s.obs.num_channels (0 : α)).take
        s.obs.num_channels).length = s.obs.num_channels := by simp
    unfold load_noise_freqs
    simp [h, oskar_mem_realloc, store_loop_eq _ _ _ hl]
  · intro h
    have hl : ((freqs.data ++ List.replicate s.interferometer.noise.freq.number (0 : α)).take
        s.interferometer.noise.freq.number).length = s.interferometer.noise.freq.number := by
      simp
    unfold load_noise_freqs
    simp [h, oskar_mem_realloc, store_loop_eq _ _ _ hl]

/-- C15, instance: the sample settings take the frequencies from the
observation settings, one channel starting at 100 Hz. -/
theorem C15_generated_frequencies_witness :
    load_noise_freqs (sample_fs [])
        (sample_settings (1 : ℝ) NoiseSpec.OSKAR_SYSTEM_NOISE_TELESCOPE_MODEL
          (quantity NoiseSpec.OSKAR_SYSTEM_NOISE_NO_OVERRIDE 0 0)
          (quantity NoiseSpec.OSKAR_SYSTEM_NOISE_NO_OVERRIDE 0 0)
          (quantity NoiseSpec.OSKAR_SYSTEM_NOISE_NO_OVERRIDE 0 0))
        (some ⟨MemType.OSKAR_DOUBLE, []⟩) "" Status.OSKAR_SUCCESS =
      some (some { type := MemType.OSKAR_DOUBLE,
                   data := (List.range 1).map (fun (i : Nat) => (100 : ℝ) + (i : ℝ) * 1) },
            Status.OSKAR_SUCCESS) :=
  (C15_generated_frequencies (sample_fs [])
    (sample_settings (1 : ℝ) NoiseSpec.OSKAR_SYSTEM_NOISE_TELESCOPE_MODEL
      (quantity NoiseSpec.OSKAR_SYSTEM_NOISE_NO_OVERRIDE 0 0)
      (quantity NoiseSpec.OSKAR_SYSTEM_NOISE_NO_OVERRIDE 0 0)
      (quantity NoiseSpec.OSKAR_SYSTEM_NOISE_NO_OVERRIDE 0 0))
    ⟨MemType.OSKAR_DOUBLE, []⟩ "").1 rfl

/-- C16: in frequency mode "telescope model" (file path taken from the
dictionary entry of `noise_frequencies.txt`) or "data file" (file named in
`noise.freq.file`), `load_noise_freqs` entered with a success status fails with
`OSKAR_ERR_FILE_IO` whenever the chosen file does not exist, and leaves the
buffer alone; this includes a dictionary without entry for the frequency file,
whose entry reads as the empty path, which names no file. -/
theorem C16_missing_frequency_file {α : Type} [LinearOrderedField α] (fs : FileSystem α)
    (s : oskar_Settings α) (freqs : Option (oskar_Mem α)) :
    (∀ filepath,
      s.interferometer.noise.freq.specification = NoiseSpec.OSKAR_SYSTEM_NOISE_TELESCOPE_MODEL →
      fs.exists_ filepath = false →
      load_noise_freqs fs s freqs filepath Status.OSKAR_SUCCESS =
        some (freqs, Status.OSKAR_ERR_FILE_IO)) ∧
    (∀ filepath,
      s.interferometer.noise.freq.specification = NoiseSpec.OSKAR_SYSTEM_NOISE_DATA_FILE →
      fs.exists_ s.interferometer.noise.freq.file = false →
      load_noise_freqs fs s freqs filepath Status.OSKAR_SUCCESS =
        some (freqs, Status.OSKAR_ERR_FILE_IO)) ∧
    (s.interferometer.noise.freq.specification = NoiseSpec.OSKAR_SYSTEM_NOISE_TELESCOPE_MODEL →
      fs.exists_ "" = false →
      load_noise_freqs fs s freqs (FileMap.empty freq_file) Status.OSKAR_SUCCESS =
        some (freqs, Status.OSKAR_ERR_FILE_IO)) := by
  refine ⟨?_, ?_, ?_⟩
  · intro filepath h hex
    unfold load_noise_freqs
    simp [h, hex]
  · intro filepath h hex
    unfold load_noise_freqs
    simp [h, hex]
  · intro h hex
    unfold load_noise_freqs
    simp [h, hex, FileMap.empty]

/-- C16, instance: frequency mode "telescope model", no file anywhere and an
empty dictionary. -/
theorem C16_missing_frequency_file_witness :
    load_noise_freqs (sample_fs [])
        (set_freq_specification
          (sample_settings (1 : ℝ) NoiseSpec.OSKAR_SYSTEM_NOISE_TELESCOPE_MODEL
            (quantity NoiseSpec.OSKAR_SYSTEM_NOISE_NO_OVERRIDE 0 0)
            (quantity NoiseSpec.OSKAR_SYSTEM_NOISE_NO_OVERRIDE 0 0)
            (quantity NoiseSpec.OSKAR_SYSTEM_NOISE_NO_OVERRIDE 0 0))
          NoiseSpec.OSKAR_SYSTEM_NOISE_TELESCOPE_MODEL)
        (some ⟨MemType.OSKAR_DOUBLE, [7]⟩) (FileMap.empty freq_file) Status.OSKAR_SUCCESS =
      some (some ⟨MemType.OSKAR_DOUBLE, [7]⟩, Status.OSKAR_ERR_FILE_IO) :=
  (C16_missing_frequency_file (sample_fs [])
    (set_freq_specification
      (sample_settings (1 : ℝ) NoiseSpec.OSKAR_SYSTEM_NOISE_TELESCOPE_MODEL
        (quantity NoiseSpec.OSKAR_SYSTEM_NOISE_NO_OVERRIDE 0 0)
        (quantity NoiseSpec.OSKAR_SYSTEM_NOISE_NO_OVERRIDE 0 0)
        (quantity NoiseSpec.OSKAR_SYSTEM_NOISE_NO_OVERRIDE 0 0))
      NoiseSpec.OSKAR_SYSTEM_NOISE_TELESCOPE_MODEL)
    (some ⟨MemType.OSKAR_DOUBLE, [7]⟩)).2.2 rfl (by simp [sample_fs])

/-- C17: every status-taking function of the noise loader
(`oskar_telescope_model_noise_load`, `load_directories`, `load_noise_freqs`,
`load_noise_rms`, `sensitivity_to_rms`, `t_sys_to_rms`, `evaluate_range`),
entered with an already failed status, is a no-op: it returns the status, the
telescope, the station and noise models, the buffers and the dictionary of
files exactly as they were passed in. -/
theorem C17_failed_status_no_op {α : Type} [LinearOrderedField α] (sqrt : α → α)
    (fs : FileSystem α) (settings : oskar_Settings α) (status : Status)
    (h : status ≠ Status.OSKAR_SUCCESS) :
    (∀ telescope : oskar_TelescopeModel α,
      oskar_telescope_model_noise_load sqrt fs telescope settings status =
        some (telescope, status)) ∧
    (∀ (d : QDir) (telescope : oskar_TelescopeModel α)
        (station : Option (oskar_StationModel α)) (depth : Nat) (files : FileMap),
      load_directories sqrt fs settings d telescope station depth files status =
        some ⟨telescope, station, files, status⟩) ∧
    (∀ (freqs : Option (oskar_Mem α)) (filepath : String),
      load_noise_freqs fs settings freqs filepath status = some (freqs, status)) ∧
    (∀ (noise : oskar_SystemNoiseModel α) (files : FileMap),
      load_noise_rms sqrt fs settings noise files status = (noise, status)) ∧
    (∀ (rms sensitivity : oskar_Mem α) (N : Nat) (B T : α),
      sensitivity_to_rms sqrt rms sensitivity N B T status = (rms, status)) ∧
    (∀ (rms t_sys area efficiency : oskar_Mem α) (N : Nat) (B T : α),
      t_sys_to_rms sqrt rms t_sys area efficiency N B T status = (rms, status)) ∧
    (∀ (values : oskar_Mem α) (N : Nat) (start end_ : α),
      evaluate_range values N start end_ status = (values, status)) := by
  refine ⟨?_, ?_, ?_, ?_, ?_, ?_, ?_⟩
  · intro telescope
    simp [oskar_telescope_model_noise_load, h]
  · intro d telescope station depth files
    exact load_directories_skip sqrt fs settings d telescope station depth files status
      (Or.inl h)
  · intro freqs filepath
    simp [load_noise_freqs, h]
  · intro noise files
    simp [load_noise_rms, h]
  · intro rms sensitivity N B T
    simp [sensitivity_to_rms, h]
  · intro rms t_sys area efficiency N B T
    simp [t_sys_to_rms, h]
  · intro values N start end_
    simp [evaluate_range, h]

/-- C17, instance: `evaluate_range` entered with `OSKAR_ERR_FILE_IO` leaves a
buffer of two elements alone although three values are asked for. -/
theorem C17_failed_status_no_op_witness :
    evaluate_range (⟨MemType.OSKAR_DOUBLE, [8, 9]⟩ : oskar_Mem ℝ) 3 1 5
        Status.OSKAR_ERR_FILE_IO =
      (⟨MemType.OSKAR_DOUBLE, [8, 9]⟩, Status.OSKAR_ERR_FILE_IO) :=
  (C17_failed_status_no_op Real.sqrt (sample_fs [])
    (sample_settings (1 : ℝ) NoiseSpec.OSKAR_SYSTEM_NOISE_TELESCOPE_MODEL
      (quantity NoiseSpec.OSKAR_SYSTEM_NOISE_NO_OVERRIDE 0 0)
      (quantity NoiseSpec.OSKAR_SYSTEM_NOISE_NO_OVERRIDE 0 0)
      (quantity NoiseSpec.OSKAR_SYSTEM_NOISE_NO_OVERRIDE 0 0))
    Status.OSKAR_ERR_FILE_IO (by decide)).2.2.2.2.2.2 ⟨MemType.OSKAR_DOUBLE, [8, 9]⟩ 3 1 5

/-- One guarded assignment `if (c) files[name] = path;` read at `key`. -/
theorem guarded_insert_apply (files : FileMap) (c : Bool) (name path key : String) :
    (if c = true then files.insert name path else files) key =
      if key = name ∧ c = true then path else files key := by
  by_cases hc : c = true
  · by_cases hk : key = name
    · simp [hc, hk, FileMap.insert]
    · simp [hc, hk, FileMap.insert]
  · simp [hc]

/-- C18: `update_noise_files(files, dir)`: for each of the six well-known file
names, if the name is present directly inside `dir` the entry for it becomes
its absolute path inside `dir`, and if it is absent the entry keeps the value
it had; no other key of the dictionary is changed. -/
theorem C18_update_noise_files_entries (files : FileMap) (dir : QDir) (key : String) :
    update_noise_files files dir key =
      if key ∈ [freq_file, rms_file, sensitivity_file, t_sys_file, area_file,
          efficiency_file] ∧ dir.exists_ key = true then
        dir.absoluteFilePath key
      else files key := by
  unfold update_noise_files
  simp only [guarded_insert_apply, freq_file, rms_file, sensitivity_file, t_sys_file,
    area_file, efficiency_file, List.mem_cons, List.mem_singleton, List.not_mem_nil, or_false]
  by_cases h1 : key = "noise_frequencies.txt"
  · subst h1
    simp
  · by_cases h2 : key = "rms.txt"
    · subst h2
      simp
    · by_cases h3 : key = "sensitivity.txt"
      · subst h3
        simp
      · by_cases h4 : key = "t_sys.txt"
        · subst h4
          simp
        · by_cases h5 : key = "area.txt"
          · subst h5
            simp
          · by_cases h6 : key = "efficiency.txt"
            · subst h6
              simp
            · simp [h1, h2, h3, h4, h5, h6]

/-- C19: `oskar_telescope_model_noise_load`, entered with noise enabled and a
success status, fails with `OSKAR_ERR_FILE_IO` when the telescope input
directory does not exist, and with `OSKAR_ERR_BAD_LOCATION` when the directory
exists but the telescope model is not in host (CPU) memory; in both cases the
telescope model is returned as it was. -/
theorem C19_unusable_telescope_rejected {α : Type} [LinearOrderedField α] (sqrt : α → α)
    (fs : FileSystem α) (telescope : oskar_TelescopeModel α) (settings : oskar_Settings α)
    (henable : settings.interferometer.noise.enable = true) :
    (fs.dir settings.telescope.input_directory = none →
      oskar_telescope_model_noise_load sqrt fs telescope settings Status.OSKAR_SUCCESS =
        some (telescope, Status.OSKAR_ERR_FILE_IO)) ∧
    (∀ d, fs.dir settings.telescope.input_directory = some d →
      telescope.location ≠ Location.OSKAR_CPU →
      oskar_telescope_model_noise_load sqrt fs telescope settings Status.OSKAR_SUCCESS =
        some (telescope, Status.OSKAR_ERR_BAD_LOCATION)) := by
  constructor
  · intro hdir
    simp [oskar_telescope_model_noise_load, henable, hdir]
  · intro d hdir hloc
    simp [oskar_telescope_model_noise_load, henable, hdir, hloc]

/-- C19, instance: the telescope directory exists and the telescope model is
in GPU memory. -/
theorem C19_unusable_telescope_rejected_witness :
    oskar_telescope_model_noise_load Real.sqrt (sample_fs_dir [] "/tm" two_station_tree)
        ⟨MemType.OSKAR_DOUBLE, Location.OSKAR_GPU, none⟩
        (sample_settings (1 : ℝ) NoiseSpec.OSKAR_SYSTEM_NOISE_TELESCOPE_MODEL
          (quantity NoiseSpec.OSKAR_SYSTEM_NOISE_NO_OVERRIDE 0 0)
          (quantity NoiseSpec.OSKAR_SYSTEM_NOISE_NO_OVERRIDE 0 0)
          (quantity NoiseSpec.OSKAR_SYSTEM_NOISE_NO_OVERRIDE 0 0))
        Status.OSKAR_SUCCESS =
      some (⟨MemType.OSKAR_DOUBLE, Location.OSKAR_GPU, none⟩,
        Status.OSKAR_ERR_BAD_LOCATION) :=
  (C19_unusable_telescope_rejected Real.sqrt (sample_fs_dir [] "/tm" two_station_tree)
    ⟨MemType.OSKAR_DOUBLE, Location.OSKAR_GPU, none⟩
    (sample_settings (1 : ℝ) NoiseSpec.OSKAR_SYSTEM_NOISE_TELESCOPE_MODEL
      (quantity NoiseSpec.OSKAR_SYSTEM_NOISE_NO_OVERRIDE 0 0)
      (quantity NoiseSpec.OSKAR_SYSTEM_NOISE_NO_OVERRIDE 0 0)
      (quantity NoiseSpec.OSKAR_SYSTEM_NOISE_NO_OVERRIDE 0 0))
    rfl).2 two_station_tree (by simp [sample_fs_dir, sample_settings]) (by decide)

section RangeLemmas

variable {α : Type} [LinearOrderedField α]

/-- A run of `evaluate_range` that ends in success started in success on a
single- or double-precision buffer. -/
theorem evaluate_range_success (values : oskar_Mem α) (N : Nat) (start end_ : α)
    (status : Status)
    (h : (evaluate_range values N start end_ status).2 = Status.OSKAR_SUCCESS) :
    status = Status.OSKAR_SUCCESS ∧
      (values.type = MemType.OSKAR_SINGLE ∨ values.type = MemType.OSKAR_DOUBLE) := by
  by_cases hs : status = Status.OSKAR_SUCCESS
  · subst hs
    refine ⟨rfl, ?_⟩
    obtain ⟨m, hm, _, ht⟩ := resize_step values N
    unfold evaluate_range at h
    rw [if_neg (by simp)] at h
    simp only [hm] at h
    by_cases hd : values.type = MemType.OSKAR_DOUBLE
    · exact Or.inr hd
    · by_cases hf : values.type = MemType.OSKAR_SINGLE
      · exact Or.inl hf
      · simp [ht, hd, hf] at h
  · simp [evaluate_range, hs] at h

end RangeLemmas

/-- C20: for every N > 0 and every start, end with end > start, the values
produced by a successful `evaluate_range` are strictly increasing:
`values[i] < values[i+1]` for every `i` with `i + 1 < N`, in real arithmetic. -/
theorem C20_evaluate_range_increasing (values : oskar_Mem ℝ) (N : ℕ) (start end_ : ℝ)
    (status : Status) (hN : 0 < N) (hlt : start < end_)
    (hok : (evaluate_range values N start end_ status).2 = Status.OSKAR_SUCCESS) :
    ∀ i, i + 1 < N → ∃ a b,
      (evaluate_range values N start end_ status).1.data[i]? = some a ∧
      (evaluate_range values N start end_ status).1.data[i + 1]? = some b ∧ a < b := by
  obtain ⟨hs, hfloat⟩ := evaluate_range_success values N start end_ status hok
  subst hs
  rw [evaluate_range_ok values N start end_ hfloat]
  intro i hi
  have hinc : 0 < (end_ - start) / (N : ℝ) :=
    div_pos (sub_pos.mpr hlt) (by exact_mod_cast hN)
  refine ⟨start + (i : ℝ) * ((end_ - start) / (N : ℝ)),
    start + ((i + 1 : ℕ) : ℝ) * ((end_ - start) / (N : ℝ)), ?_, ?_, ?_⟩
  · have hi2 : i < N := by omega
    simp [hi2]
  · simp [hi]
  · have hcast : ((i + 1 : ℕ) : ℝ) = (i : ℝ) + 1 := by push_cast; ring
    rw [hcast]
    nlinarith

/-- C20, instance: `evaluate_range(N = 4, start = 1, end = 5)` on a
double-precision buffer, at `i = 0`: `values[0] < values[1]`. -/
theorem C20_evaluate_range_increasing_witness :
    ∃ a b,
      (evaluate_range (⟨MemType.OSKAR_DOUBLE, []⟩ : oskar_Mem ℝ) 4 1 5
        Status.OSKAR_SUCCESS).1.data[0]? = some a ∧
      (evaluate_range (⟨MemType.OSKAR_DOUBLE, []⟩ : oskar_Mem ℝ) 4 1 5
        Status.OSKAR_SUCCESS).1.data[0 + 1]? = some b ∧ a < b :=
  C20_evaluate_range_increasing ⟨MemType.OSKAR_DOUBLE, []⟩ 4 1 5 Status.OSKAR_SUCCESS
    (by decide) (by norm_num)
    (by rw [evaluate_range_ok _ _ _ _ (Or.inr rfl)]) 0 (by decide)

/-! ## The 3 x 3 matrix helpers: product and rotation -/

section Matrix3Lemmas

variable {T : Type} [CommRing T]

omit [CommRing T] in
/-- The matrix that the array written by `Matrix3::set` stands for. -/
theorem toMatrix_set (a b c d e f g h i : T) :
    Matrix3.toMatrix (Matrix3.set a b c d e f g h i) =
      Matrix.of ![![a, d, g], ![b, e, h], ![c, f, i]] := rfl

/-- Under the column-major reading, the array `multiplyMatrix3` returns for
`a` and `b` stands for the product of the matrix of `b` with the matrix of
`a`. -/
theorem multiplyMatrix3_toMatrix (a b : Fin 9 → T) :
    Matrix3.toMatrix (Matrix3.multiplyMatrix3 a b) = Matrix3.toMatrix b * Matrix3.toMatrix a := by
  unfold Matrix3.multiplyMatrix3
  rw [toMatrix_set]
  ext i j
  fin_cases i <;> fin_cases j <;>
    simp [Matrix3.toMatrix, Matrix3.MMUL, Matrix.mul_apply, Fin.sum_univ_three]

end Matrix3Lemmas

/-- C21: `Matrix3::multiplyMatrix3(result, a, b)` is documented to give
`result = a * b` for matrices stored in column-major order, that is
`result[r + 3c] = a[r]*b[3c] + a[r+3]*b[3c+1] + a[r+6]*b[3c+2]`.  The code
computes the product in the other order: under the column-major reading the
array it returns stands for `b * a`, for all `a` and `b`.  On the input
`a = (0,0,0, 1,0,0, 0,0,0)` and `b = (0,1,0, 0,0,0, 0,0,0)` element 0 of the
result is 0 while the documented formula gives 1, and applying the result to
the vector `(1,0,0)` gives `(0,0,0)` while applying `b` and then `a` gives
`(1,0,0)`. -/
theorem C21_multiplyMatrix3_operand_order :
    (∀ a b : Fin 9 → ℚ, Matrix3.toMatrix (Matrix3.multiplyMatrix3 a b) =
      Matrix3.toMatrix b * Matrix3.toMatrix a) ∧
    Matrix3.multiplyMatrix3 (![0, 0, 0, 1, 0, 0, 0, 0, 0] : Fin 9 → ℚ)
      ![0, 1, 0, 0, 0, 0, 0, 0, 0] 0 = 0 ∧
    (![0, 0, 0, 1, 0, 0, 0, 0, 0] : Fin 9 → ℚ) 0 * (![0, 1, 0, 0, 0, 0, 0, 0, 0] : Fin 9 → ℚ) 0 +
      (![0, 0, 0, 1, 0, 0, 0, 0, 0] : Fin 9 → ℚ) 3 *
        (![0, 1, 0, 0, 0, 0, 0, 0, 0] : Fin 9 → ℚ) 1 +
      (![0, 0, 0, 1, 0, 0, 0, 0, 0] : Fin 9 → ℚ) 6 *
        (![0, 1, 0, 0, 0, 0, 0, 0, 0] : Fin 9 → ℚ) 2 = 1 ∧
    Matrix3.multiplyVector3
      (Matrix3.multiplyMatrix3 (![0, 0, 0, 1, 0, 0, 0, 0, 0] : Fin 9 → ℚ)
        ![0, 1, 0, 0, 0, 0, 0, 0, 0]) ![1, 0, 0] = ![0, 0, 0] ∧
    Matrix3.multiplyVector3 (![0, 0, 0, 1, 0, 0, 0, 0, 0] : Fin 9 → ℚ)
      (Matrix3.multiplyVector3 ![0, 1, 0, 0, 0, 0, 0, 0, 0] ![1, 0, 0]) = ![1, 0, 0] := by
  refine ⟨fun a b => multiplyMatrix3_toMatrix a b, by decide!, by decide!, by decide!,
    by decide!⟩

/-! ## Stokes parameters of polarised visibilities -/

/-- C22: for polarised visibilities (every amplitude a complex 2 x 2 matrix
with `a = XX`, `b = XY`, `c = YX`, `d = YY`), one amplitude per baseline, time
and channel, and image type `OSKAR_IMAGE_TYPE_STOKES`,
`oskar_get_image_stokes` entered with a success status returns a matrix buffer
of the same precision and length and leaves the status at success; for every
amplitude index `i` its element holds, as complex numbers over the reals,
`I = 0.5 (XX + YY)` in `a`, `Q = 0.5 (XX - YY)` in `b`, `U = 0.5 (XY + YX)` in
`c` and `V = -0.5 i (XY - YX)` in `d`. -/
theorem C22_stokes_all_four (p : MemType) (data : List (double4c ℝ)) (nb nt nc : ℕ)
    (hlen : data.length = nb * nt * nc) :
    ∃ out : List (double4c ℝ),
      oskar_get_image_stokes
        ⟨⟨p, ComplexData.matrix data⟩, nb, nt, nc⟩
        ⟨ImageType.OSKAR_IMAGE_TYPE_STOKES⟩ Status.OSKAR_SUCCESS =
        (some ⟨p, ComplexData.matrix out⟩, Status.OSKAR_SUCCESS) ∧
      out.length = data.length ∧
      ∀ (i : ℕ) (v : double4c ℝ), data[i]? = some v →
        ∃ s : double4c ℝ, out[i]? = some s ∧
          s.a.toComplex = (1 / 2 : ℂ) * (v.a.toComplex + v.d.toComplex) ∧
          s.b.toComplex = (1 / 2 : ℂ) * (v.a.toComplex - v.d.toComplex) ∧
          s.c.toComplex = (1 / 2 : ℂ) * (v.b.toComplex + v.c.toComplex) ∧
          s.d.toComplex = -(1 / 2 : ℂ) * Complex.I * (v.b.toComplex - v.c.toComplex) := by
  refine ⟨(List.range (nb * nt * nc)).map (fun i =>
    (⟨⟨1 / 2 * ((data.getD i ⟨⟨0, 0⟩, ⟨0, 0⟩, ⟨0, 0⟩, ⟨0, 0⟩⟩).a.x +
          (data.getD i ⟨⟨0, 0⟩, ⟨0, 0⟩, ⟨0, 0⟩, ⟨0, 0⟩⟩).d.x),
        1 / 2 * ((data.getD i ⟨⟨0, 0⟩, ⟨0, 0⟩, ⟨0, 0⟩, ⟨0, 0⟩⟩).a.y +
          (data.getD i ⟨⟨0, 0⟩, ⟨0, 0⟩, ⟨0, 0⟩, ⟨0, 0⟩⟩).d.y)⟩,
      ⟨1 / 2 * ((data.getD i ⟨⟨0, 0⟩, ⟨0, 0⟩, ⟨0, 0⟩, ⟨0, 0⟩⟩).a.x -
          (data.getD i ⟨⟨0, 0⟩, ⟨0, 0⟩, ⟨0, 0⟩, ⟨0, 0⟩⟩).d.x),
        1 / 2 * ((data.getD i ⟨⟨0, 0⟩, ⟨0, 0⟩, ⟨0, 0⟩, ⟨0, 0⟩⟩).a.y -
          (data.getD i ⟨⟨0, 0⟩, ⟨0, 0⟩, ⟨0, 0⟩, ⟨0, 0⟩⟩).d.y)⟩,
      ⟨1 / 2 * ((data.getD i ⟨⟨0, 0⟩, ⟨0, 0⟩, ⟨0, 0⟩, ⟨0, 0⟩⟩).b.x +
          (data.getD i ⟨⟨0, 0⟩, ⟨0, 0⟩, ⟨0, 0⟩, ⟨0, 0⟩⟩).c.x),
        1 / 2 * ((data.getD i ⟨⟨0, 0⟩, ⟨0, 0⟩, ⟨0, 0⟩, ⟨0, 0⟩⟩).b.y +
          (data.getD i ⟨⟨0, 0⟩, ⟨0, 0⟩, ⟨0, 0⟩, ⟨0, 0⟩⟩).c.y)⟩,
      ⟨1 / 2 * ((data.getD i ⟨⟨0, 0⟩, ⟨0, 0⟩, ⟨0, 0⟩, ⟨0, 0⟩⟩).b.y -
          (data.getD i ⟨⟨0, 0⟩, ⟨0, 0⟩, ⟨0, 0⟩, ⟨0, 0⟩⟩).c.y),
        -(1 / 2) * ((data.getD i ⟨⟨0, 0⟩, ⟨0, 0⟩, ⟨0, 0⟩, ⟨0, 0⟩⟩).b.x -
          (data.getD i ⟨⟨0, 0⟩, ⟨0, 0⟩, ⟨0, 0⟩, ⟨0, 0⟩⟩).c.x)⟩⟩ : double4c ℝ)), ?_, ?_, ?_⟩
  · unfold oskar_get_image_stokes
    simp only [ne_eq, not_true_eq_false, if_false, oskar_mem_is_matrix, if_true, ite_self,
      oskar_mem_double4c_const, oskar_mem_create_matrix]
    rw [store_loop_eq _ _ _ (List.length_replicate _ _)]
    simp
  · simp [hlen]
  · intro i v hv
    have hi : i < nb * nt * nc := by
      rw [← hlen]
      exact (List.getElem?_eq_some.mp hv).1
    have hget : data.getD i ⟨⟨0, 0⟩, ⟨0, 0⟩, ⟨0, 0⟩, ⟨0, 0⟩⟩ = v := by
      simp [List.getD, hv]
    refine ⟨_, by rw [List.getElem?_map, List.getElem?_range hi]; rfl, ?_, ?_, ?_, ?_⟩ <;>
      (simp only [hget]; apply Complex.ext <;> simp [double2.toComplex])

/-- C22, instance: one double-precision amplitude with `XX = 1 + 2i`,
`XY = 3 + 4i`, `YX = 5 + 6i`, `YY = 7 + 8i` for one baseline, one time and one
channel. -/
theorem C22_stokes_all_four_witness :
    ([(⟨⟨1, 2⟩, ⟨3, 4⟩, ⟨5, 6⟩, ⟨7, 8⟩⟩ : double4c ℝ)].length = 1 * 1 * 1) ∧
    ∃ out : List (double4c ℝ),
      oskar_get_image_stokes
        ⟨⟨MemType.OSKAR_DOUBLE, ComplexData.matrix [⟨⟨1, 2⟩, ⟨3, 4⟩, ⟨5, 6⟩, ⟨7, 8⟩⟩]⟩, 1, 1, 1⟩
        ⟨ImageType.OSKAR_IMAGE_TYPE_STOKES⟩ Status.OSKAR_SUCCESS =
        (some ⟨MemType.OSKAR_DOUBLE, ComplexData.matrix out⟩, Status.OSKAR_SUCCESS) ∧
      out.length = [(⟨⟨1, 2⟩, ⟨3, 4⟩, ⟨5, 6⟩, ⟨7, 8⟩⟩ : double4c ℝ)].length ∧
      ∀ (i : ℕ) (v : double4c ℝ),
        [(⟨⟨1, 2⟩, ⟨3, 4⟩, ⟨5, 6⟩, ⟨7, 8⟩⟩ : double4c ℝ)][i]? = some v →
        ∃ s : double4c ℝ, out[i]? = some s ∧
          s.a.toComplex = (1 / 2 : ℂ) * (v.a.toComplex + v.d.toComplex) ∧
          s.b.toComplex = (1 / 2 : ℂ) * (v.a.toComplex - v.d.toComplex) ∧
          s.c.toComplex = (1 / 2 : ℂ) * (v.b.toComplex + v.c.toComplex) ∧
          s.d.toComplex = -(1 / 2 : ℂ) * Complex.I * (v.b.toComplex - v.c.toComplex) :=
  ⟨by simp, C22_stokes_all_four MemType.OSKAR_DOUBLE _ 1 1 1 (by simp)⟩

/-! ## Sibling stations, failures and content below the stations -/

section WalkSteps

variable {α : Type} [LinearOrderedField α]

/-- A station directory visited at depth 1 with a success status through a
pointer to an existing station, in full: a directory without subdirectories
has the noise values of the station resolved against the updated dictionary; a
directory with subdirectories only has the child array of the station
allocated if it was null. -/
theorem load_directories_station_eq (sqrt : α → α) (fs : FileSystem α)
    (settings : oskar_Settings α) (d : QDir) (telescope : oskar_TelescopeModel α)
    (st : oskar_StationModel α) (files : FileMap) :
    load_directories sqrt fs settings d telescope (some st) 1 files Status.OSKAR_SUCCESS =
      some ⟨telescope,
        some (if d.subdirs.length = 0 then
            oskar_StationModel.mk (load_noise_rms sqrt fs settings st.noise
              (update_noise_files files d) Status.OSKAR_SUCCESS).1 st.child
          else if st.child.isNone then
            oskar_StationModel.mk st.noise (some (List.replicate d.subdirs.length
              (oskar_station_model_init telescope.type)))
          else st),
        update_noise_files files d,
        if d.subdirs.length = 0 then
          (load_noise_rms sqrt fs settings st.noise (update_noise_files files d)
            Status.OSKAR_SUCCESS).2
        else Status.OSKAR_SUCCESS⟩ := by
  by_cases hleaf : d.subdirs = []
  · rw [load_directories_leaf_station sqrt fs settings d telescope st files hleaf]
    simp [hleaf]
  · cases d with
    | mk path entries children =>
      simp only [QDir.subdirs] at hleaf ⊢
      have hlen : 0 < children.length := List.length_pos.mpr hleaf
      have hne : children.length ≠ 0 := by omega
      unfold load_directories
      by_cases hc : st.child.isNone = true
      · simp [allocate_stations, load_station_rms, hlen, hne, hc, load_children_deep]
      · simp [allocate_stations, load_station_rms, hlen, hne, hc, load_children_deep]

/-- One pass of the loop over the station directories at depth 0, entered with
a success status at an existing station. -/
theorem load_children_step (sqrt : α → α) (fs : FileSystem α) (settings : oskar_Settings α)
    (d : QDir) (rest : List QDir) (i : Nat) (telescope : oskar_TelescopeModel α)
    (station : Option (oskar_StationModel α)) (st : oskar_StationModel α) (files : FileMap)
    (hst : telescope.station_at i = some st) :
    load_children sqrt fs settings (d :: rest) i telescope station 0 files
        Status.OSKAR_SUCCESS =
      load_children sqrt fs settings rest (i + 1)
        (telescope.set_station i
          (if d.subdirs.length = 0 then
            oskar_StationModel.mk (load_noise_rms sqrt fs settings st.noise
              (update_noise_files files d) Status.OSKAR_SUCCESS).1 st.child
          else if st.child.isNone then
            oskar_StationModel.mk st.noise (some (List.replicate d.subdirs.length
              (oskar_station_model_init telescope.type)))
          else st))
        station 0 (update_noise_files files d)
        (if d.subdirs.length = 0 then
          (load_noise_rms sqrt fs settings st.noise (update_noise_files files d)
            Status.OSKAR_SUCCESS).2
        else Status.OSKAR_SUCCESS) := by
  rw [load_children]
  have hcs : child_station telescope station 0 i = telescope.station_at i := by
    simp [child_station]
  rw [hcs, hst, load_directories_station_eq]
  simp only [put_child_station, if_true]

/-- One pass of the loop at depth 0 entered with a success status at a station
the array does not hold: the station is accessed, which is a fault. -/
theorem load_children_fault (sqrt : α → α) (fs : FileSystem α) (settings : oskar_Settings α)
    (d : QDir) (rest : List QDir) (i : Nat) (telescope : oskar_TelescopeModel α)
    (station : Option (oskar_StationModel α)) (files : FileMap)
    (hst : telescope.station_at i = none) :
    load_children sqrt fs settings (d :: rest) i telescope station 0 files
        Status.OSKAR_SUCCESS = none := by
  rw [load_children]
  have hcs : child_station telescope station 0 i = telescope.station_at i := by
    simp [child_station]
  rw [hcs, hst, load_directories_no_station]

/-- The loop over the station directories entered with a failed status changes
nothing. -/
theorem load_children_failed (sqrt : α → α) (fs : FileSystem α) (settings : oskar_Settings α)
    (cs : List QDir) (i : Nat) (telescope : oskar_TelescopeModel α)
    (station : Option (oskar_StationModel α)) (files : FileMap) (status : Status)
    (hs : status ≠ Status.OSKAR_SUCCESS) :
    load_children sqrt fs settings cs i telescope station 0 files status =
      some ⟨telescope, station, files, status⟩ := by
  induction cs generalizing i with
  | nil => simp [load_children]
  | cons d rest ih =>
    rw [load_children]
    rw [load_directories_skip sqrt fs settings d telescope _ 1 files status (Or.inl hs)]
    have hback : put_child_station telescope station 0 i (child_station telescope station 0 i) =
        (telescope, station) := by
      have hcs : child_station telescope station 0 i = telescope.station_at i := by
        simp [child_station]
      rw [hcs]
      unfold put_child_station
      cases hst : telescope.station_at i with
      | none => rfl
      | some c => simp [set_station_same telescope i c hst]
    simp only [hback]
    exact ih (i + 1)

/-- The loop over a list of directories is the loop over its first part
followed by the loop over the rest. -/
theorem load_children_append (sqrt : α → α) (fs : FileSystem α) (settings : oskar_Settings α)
    (xs ys : List QDir) (depth : Nat) :
    ∀ (i : Nat) (telescope : oskar_TelescopeModel α) (station : Option (oskar_StationModel α))
      (files : FileMap) (status : Status),
      load_children sqrt fs settings (xs ++ ys) i telescope station depth files status =
        match load_children sqrt fs settings xs i telescope station depth files status with
        | none => none
        | some r =>
          load_children sqrt fs settings ys (i + xs.length) r.telescope r.station depth
            r.files r.status := by
  induction xs with
  | nil =>
    intro i telescope station files status
    simp [load_children]
  | cons d rest ih =>
    intro i telescope station files status
    rw [List.cons_append, load_children, load_children]
    cases hcall : load_directories sqrt fs settings d telescope
        (child_station telescope station depth i) (depth + 1) files status with
    | none => rfl
    | some st =>
      simp only
      rw [ih]
      have hidx : i + 1 + rest.length = i + (d :: rest).length := by
        simp only [List.length_cons]
        omega
      rw [hidx]

/-- The loop over the station directories at depth 0, from station `i` on,
touches no station beyond the ones it visits, and hands back the `station`
pointer it was given. -/
theorem load_children_frame (sqrt : α → α) (fs : FileSystem α) (settings : oskar_Settings α)
    (cs : List QDir) :
    ∀ (i : Nat) (telescope : oskar_TelescopeModel α) (station : Option (oskar_StationModel α))
      (files : FileMap) (status : Status) (r : LoadState α),
      load_children sqrt fs settings cs i telescope station 0 files status = some r →
      (∀ k, i + cs.length ≤ k → r.telescope.station_at k = telescope.station_at k) ∧
      r.station = station := by
  induction cs with
  | nil =>
    intro i telescope station files status r h
    simp only [load_children, Option.some.injEq] at h
    subst h
    simp
  | cons d rest ih =>
    intro i telescope station files status r h
    by_cases hs : status = Status.OSKAR_SUCCESS
    · subst hs
      cases hst : telescope.station_at i with
      | none =>
        rw [load_children_fault sqrt fs settings d rest i telescope station files hst] at h
        exact absurd h (by simp)
      | some st =>
        rw [load_children_step sqrt fs settings d rest i telescope station st files hst] at h
        obtain ⟨h1, h2⟩ := ih _ _ _ _ _ r h
        refine ⟨?_, h2⟩
        intro k hk
        simp only [List.length_cons] at hk
        rw [h1 k (by omega), station_at_set_station]
        have hik : i ≠ k := by omega
        simp [hik]
    · rw [load_children_failed sqrt fs settings _ i telescope station files status hs] at h
      simp only [Option.some.injEq] at h
      subst h
      simp

end WalkSteps

/-- The dictionary after `update_noise_files(files, dir)`, read at `key`. -/
theorem update_noise_files_apply (files : FileMap) (dir : QDir) (key : String) :
    update_noise_files files dir key =
      if key ∈ [freq_file, rms_file, sensitivity_file, t_sys_file, area_file,
          efficiency_file] ∧ dir.exists_ key = true then
        dir.absoluteFilePath key
      else files key := by
  unfold update_noise_files
  simp only [guarded_insert_apply, freq_file, rms_file, sensitivity_file, t_sys_file,
    area_file, efficiency_file, List.mem_cons, List.mem_singleton, List.not_mem_nil, or_false]
  by_cases h1 : key = "noise_frequencies.txt"
  · subst h1
    simp
  · by_cases h2 : key = "rms.txt"
    · subst h2
      simp
    · by_cases h3 : key = "sensitivity.txt"
      · subst h3
        simp
      · by_cases h4 : key = "t_sys.txt"
        · subst h4
          simp
        · by_cases h5 : key = "area.txt"
          · subst h5
            simp
          · by_cases h6 : key = "efficiency.txt"
            · subst h6
              simp
            · simp [h1, h2, h3, h4, h5, h6]

/-- Visiting directories that do not hold `rms.txt` leaves the dictionary
entry of `rms.txt` as it was. -/
theorem foldl_update_noise_files_rms (cs : List QDir) (files : FileMap)
    (h : ∀ c ∈ cs, rms_file ∉ c.entries) :
    cs.foldl update_noise_files files rms_file = files rms_file := by
  induction cs generalizing files with
  | nil => rfl
  | cons c rest ih =>
    rw [List.foldl_cons, ih _ (fun x hx => h x (List.mem_cons_of_mem _ hx)),
      update_noise_files_apply]
    have hc : c.exists_ rms_file = false := by
      simp [QDir.exists_, h c (List.mem_cons_self _ _)]
    simp [hc]

section SiblingLemmas

variable {α : Type} [LinearOrderedField α]

/-- When the loop over the station directories at depth 0 ends in success, the
dictionary it leaves is the one it was given, updated by every directory in
turn. -/
theorem load_children_files (sqrt : α → α) (fs : FileSystem α) (settings : oskar_Settings α)
    (cs : List QDir) :
    ∀ (i : Nat) (telescope : oskar_TelescopeModel α) (station : Option (oskar_StationModel α))
      (files : FileMap) (status : Status) (r : LoadState α),
      load_children sqrt fs settings cs i telescope station 0 files status = some r →
      r.status = Status.OSKAR_SUCCESS →
      r.files = cs.foldl update_noise_files files := by
  induction cs with
  | nil =>
    intro i telescope station files status r h _
    simp only [load_children, Option.some.injEq] at h
    subst h
    rfl
  | cons d rest ih =>
    intro i telescope station files status r h hr
    have hs : status = Status.OSKAR_SUCCESS :=
      (load_children_top sqrt fs settings _ i telescope station files status r h).2.2.1 hr
    subst hs
    cases hst : telescope.station_at i with
    | none =>
      rw [load_children_fault sqrt fs settings d rest i telescope station files hst] at h
      exact absurd h (by simp)
    | some st =>
      rw [load_children_step sqrt fs settings d rest i telescope station st files hst] at h
      rw [ih _ _ _ _ _ r h hr, List.foldl_cons]

/-- In telescope-model-priority mode with an existing RMS file in the
dictionary, a successful `load_noise_rms` leaves the values of that file in the
RMS buffer. -/
theorem load_noise_rms_from_rms_file (sqrt : α → α) (fs : FileSystem α)
    (settings : oskar_Settings α) (noise : oskar_SystemNoiseModel α) (files : FileMap)
    (hspec : settings.interferometer.noise.value.specification =
      NoiseSpec.OSKAR_SYSTEM_NOISE_TELESCOPE_MODEL)
    (hrms : fs.exists_ (files rms_file) = true)
    (h : (load_noise_rms sqrt fs settings noise files Status.OSKAR_SUCCESS).2 =
      Status.OSKAR_SUCCESS) :
    fs.load (files rms_file) =
      some (load_noise_rms sqrt fs settings noise files Status.OSKAR_SUCCESS).1.rms.data := by
  by_cases hg : settings.interferometer.channel_bandwidth_hz < DBL_MIN ∨
      settings.obs.length_seconds / (settings.obs.num_time_steps : α) < DBL_MIN
  · simp [load_noise_rms, hg] at h
  · rw [not_or, not_lt, not_lt] at hg
    rw [load_noise_rms_eq sqrt fs settings noise files hg.1 hg.2,
      switch_telescope_model_rms sqrt fs settings noise files hspec hrms] at h ⊢
    cases hl : fs.load (files rms_file) with
    | none => simp [oskar_system_noise_model_load, hl] at h
    | some vals => simp [oskar_system_noise_model_load, hl]

/-- The station a sibling directory is visited for, when the loop over the
station directories at depth 0 ends in success: a directory `b` without
subdirectories that follows directories `xs` has its station resolved against
the dictionary left by `xs`, updated by `b`. -/
theorem load_children_sibling (sqrt : α → α) (fs : FileSystem α) (settings : oskar_Settings α)
    (xs : List QDir) (b : QDir) (post : List QDir) (telescope : oskar_TelescopeModel α)
    (station : Option (oskar_StationModel α)) (files : FileMap) (status : Status)
    (r : LoadState α) (hleaf : b.subdirs = [])
    (h : load_children sqrt fs settings (xs ++ b :: post) 0 telescope station 0 files status =
      some r)
    (hr : r.status = Status.OSKAR_SUCCESS) :
    ∃ (noise : oskar_SystemNoiseModel α) (st : oskar_StationModel α),
      r.telescope.station_at xs.length = some st ∧
      st.noise = (load_noise_rms sqrt fs settings noise
        (update_noise_files (xs.foldl update_noise_files files) b) Status.OSKAR_SUCCESS).1 ∧
      (load_noise_rms sqrt fs settings noise
        (update_noise_files (xs.foldl update_noise_files files) b) Status.OSKAR_SUCCESS).2 =
        Status.OSKAR_SUCCESS := by
  rw [load_children_append] at h
  cases h1 : load_children sqrt fs settings xs 0 telescope station 0 files status with
  | none => simp [h1] at h
  | some r1 =>
    simp only [h1, Nat.zero_add] at h
    obtain ⟨_, hP, hS, _, _⟩ :=
      load_children_top sqrt fs settings _ xs.length r1.telescope r1.station r1.files
        r1.status r h
    have hs1 : r1.status = Status.OSKAR_SUCCESS := hS hr
    have hf1 := load_children_files sqrt fs settings xs 0 telescope station files status r1 h1 hs1
    rw [hs1] at h
    cases hst : r1.telescope.station_at xs.length with
    | none =>
      rw [load_children_fault sqrt fs settings b post _ r1.telescope r1.station r1.files hst] at h
      exact absurd h (by simp)
    | some st =>
      rw [load_children_step sqrt fs settings b post _ r1.telescope r1.station st r1.files hst]
        at h
      have hlen : b.subdirs.length = 0 := by simp [hleaf]
      simp only [hlen, if_true] at h
      rw [hf1] at h
      obtain ⟨_, hP2, hS2, _, _⟩ := load_children_top sqrt fs settings _ _ _ _ _ _ r h
      refine ⟨st.noise, oskar_StationModel.mk (load_noise_rms sqrt fs settings st.noise
        (update_noise_files (xs.foldl update_noise_files files) b) Status.OSKAR_SUCCESS).1
        st.child, ?_, ?_, ?_⟩
      · rw [hP2 xs.length (by omega), station_at_set_station]
        simp only [if_true, hst, Option.map_some']
      · rw [noise_mk]
      · exact hS2 hr

end SiblingLemmas

section TopLemmas

variable {α : Type} [LinearOrderedField α]

/-- The visit of the telescope directory (depth 0, success status, null
`station` pointer) in full: allocation of the station array if it was null,
the frequency block, and then either the loop over the station directories or,
when there is none, the noise value resolver through the null pointer. -/
theorem load_directories_zero_eq (sqrt : α → α) (fs : FileSystem α)
    (settings : oskar_Settings α) (d : QDir) (telescope : oskar_TelescopeModel α)
    (files : FileMap) :
    load_directories sqrt fs settings d telescope none 0 files Status.OSKAR_SUCCESS =
      match load_station_freqs fs settings
        (if telescope.station.isNone then
          (oskar_telescope_model_resize telescope d.subdirs.length Status.OSKAR_SUCCESS).1
          else telescope)
        d.subdirs.length (update_noise_files files d) Status.OSKAR_SUCCESS with
      | none => none
      | some (telescope2, status2) =>
        if d.subdirs.length = 0 then
          (if status2 ≠ Status.OSKAR_SUCCESS then
            some ⟨telescope2, none, update_noise_files files d, status2⟩
          else none)
        else
          load_children sqrt fs settings d.subdirs 0 telescope2 none 0
            (update_noise_files files d) status2 := by
  cases d with
  | mk path entries children =>
    simp only [QDir.subdirs]
    unfold load_directories
    simp only [ne_eq, not_true_eq_false, if_false, gt_iff_lt, Nat.not_lt_zero, if_true]
    by_cases hn : telescope.station.isNone = true
    · simp only [allocate_stations, hn, and_self, if_true, oskar_telescope_model_resize,
        ne_eq, not_true_eq_false, if_false]
      cases hf : load_station_freqs fs settings
          { telescope with station := some ((telescope.station.getD [] ++
            List.replicate children.length (oskar_station_model_init telescope.type)).take
            children.length) }
          children.length (update_noise_files files (QDir.mk path entries children))
          Status.OSKAR_SUCCESS with
      | none => rfl
      | some p =>
        obtain ⟨t2, s2⟩ := p
        by_cases hK : children.length = 0
        · have hnil : children = [] := List.length_eq_zero.mp hK
          subst hnil
          by_cases hs : s2 = Status.OSKAR_SUCCESS
          · simp [load_station_rms, hs]
          · simp [load_station_rms, hs, load_children]
        · simp [load_station_rms, hK]
    · simp only [allocate_stations, hn, and_false, if_false, Nat.lt_irrefl, false_and,
        Bool.false_eq_true]
      cases hf : load_station_freqs fs settings telescope
          children.length (update_noise_files files (QDir.mk path entries children))
          Status.OSKAR_SUCCESS with
      | none => rfl
      | some p =>
        obtain ⟨t2, s2⟩ := p
        by_cases hK : children.length = 0
        · have hnil : children = [] := List.length_eq_zero.mp hK
          subst hnil
          by_cases hs : s2 = Status.OSKAR_SUCCESS
          · simp [load_station_rms, hs]
          · simp [load_station_rms, hs, load_children]
        · simp [load_station_rms, hK]

omit [LinearOrderedField α] in
/-- The copy loop of the frequency block leaves every RMS buffer alone. -/
theorem copy_freqs_fold_rms (l : List Nat) :
    ∀ (telescope telescope2 : oskar_TelescopeModel α) (status status2 : Status),
      l.foldl copy_freqs_step (some (telescope, status)) = some (telescope2, status2) →
      ∀ k, (telescope2.station_at k).map (fun s => s.noise.rms) =
        (telescope.station_at k).map (fun s => s.noise.rms) := by
  induction l with
  | nil =>
    intro telescope telescope2 status status2 h k
    simp only [List.foldl, Option.some.injEq, Prod.mk.injEq] at h
    rw [h.1]
  | cons i rest ih =>
    intro telescope telescope2 status status2 h k
    rw [List.foldl_cons] at h
    by_cases hs : status = Status.OSKAR_SUCCESS
    · subst hs
      cases hd : telescope.station_at i with
      | none => simp [copy_freqs_step, hd, copy_freqs_fold_none] at h
      | some dst =>
        cases h0 : telescope.station_at 0 with
        | none => simp [copy_freqs_step, hd, h0, copy_freqs_fold_none] at h
        | some src =>
          have hstep : copy_freqs_step (some (telescope, Status.OSKAR_SUCCESS)) i =
              some (telescope.set_station i (dst.set_frequency
                { dst.noise.frequency with data := src.noise.frequency.data }),
                Status.OSKAR_SUCCESS) := by
            simp [copy_freqs_step, hd, h0, oskar_mem_copy]
          rw [hstep] at h
          rw [ih _ _ _ _ h k, station_at_set_station]
          by_cases hik : i = k
          · subst hik
            simp [hd, oskar_StationModel.set_frequency, noise_mk]
          · simp [hik]
    · have hstep : copy_freqs_step (some (telescope, status)) i = some (telescope, status) := by
        simp [copy_freqs_step, hs]
      rw [hstep] at h
      exact ih _ _ _ _ h k

/-- The frequency block at depth 0 leaves every RMS buffer alone. -/
theorem load_station_freqs_rms (fs : FileSystem α) (settings : oskar_Settings α)
    (telescope telescope2 : oskar_TelescopeModel α) (num_dirs : Nat) (files : FileMap)
    (status status2 : Status)
    (h : load_station_freqs fs settings telescope num_dirs files status =
      some (telescope2, status2)) :
    ∀ k, (telescope2.station_at k).map (fun s => s.noise.rms) =
      (telescope.station_at k).map (fun s => s.noise.rms) := by
  intro k
  unfold load_station_freqs at h
  cases hf : load_noise_freqs fs settings
      ((telescope.station_at 0).map (fun st => st.noise.frequency)) (files freq_file) status with
  | none => simp [hf] at h
  | some p =>
    obtain ⟨freqs, status1⟩ := p
    simp only [hf] at h
    rw [copy_freqs_fold_rms _ _ _ _ _ h k]
    cases h0 : telescope.station_at 0 with
    | none => rfl
    | some st0 =>
      cases freqs with
      | none => rfl
      | some m =>
        simp only
        rw [station_at_set_station]
        by_cases h0k : 0 = k
        · subst h0k
          simp [h0, oskar_StationModel.set_frequency, noise_mk]
        · simp [h0k]

end TopLemmas

section Congruence

variable {α : Type} [LinearOrderedField α]

end Congruence

/-- C24: the visit of a telescope directory (`load_directories` at depth 0,
success status) whose station directories are `pre ++ d :: post`, station
`j = pre.length` being the first whose noise values fail to resolve.  The
hypotheses spell this out: the frequency block succeeds and leaves
`telescope2`; the loop over the earlier directories `pre` ends in success with
state `r1`; station `j` exists, its directory `d` has no subdirectories, and
`load_noise_rms` on it leaves a failed status.  Then the load returns, its
status is that failed status, every station `i < j` is exactly as the loop
over `pre` left it, and every station `k > j` has the RMS buffer it had before
the load (the one of the freshly allocated station when the load allocated the
array). -/
theorem C24_failed_station {α : Type} [LinearOrderedField α] (sqrt : α → α)
    (fs : FileSystem α) (settings : oskar_Settings α) (tdir : QDir)
    (telescope : oskar_TelescopeModel α) (files : FileMap) (pre : List QDir) (d : QDir)
    (post : List QDir) (telescope2 : oskar_TelescopeModel α) (r1 : LoadState α)
    (st : oskar_StationModel α)
    (hsub : tdir.subdirs = pre ++ d :: post)
    (hfreq : load_station_freqs fs settings
      (if telescope.station.isNone then
        (oskar_telescope_model_resize telescope tdir.subdirs.length Status.OSKAR_SUCCESS).1
        else telescope)
      tdir.subdirs.length (update_noise_files files tdir) Status.OSKAR_SUCCESS =
        some (telescope2, Status.OSKAR_SUCCESS))
    (hpre : load_children sqrt fs settings pre 0 telescope2 none 0
      (update_noise_files files tdir) Status.OSKAR_SUCCESS = some r1)
    (hok : r1.status = Status.OSKAR_SUCCESS)
    (hst : r1.telescope.station_at pre.length = some st)
    (hleaf : d.subdirs = [])
    (hfail : (load_noise_rms sqrt fs settings st.noise (update_noise_files r1.files d)
      Status.OSKAR_SUCCESS).2 ≠ Status.OSKAR_SUCCESS) :
    ∃ r : LoadState α,
      load_directories sqrt fs settings tdir telescope none 0 files Status.OSKAR_SUCCESS =
        some r ∧
      r.status = (load_noise_rms sqrt fs settings st.noise (update_noise_files r1.files d)
        Status.OSKAR_SUCCESS).2 ∧
      (∀ i, i < pre.length → r.telescope.station_at i = r1.telescope.station_at i) ∧
      (∀ k, pre.length < k →
        (r.telescope.station_at k).map (fun s => s.noise.rms) =
          ((if telescope.station.isNone then
            (oskar_telescope_model_resize telescope tdir.subdirs.length
              Status.OSKAR_SUCCESS).1
            else telescope).station_at k).map (fun s => s.noise.rms)) := by
  have hK : tdir.subdirs.length ≠ 0 := by
    rw [hsub]
    simp
  have hlen : d.subdirs.length = 0 := by simp [hleaf]
  have hframe := load_children_frame sqrt fs settings pre 0 telescope2 none
    (update_noise_files files tdir) Status.OSKAR_SUCCESS r1 hpre
  have hrun : load_directories sqrt fs settings tdir telescope none 0 files
      Status.OSKAR_SUCCESS =
      some ⟨r1.telescope.set_station pre.length
          (oskar_StationModel.mk (load_noise_rms sqrt fs settings st.noise
            (update_noise_files r1.files d) Status.OSKAR_SUCCESS).1 st.child),
        none, update_noise_files r1.files d,
        (load_noise_rms sqrt fs settings st.noise (update_noise_files r1.files d)
          Status.OSKAR_SUCCESS).2⟩ := by
    rw [load_directories_zero_eq, hfreq]
    simp only [hK, if_false]
    rw [hsub, load_children_append, hpre]
    simp only [Nat.zero_add]
    rw [hok, load_children_step sqrt fs settings d post _ r1.telescope r1.station st r1.files hst]
    simp only [hlen, if_true]
    rw [load_children_failed sqrt fs settings post _ _ _ _ _ hfail, hframe.2]
  refine ⟨_, hrun, rfl, ?_, ?_⟩
  · intro i hi
    simp only
    rw [station_at_set_station]
    have hne : pre.length ≠ i := by omega
    simp [hne]
  · intro k hk
    simp only
    rw [station_at_set_station]
    have hne : pre.length ≠ k := by omega
    simp only [hne, if_false]
    rw [hframe.1 k (by omega)]
    exact load_station_freqs_rms fs settings _ _ _ _ _ _ hfreq k

/-- C24, instance: three station directories under `/tm`; `rms.txt` of
station 0 holds one value for one frequency, `rms.txt` of station 1 holds two
values, so that station 1 fails with `OSKAR_ERR_SETUP_FAIL_TELESCOPE`.
Station 0 keeps its value and station 2 keeps its empty RMS buffer. -/
theorem C24_failed_station_witness :
    ∃ r, load_directories (fun x : ℚ => x)
        (sample_fs_dir [("/tm/s0/rms.txt", [3]), ("/tm/s1/rms.txt", [1, 2])] "/tm"
          three_station_tree)
        sample_tm_settings three_station_tree empty_telescope none 0 FileMap.empty
        Status.OSKAR_SUCCESS = some r ∧
      r.status = Status.OSKAR_ERR_SETUP_FAIL_TELESCOPE ∧
      (r.telescope.station_at 0).map (fun s => s.noise.rms.data) = some [3] ∧
      (r.telescope.station_at 2).map (fun s => s.noise.rms.data) = some [] := by
  have hfreq : load_station_freqs
      (sample_fs_dir [("/tm/s0/rms.txt", [3]), ("/tm/s1/rms.txt", [1, 2])] "/tm"
        three_station_tree)
      (sample_tm_settings : oskar_Settings ℚ)
      (if (empty_telescope : oskar_TelescopeModel ℚ).station.isNone then
        (oskar_telescope_model_resize empty_telescope three_station_tree.subdirs.length
          Status.OSKAR_SUCCESS).1
        else empty_telescope)
      three_station_tree.subdirs.length (update_noise_files FileMap.empty three_station_tree)
      Status.OSKAR_SUCCESS = some (sample_telescope [100] 3, Status.OSKAR_SUCCESS) := by
    simp [load_station_freqs, load_noise_freqs, empty_telescope, oskar_telescope_model_resize,
      sample_tm_settings, sample_settings, three_station_tree, QDir.subdirs,
      oskar_station_model_init, oskar_TelescopeModel.station_at,
      oskar_TelescopeModel.set_station, oskar_mem_realloc, store_loop, copy_freqs_step,
      oskar_mem_copy, oskar_StationModel.set_frequency, noise_mk, sample_telescope,
      sample_station, List.range', List.replicate, List.range, List.range.loop,
      oskar_StationModel.child]
  obtain ⟨r, hrun, hstat, hearly, hlate⟩ :=
    C24_failed_station (fun x : ℚ => x)
      (sample_fs_dir [("/tm/s0/rms.txt", [3]), ("/tm/s1/rms.txt", [1, 2])] "/tm"
        three_station_tree)
      sample_tm_settings three_station_tree empty_telescope FileMap.empty
      [QDir.mk "/tm/s0" ["rms.txt"] []] (QDir.mk "/tm/s1" ["rms.txt"] [])
      [QDir.mk "/tm/s2" [] []] (sample_telescope [100] 3) _ (sample_station [100]) rfl hfreq
      (load_children_step (fun x : ℚ => x) _ sample_tm_settings (QDir.mk "/tm/s0" ["rms.txt"] [])
        [] 0 (sample_telescope [100] 3) none (sample_station [100])
        (update_noise_files FileMap.empty three_station_tree) rfl)
      (by decide!) rfl rfl (by decide!)
  refine ⟨r, hrun, hstat.trans (by decide!), ?_, ?_⟩
  · rw [hearly 0 (by decide)]
    decide!
  · have h2 := congrArg (Option.map (fun m : oskar_Mem ℚ => m.data)) (hlate 2 (by decide))
    simp only [Option.map_map] at h2
    exact h2.trans (by decide!)

/-- C25: in system-temperature-priority mode, with bandwidth and integration
time accepted by the guard, let `t`, `area` and `efficiency` be what the
three-way override leaves for the system temperature, the area and the
efficiency (buffer and status), each resolved with the dictionary key the
source uses at that place.  If `t` failed, or `t` succeeded and `area` failed,
or both succeeded and `efficiency` failed, `load_noise_rms` returns the noise
model unchanged, `rms` included, with the status of the failure. -/
theorem C25_sys_temp_failure {α : Type} [LinearOrderedField α] (sqrt : α → α)
    (fs : FileSystem α) (settings : oskar_Settings α) (noise : oskar_SystemNoiseModel α)
    (files : FileMap)
    (hspec : settings.interferometer.noise.value.specification =
      NoiseSpec.OSKAR_SYSTEM_NOISE_SYS_TEMP)
    (hB : DBL_MIN ≤ settings.interferometer.channel_bandwidth_hz)
    (hT : DBL_MIN ≤ settings.obs.length_seconds / (settings.obs.num_time_steps : α))
    (type : MemType)
    (htype : type = if settings.sim.double_precision then MemType.OSKAR_DOUBLE
      else MemType.OSKAR_SINGLE)
    (t area efficiency : oskar_Mem α × Status)
    (ht : t = load_override fs settings.interferometer.noise.value.t_sys
      (oskar_Mem.create type noise.frequency.num_elements) files sensitivity_file
      noise.frequency.num_elements Status.OSKAR_SUCCESS)
    (harea : area = load_override fs settings.interferometer.noise.value.area
      (oskar_Mem.create type noise.frequency.num_elements) files area_file
      noise.frequency.num_elements Status.OSKAR_SUCCESS)
    (heff : efficiency = load_override fs settings.interferometer.noise.value.efficiency
      (oskar_Mem.create type noise.frequency.num_elements) files area_file
      noise.frequency.num_elements Status.OSKAR_SUCCESS) :
    (t.2 ≠ Status.OSKAR_SUCCESS →
      load_noise_rms sqrt fs settings noise files Status.OSKAR_SUCCESS = (noise, t.2)) ∧
    (t.2 = Status.OSKAR_SUCCESS → area.2 ≠ Status.OSKAR_SUCCESS →
      load_noise_rms sqrt fs settings noise files Status.OSKAR_SUCCESS = (noise, area.2)) ∧
    (t.2 = Status.OSKAR_SUCCESS → area.2 = Status.OSKAR_SUCCESS →
      efficiency.2 ≠ Status.OSKAR_SUCCESS →
      load_noise_rms sqrt fs settings noise files Status.OSKAR_SUCCESS =
        (noise, efficiency.2)) := by
  subst htype
  refine ⟨?_, ?_, ?_⟩
  · intro h1
    have hsw : load_noise_rms_switch sqrt fs settings noise files = (noise.rms, t.2) := by
      unfold load_noise_rms_switch
      simp only [hspec]
      rw [← ht, if_pos h1]
    rw [load_noise_rms_eq sqrt fs settings noise files hB hT, hsw]
    simp [h1]
  · intro h1 h2
    have hsw : load_noise_rms_switch sqrt fs settings noise files = (noise.rms, area.2) := by
      unfold load_noise_rms_switch
      simp only [hspec]
      rw [← ht, if_neg (not_not.mpr h1), h1, ← harea, if_pos h2]
    rw [load_noise_rms_eq sqrt fs settings noise files hB hT, hsw]
    simp [h2]
  · intro h1 h2 h3
    have hsw : load_noise_rms_switch sqrt fs settings noise files =
        (noise.rms, efficiency.2) := by
      unfold load_noise_rms_switch
      simp only [hspec]
      rw [← ht, if_neg (not_not.mpr h1), h1, ← harea, if_neg (not_not.mpr h2), h2, ← heff]
      unfold t_sys_to_rms
      rw [if_pos h3]
    rw [load_noise_rms_eq sqrt fs settings noise files hB hT, hsw]
    simp [h3]

/-- C25, instance: no file at all and no override; the system temperature is
read from a missing file, which fails with `OSKAR_ERR_FILE_IO`. -/
theorem C25_sys_temp_failure_witness :
    load_noise_rms Real.sqrt (sample_fs [])
        (sample_settings (1 : ℝ) NoiseSpec.OSKAR_SYSTEM_NOISE_SYS_TEMP
          (quantity NoiseSpec.OSKAR_SYSTEM_NOISE_NO_OVERRIDE 0 0)
          (quantity NoiseSpec.OSKAR_SYSTEM_NOISE_NO_OVERRIDE 0 0)
          (quantity NoiseSpec.OSKAR_SYSTEM_NOISE_NO_OVERRIDE 0 0))
        (sample_noise [100]) FileMap.empty Status.OSKAR_SUCCESS =
      (sample_noise [100], Status.OSKAR_ERR_FILE_IO) :=
  (C25_sys_temp_failure Real.sqrt (sample_fs [])
    (sample_settings (1 : ℝ) NoiseSpec.OSKAR_SYSTEM_NOISE_SYS_TEMP
      (quantity NoiseSpec.OSKAR_SYSTEM_NOISE_NO_OVERRIDE 0 0)
      (quantity NoiseSpec.OSKAR_SYSTEM_NOISE_NO_OVERRIDE 0 0)
      (quantity NoiseSpec.OSKAR_SYSTEM_NOISE_NO_OVERRIDE 0 0))
    (sample_noise [100]) FileMap.empty rfl DBL_MIN_le_one
    (by simpa [sample_settings] using (DBL_MIN_le_one : (DBL_MIN : ℝ) ≤ 1))
    MemType.OSKAR_DOUBLE rfl _ _ _ rfl rfl rfl).1
    (by simp [load_override, quantity, sample_settings, oskar_system_noise_model_load,
      sample_fs])

/-- C26: the claim says that for a telescope directory with zero station
subdirectories `oskar_telescope_model_noise_load` with noise enabled accesses
existing stations only.  The code does not: for the directory `/tm` without
subdirectories and a telescope without station array, the array is sized to
zero stations, station 0 does not exist, and the frequency block accesses it;
for a telescope that already has one station, the frequencies go to station 0
and the noise value resolver is then called through the null `station`
pointer.  Both loads fault. -/
theorem C26_zero_station_directories :
    (sample_tm_settings : oskar_Settings ℚ).interferometer.noise.enable = true ∧
    ((oskar_telescope_model_resize (empty_telescope : oskar_TelescopeModel ℚ)
      no_station_tree.subdirs.length Status.OSKAR_SUCCESS).1.station_at 0).isNone = true ∧
    (oskar_telescope_model_noise_load (fun x : ℚ => x)
        (sample_fs_dir [] "/tm" no_station_tree) empty_telescope sample_tm_settings
        Status.OSKAR_SUCCESS).isNone = true ∧
    (load_station_rms (fun x : ℚ => x) (sample_fs_dir [] "/tm" no_station_tree)
        sample_tm_settings none 0 no_station_tree.subdirs.length
        (update_noise_files FileMap.empty no_station_tree) Status.OSKAR_SUCCESS).isNone = true ∧
    (oskar_telescope_model_noise_load (fun x : ℚ => x)
        (sample_fs_dir [] "/tm" no_station_tree) (sample_telescope [] 1) sample_tm_settings
        Status.OSKAR_SUCCESS).isNone = true := by
  refine ⟨rfl, by decide!, by decide!, by decide!, by decide!⟩

/-- C27, inputs on which the claim as stated fails.  First: three station
directories `/tm/s0`, `/tm/s1`, `/tm/s2` without subdirectories, `rms.txt` in
the first (value 1) and in the second (value 2), none in the third nor in
`/tm`; in telescope-model-priority mode the load succeeds and station 2 holds
the value 2 of `/tm/s1/rms.txt`, not the value of `/tm/s0/rms.txt`.  Second:
`/tm/s0` holds `rms.txt` and `/tm/s1` holds a subdirectory and no `rms.txt`;
the load succeeds and station 1 holds no RMS value. -/
theorem C27_intermediate_sibling_counterexample :
    (oskar_telescope_model_noise_load (fun x : ℚ => x)
        (sample_fs_dir [("/tm/s0/rms.txt", [1]), ("/tm/s1/rms.txt", [2])] "/tm"
          three_station_tree)
        empty_telescope sample_tm_settings Status.OSKAR_SUCCESS).map
      (fun r => (r.2, (r.1.station_at 2).map (fun st => st.noise.rms.data))) =
      some (Status.OSKAR_SUCCESS, some [2]) ∧
    (oskar_telescope_model_noise_load (fun x : ℚ => x)
        (sample_fs_dir [("/tm/s0/rms.txt", [1])] "/tm" station_with_child_tree)
        empty_telescope sample_tm_settings Status.OSKAR_SUCCESS).map
      (fun r => (r.2, (r.1.station_at 1).map (fun st => st.noise.rms.data))) =
      some (Status.OSKAR_SUCCESS, some []) := by
  constructor
  · decide!
  · decide!

/-- C27 (amended): dictionary entries set while visiting a station directory
stay visible to later sibling stations until a sibling in between sets them
anew.  If station directory `a` precedes station directory `b` in name order,
`a` contains `rms.txt` (an existing file), no station directory between them
contains `rms.txt`, neither `b` nor the telescope directory contains
`rms.txt`, `b` has no subdirectories, and the load with noise enabled in
telescope-model-priority mode ends in success, then the station of `b` holds
the values of the `rms.txt` of `a`. -/
theorem C27_sibling_rms_file {α : Type} [LinearOrderedField α] (sqrt : α → α)
    (fs : FileSystem α) (telescope telescope2 : oskar_TelescopeModel α)
    (settings : oskar_Settings α) (tdir : QDir) (pre : List QDir) (a : QDir)
    (mid : List QDir) (b : QDir) (post : List QDir)
    (hdir : fs.dir settings.telescope.input_directory = some tdir)
    (hsub : tdir.subdirs = pre ++ a :: (mid ++ b :: post))
    (ha : rms_file ∈ a.entries)
    (hex : fs.exists_ (a.absoluteFilePath rms_file) = true)
    (hmid : ∀ c ∈ mid, rms_file ∉ c.entries)
    (hb : rms_file ∉ b.entries)
    (_htop : rms_file ∉ tdir.entries)
    (hleaf : b.subdirs = [])
    (hspec : settings.interferometer.noise.value.specification =
      NoiseSpec.OSKAR_SYSTEM_NOISE_TELESCOPE_MODEL)
    (hen : settings.interferometer.noise.enable = true)
    (hload : oskar_telescope_model_noise_load sqrt fs telescope settings
      Status.OSKAR_SUCCESS = some (telescope2, Status.OSKAR_SUCCESS)) :
    ∃ st : oskar_StationModel α,
      telescope2.station_at (pre.length + 1 + mid.length) = some st ∧
      fs.load (a.absoluteFilePath rms_file) = some st.noise.rms.data := by
  have hK : tdir.subdirs.length ≠ 0 := by
    rw [hsub]
    simp
  unfold oskar_telescope_model_noise_load at hload
  rw [if_neg (by simp)] at hload
  · by_cases hloc : telescope.location = Location.OSKAR_CPU
    · simp only [hen, not_true_eq_false, if_false, hdir, hloc, ne_eq] at hload
      cases hrun : load_directories sqrt fs settings tdir telescope none 0 FileMap.empty
          Status.OSKAR_SUCCESS with
      | none => simp [hrun] at hload
      | some r =>
        simp only [hrun, Option.some.injEq, Prod.mk.injEq] at hload
        obtain ⟨ht, hs⟩ := hload
        rw [load_directories_zero_eq] at hrun
        cases hf : load_station_freqs fs settings
            (if telescope.station.isNone then
              (oskar_telescope_model_resize telescope tdir.subdirs.length
                Status.OSKAR_SUCCESS).1
              else telescope)
            tdir.subdirs.length (update_noise_files FileMap.empty tdir)
            Status.OSKAR_SUCCESS with
        | none => simp [hf] at hrun
        | some p =>
          obtain ⟨t2, s2⟩ := p
          simp only [hf, hK, if_false] at hrun
          have hlist : tdir.subdirs = (pre ++ a :: mid) ++ b :: post := by
            rw [hsub]
            simp
          rw [hlist] at hrun
          obtain ⟨noise, st, h1, h2, h3⟩ := load_children_sibling sqrt fs settings
            (pre ++ a :: mid) b post t2 none _ s2 r hleaf hrun hs
          have hentry : update_noise_files
              ((pre ++ a :: mid).foldl update_noise_files
                (update_noise_files FileMap.empty tdir)) b rms_file =
              a.absoluteFilePath rms_file := by
            rw [update_noise_files_apply]
            have hbe : b.exists_ rms_file = false := by simp [QDir.exists_, hb]
            simp only [hbe, Bool.false_eq_true, and_false, if_false]
            rw [List.foldl_append, List.foldl_cons, foldl_update_noise_files_rms _ _ hmid,
              update_noise_files_apply]
            have hae : a.exists_ rms_file = true := by simp [QDir.exists_, ha]
            rw [if_pos ⟨by simp, hae⟩]
          have hlen : (pre ++ a :: mid).length = pre.length + 1 + mid.length := by
            simp
            omega
          refine ⟨st, ?_, ?_⟩
          · rw [← ht, ← hlen]
            exact h1
          · have h4 := load_noise_rms_from_rms_file sqrt fs settings noise _ hspec
              (by rw [hentry]; exact hex) h3
            rw [hentry] at h4
            rw [h2]
            exact h4
    · simp [hen, hdir, hloc] at hload

/-- C27 (amended), instance: `/tm/s0` holds `rms.txt` with the value 3 and
`/tm/s1` holds nothing; station 1 ends with the RMS value 3. -/
theorem C27_sibling_rms_file_witness :
    ∃ (telescope2 : oskar_TelescopeModel ℚ) (st : oskar_StationModel ℚ),
      oskar_telescope_model_noise_load (fun x : ℚ => x)
        (sample_fs_dir [("/tm/s0/rms.txt", [3])] "/tm" two_station_tree) empty_telescope
        sample_tm_settings Status.OSKAR_SUCCESS = some (telescope2, Status.OSKAR_SUCCESS) ∧
      telescope2.station_at 1 = some st ∧ st.noise.rms.data = [3] := by
  have hstat : (oskar_telescope_model_noise_load (fun x : ℚ => x)
        (sample_fs_dir [("/tm/s0/rms.txt", [3])] "/tm" two_station_tree) empty_telescope
        sample_tm_settings Status.OSKAR_SUCCESS).map (fun r => r.2) =
      some Status.OSKAR_SUCCESS := by
    decide!
  obtain ⟨⟨telescope2, status2⟩, hres, hok⟩ := Option.map_eq_some'.mp hstat
  simp only at hok
  subst hok
  obtain ⟨st, h1, h2⟩ := C27_sibling_rms_file (fun x : ℚ => x)
    (sample_fs_dir [("/tm/s0/rms.txt", [3])] "/tm" two_station_tree) empty_telescope telescope2
    sample_tm_settings two_station_tree [] (QDir.mk "/tm/s0" ["rms.txt"] []) []
    (QDir.mk "/tm/s1" [] []) [] rfl rfl (by decide) (by decide) (by simp) (by decide)
    (by decide) rfl rfl rfl hres
  refine ⟨telescope2, st, hres, h1, ?_⟩
  have h3 : (sample_fs_dir [("/tm/s0/rms.txt", [(3 : ℚ)])] "/tm" two_station_tree).load
      ((QDir.mk "/tm/s0" ["rms.txt"] []).absoluteFilePath rms_file) = some [3] := by
    decide
  rw [h3] at h2
  exact (Option.some.inj h2).symm

/-- C28: when `noise.freq.specification` is none of telescope model, data
file, observation settings and range, `load_noise_freqs` entered with a
success status reports no error: the status stays success and the frequency
buffer is resized to zero elements, keeping its type. -/
theorem C28_unknown_frequency_mode {α : Type} [LinearOrderedField α] (fs : FileSystem α)
    (s : oskar_Settings α) (freqs : oskar_Mem α) (filepath : String)
    (h1 : s.interferometer.noise.freq.specification ≠
      NoiseSpec.OSKAR_SYSTEM_NOISE_TELESCOPE_MODEL)
    (h2 : s.interferometer.noise.freq.specification ≠ NoiseSpec.OSKAR_SYSTEM_NOISE_DATA_FILE)
    (h3 : s.interferometer.noise.freq.specification ≠
      NoiseSpec.OSKAR_SYSTEM_NOISE_OBS_SETTINGS)
    (h4 : s.interferometer.noise.freq.specification ≠ NoiseSpec.OSKAR_SYSTEM_NOISE_RANGE) :
    load_noise_freqs fs s (some freqs) filepath Status.OSKAR_SUCCESS =
      some (some { type := freqs.type, data := [] }, Status.OSKAR_SUCCESS) := by
  unfold load_noise_freqs
  simp [h1, h2, h3, h4, oskar_mem_realloc, store_loop]

/-- C28, instance: the frequency specification set to the value `RMS`, which
is no frequency mode, and a buffer holding two values. -/
theorem C28_unknown_frequency_mode_witness :
    load_noise_freqs (sample_fs [])
        (set_freq_specification (sample_tm_settings : oskar_Settings ℝ)
          NoiseSpec.OSKAR_SYSTEM_NOISE_RMS)
        (some ⟨MemType.OSKAR_DOUBLE, [1, 2]⟩) "" Status.OSKAR_SUCCESS =
      some (some { type := MemType.OSKAR_DOUBLE, data := [] }, Status.OSKAR_SUCCESS) :=
  C28_unknown_frequency_mode (sample_fs [])
    (set_freq_specification (sample_tm_settings : oskar_Settings ℝ)
      NoiseSpec.OSKAR_SYSTEM_NOISE_RMS)
    ⟨MemType.OSKAR_DOUBLE, [1, 2]⟩ "" (by decide) (by decide) (by decide) (by decide)

/-- C29: for polarised (matrix) visibilities and an image type that is none
of `STOKES`, `STOKES_I`, `STOKES_Q`, `STOKES_U`, `STOKES_V`,
`oskar_get_image_stokes` entered with a success status returns the null
pointer and leaves the status at success. -/
theorem C29_non_stokes_type_null (vis : oskar_Vis ℝ) (settings : oskar_SettingsImage)
    (hpol : oskar_mem_is_matrix vis.amplitude = true)
    (h0 : settings.image_type ≠ ImageType.OSKAR_IMAGE_TYPE_STOKES)
    (h1 : settings.image_type ≠ ImageType.OSKAR_IMAGE_TYPE_STOKES_I)
    (h2 : settings.image_type ≠ ImageType.OSKAR_IMAGE_TYPE_STOKES_Q)
    (h3 : settings.image_type ≠ ImageType.OSKAR_IMAGE_TYPE_STOKES_U)
    (h4 : settings.image_type ≠ ImageType.OSKAR_IMAGE_TYPE_STOKES_V) :
    oskar_get_image_stokes vis settings Status.OSKAR_SUCCESS = (none, Status.OSKAR_SUCCESS) := by
  unfold oskar_get_image_stokes
  simp [hpol, h0, h1, h2, h3, h4]

/-- C29, instance: one polarised amplitude and the linear polarisation type
`OSKAR_IMAGE_TYPE_POL_XX`. -/
theorem C29_non_stokes_type_null_witness :
    oskar_get_image_stokes
      (⟨⟨MemType.OSKAR_DOUBLE, ComplexData.matrix [⟨⟨1, 2⟩, ⟨3, 4⟩, ⟨5, 6⟩, ⟨7, 8⟩⟩]⟩, 1, 1, 1⟩ :
        oskar_Vis ℝ)
      ⟨ImageType.OSKAR_IMAGE_TYPE_POL_XX⟩ Status.OSKAR_SUCCESS =
      (none, Status.OSKAR_SUCCESS) :=
  C29_non_stokes_type_null _ _ rfl (by decide) (by decide) (by decide) (by decide) (by decide)

/-- C30: for every axis `(x, y, z)` with `x^2 + y^2 + z^2 = 1` and every `c`,
`s` with `c^2 + s^2 = 1`, the matrix `M` that `Matrix3::rotation(M, axis, c,
s)` produces is orthogonal over the reals: `M^T M` is the matrix that
`Matrix3::identity` produces. -/
theorem C30_rotation_orthogonal (a : Fin 3 → ℝ) (c s : ℝ)
    (haxis : a 0 ^ 2 + a 1 ^ 2 + a 2 ^ 2 = 1) (hcs : c ^ 2 + s ^ 2 = 1) :
    (Matrix3.toMatrix (Matrix3.rotation a c s)).transpose *
      Matrix3.toMatrix (Matrix3.rotation a c s) =
      Matrix3.toMatrix (Matrix3.identity : Fin 9 → ℝ) := by
  unfold Matrix3.rotation Matrix3.identity
  simp only [toMatrix_set]
  ext i j
  simp only [Matrix.mul_apply, Matrix.transpose_apply, Fin.sum_univ_three]
  fin_cases i <;> fin_cases j <;> simp [Matrix.vecHead, Matrix.vecTail]
  · linear_combination ((1 - c) ^ 2 * a 0 * a 0 + s ^ 2) * haxis + (1 - a 0 * a 0) * hcs
  · linear_combination ((1 - c) ^ 2 * a 0 * a 1) * haxis - (a 0 * a 1) * hcs
  · linear_combination ((1 - c) ^ 2 * a 0 * a 2) * haxis - (a 0 * a 2) * hcs
  · linear_combination ((1 - c) ^ 2 * a 1 * a 0) * haxis - (a 1 * a 0) * hcs
  · linear_combination ((1 - c) ^ 2 * a 1 * a 1 + s ^ 2) * haxis + (1 - a 1 * a 1) * hcs
  · linear_combination ((1 - c) ^ 2 * a 1 * a 2) * haxis - (a 1 * a 2) * hcs
  · linear_combination ((1 - c) ^ 2 * a 2 * a 0) * haxis - (a 2 * a 0) * hcs
  · linear_combination ((1 - c) ^ 2 * a 2 * a 1) * haxis - (a 2 * a 1) * hcs
  · linear_combination ((1 - c) ^ 2 * a 2 * a 2 + s ^ 2) * haxis + (1 - a 2 * a 2) * hcs

/-- C30, instance: the quarter turn about the z axis (`c = 0`, `s = 1`). -/
theorem C30_rotation_orthogonal_witness :
    (Matrix3.toMatrix (Matrix3.rotation (![0, 0, 1] : Fin 3 → ℝ) 0 1)).transpose *
      Matrix3.toMatrix (Matrix3.rotation (![0, 0, 1] : Fin 3 → ℝ) 0 1) =
      Matrix3.toMatrix (Matrix3.identity : Fin 9 → ℝ) :=
  C30_rotation_orthogonal ![0, 0, 1] 0 1 (by simp) (by simp)

end OSKAR
